import Mathlib

/-!
# Terraform provider for TencentCloud: identity codec and CRUD reconcilers

A shallow embedding of the resource functions of

* `resource_tc_api_gateway_plugin_attachment.go`
* `resource_tc_tsf_api_rate_limit_rule.go`
* `resource_tc_vpn_gateway_ssl_client_cert.go`
* `resource_tc_mongodb_standby_instance.go`
* `service_tencentcloud_dcdb.go` (`DescribeDcdbAccountPrivilegesById`,
  `InitDcdbDbInstance`, `DescribeDcdbInstancesByFilter`,
  `DescribeDcdbAccountsByFilter`)

Conventions of the embedding.

* A Go `string` is a Lean `String`; `+` is `++`.
* A Go pointer `*T` is `Option T`; dereferencing `none` is a run-time panic.
* A Go function returning `error` returns a `Res`: `ok`, `err e`, or `panic`.
* The remote side is an oracle `Remote`: every service or SDK call receives the
  history of the calls issued so far and answers from it.  Each call is
  appended to the history together with a flag saying whether it succeeded.
* Logging (`log.Printf`, `logElapsed`, `inconsistentCheck`) and rate-limit
  sleeps (`ratelimit.Check`) have no effect on the results and are left out.
* A loop without a bound of its own takes the number of rounds it may run as
  an argument and reports when it is still running after them; `resource.Retry`
  takes the number of further attempts that its timeout leaves room for.
-/

namespace TencentCloud

/-! ## Go runtime and standard library -/

/-- Result of running a Go function: a normal return with a value, a normal
return with a non-nil `error`, or a run-time panic. -/
inductive Res (ε α : Type) where
  | ok (a : α)
  | err (e : ε)
  | panic
deriving DecidableEq, Repr

/-- An error value produced by a service-layer or SDK call. -/
structure RemoteError where
  code : String
deriving DecidableEq, Repr

/-- A Go `error` value, by origin: built in the resource code with
`fmt.Errorf` / `errors.New`, or handed back by a service-layer or SDK call. -/
inductive GoError where
  | Errorf (msg : String)
  | Remote (e : RemoteError)
deriving DecidableEq, Repr

/-- Scanning loop of `strings.Split` for a non-empty separator: `acc` holds the
current piece in reverse, the `Nat` counts the bytes of a matched separator
that are still to be skipped. -/
def splitLoop (sep : List Char) : Nat → List Char → List Char → List (List Char)
  | _, acc, [] => [acc.reverse]
  | skip + 1, acc, _ :: rest => splitLoop sep skip acc rest
  | 0, acc, c :: rest =>
      if sep.isPrefixOf (c :: rest) then acc.reverse :: splitLoop sep (sep.length - 1) [] rest
      else splitLoop sep 0 (c :: acc) rest

/-- Go `strings.Split(s, sep)`: the pieces of `s` between the occurrences of
`sep`; with an empty `sep` the string is cut into its characters. -/
def Split (s sep : String) : List String :=
  if sep.data = [] then s.data.map (fun c => String.mk [c])
  else (splitLoop sep.data 0 [] s.data).map String.mk

/-- Go `strings.Contains(s, substr)`. -/
def Contains (s substr : String) : Bool :=
  s.data.tails.any (fun t => substr.data.isPrefixOf t)

/-- Go `int(x)` for `x : uint64`: two's complement reinterpretation. -/
def intOfUint64 (x : Nat) : Int :=
  if x % 2 ^ 64 < 2 ^ 63 then ((x % 2 ^ 64 : Nat) : Int) else ((x % 2 ^ 64 : Nat) : Int) - 2 ^ 64

/-- Go `uint64(x)` for `x : int` (`helper.IntUint64`). -/
def uint64OfInt (x : Int) : Nat :=
  (x % 2 ^ 64).toNat

/-- Go `x + y` on `int64`: the sum wraps around in two's complement. -/
def addInt64 (x y : Int) : Int :=
  (x + y + 2 ^ 63) % 2 ^ 64 - 2 ^ 63

/-! ## Constants and helpers declared outside the modelled files -/

/-- Modelled from the spec: the constant `FILED_SP` is declared outside the
files at hand; the identity codec joins and splits on the separator `#`. -/
def FILED_SP : String := "#"

/-- Constants, tables and pure helpers of the provider that the modelled files
use and that are declared elsewhere: they are parameters of the embedding. -/
structure Env where
  /-- `getLogId(contextNil)`. -/
  logId : String
  /-- `meta.(*TencentCloudClient).apiV3Conn.Region`. -/
  Region : String
  /-- `writeRetryTimeout`, measured in the number of further attempts that
  `resource.Retry` can make after the first one before the time runs out. -/
  writeRetryTimeout : Nat
  /-- `readRetryTimeout`, measured like `writeRetryTimeout`. -/
  readRetryTimeout : Nat
  /-- Whether `retryError` classifies a remote error as retryable. -/
  retryable : RemoteError → Bool
  /-- The table `MONGODB_CHARGE_TYPE` (a missing key gives the empty string). -/
  MONGODB_CHARGE_TYPE : Nat → String
  /-- The constant `MONGODB_CHARGE_TYPE_PREPAID`. -/
  MONGODB_CHARGE_TYPE_PREPAID : String
  /-- The helper `diffTags (oldTags, newTags)`, giving `(replaceTags, deleteTags)`. -/
  diffTags : List (String × String) → List (String × String) → List (String × String) × List String
  /-- The helper `BuildTagResourceName (serviceType, resourceType, region, id)`. -/
  BuildTagResourceName : String → String → String → String → String
  /-- The constant `MONGODB_CLUSTER_TYPE_REPLSET`. -/
  MONGODB_CLUSTER_TYPE_REPLSET : String
  /-- The constant `MONGO_INSTANCE_TYPE_STANDBY`. -/
  MONGO_INSTANCE_TYPE_STANDBY : Int
  /-- The constant `MONGODB_ENGINE_VERSION_4_WT`. -/
  MONGODB_ENGINE_VERSION_4_WT : String
  /-- The constant `MONGODB_CHARGE_TYPE_POSTPAID`. -/
  MONGODB_CHARGE_TYPE_POSTPAID : String
  /-- Whether `retryError (err, InternalError)`, the classification with the
  additional code `InternalError`, takes a remote error as retryable. -/
  retryableOrInternalError : RemoteError → Bool

/-! ## `schema.ResourceData` -/

/-- A value held by a resource attribute. -/
inductive Value where
  | null
  | str (s : String)
  | int (n : Int)
  | map (m : List (String × String))
  | set (l : List String)
deriving DecidableEq, Repr

/-- Whether a value is the zero value of its type. -/
def Value.isZero : Value → Bool
  | .null => true
  | .str s => s == ""
  | .int n => n == 0
  | .map m => m.isEmpty
  | .set l => l.isEmpty

/-- The type assertion `v.(string)`; the schema types the attribute. -/
def Value.asString : Value → String
  | .str s => s
  | _ => ""

/-- The type assertion `v.(int)`; the schema types the attribute. -/
def Value.asInt : Value → Int
  | .int n => n
  | _ => 0

/-- The type assertion `v.(map[string]interface{})`; the schema types the attribute. -/
def Value.asMap : Value → List (String × String)
  | .map m => m
  | _ => []

/-- The part of `schema.ResourceData` the resource functions observe.  A fresh
value is built for every CRUD operation; within one operation every `Get`
comes before the first `Set`, so `Get` reads the planned values only and the
writes are kept as a log.  Maps are association lists in a canonical order.  -/
structure ResourceData where
  /-- The stored identity, `d.Id()`. -/
  id : String
  /-- Prior state: the old side of `GetChange`. -/
  state : String → Value
  /-- Planned values (state merged with configuration and diff): what `Get` reads. -/
  config : String → Value
  /-- The writes made through `d.Set`, oldest first. -/
  sets : List (String × Value)
  /-- The flag toggled by `d.Partial`. -/
  partialMode : Bool
  /-- The keys recorded through `d.SetPartial`, oldest first. -/
  partialKeys : List String

namespace ResourceData

/-- The SDK method `d.SetId`. -/
def SetId (d : ResourceData) (v : String) : ResourceData := { d with id := v }

/-- The SDK method `d.Get`. -/
def Get (d : ResourceData) (key : String) : Value := d.config key

/-- The SDK method `d.GetOk`: the value, and whether it is set to a non-zero value. -/
def GetOk (d : ResourceData) (key : String) : Value × Bool := (d.config key, !(d.config key).isZero)

/-- The SDK method `d.GetChange`: old and new value. -/
def GetChange (d : ResourceData) (key : String) : Value × Value := (d.state key, d.config key)

/-- The SDK method `d.HasChange`. -/
def HasChange (d : ResourceData) (key : String) : Bool := decide (d.state key ≠ d.config key)

/-- The SDK method `d.Set`. -/
def Set (d : ResourceData) (key : String) (v : Value) : ResourceData :=
  { d with sets := d.sets ++ [(key, v)] }

/-- The SDK method `d.Set` with a pointer argument: a nil pointer writes nil. -/
def SetPtr (d : ResourceData) (key : String) (p : Option Value) : ResourceData :=
  match p with
  | some v => d.Set key v
  | none => d.Set key .null

/-- The SDK method `d.Partial`. -/
def Partial (d : ResourceData) (flag : Bool) : ResourceData :=
  { d with partialMode := flag }

/-- The SDK method `d.SetPartial`. -/
def SetPartial (d : ResourceData) (key : String) : ResourceData :=
  { d with partialKeys := d.partialKeys ++ [key] }

end ResourceData

/-! ## Remote data -/

/-- Request `apiGateway.AttachPluginRequest`, the fields the resource fills. -/
structure AttachPluginRequest where
  PluginId : Option String
  ServiceId : Option String
  EnvironmentName : Option String
  ApiIds : List String
deriving DecidableEq, Repr

/-- Response item `apiGateway.AttachedApiInfo`, the fields the resource reads. -/
structure AttachedApiInfo where
  ServiceId : Option String
  Environment : Option String
  ApiId : Option String
deriving DecidableEq, Repr

/-- Request `tsf.CreateApiRateLimitRuleWithDetailRespRequest`. -/
structure CreateApiRateLimitRuleWithDetailRespRequest where
  ApiId : Option String
  MaxQps : Option Nat
  UsableStatus : Option String
deriving DecidableEq, Repr

/-- Request `tsf.UpdateApiRateLimitRuleRequest`. -/
structure UpdateApiRateLimitRuleRequest where
  RuleId : Option String
  MaxQps : Option Int
  UsableStatus : Option String
deriving DecidableEq, Repr

/-- Remote object `tsf.ApiRateLimitRule`. -/
structure ApiRateLimitRule where
  ApiId : Option String
  MaxQps : Option Nat
  UsableStatus : Option String
  RuleId : Option String
  RuleName : Option String
  RuleContent : Option String
  TsfRuleId : Option String
  Description : Option String
  CreatedTime : Option String
  UpdatedTime : Option String
deriving DecidableEq, Repr

/-- Remote object `vpc.SslVpnClient`, the fields the resource reads. -/
structure SslVpnClient where
  SslVpnClientId : Option String
  CertStatus : Option Nat
deriving DecidableEq, Repr

/-- Remote object `mongodb.TagInfo`. -/
structure TagInfo where
  TagKey : Option String
  TagValue : Option String
deriving DecidableEq, Repr

/-- Remote object `mongodb.DBInstanceInfo`. -/
structure DBInstanceInfo where
  InstanceId : Option String
  Region : Option String
deriving DecidableEq, Repr

/-- Remote object `mongodb.InstanceDetail`, the fields the resource reads.
Fields of type `*uint64` hold natural numbers below `2 ^ 64`. -/
structure InstanceDetail where
  InstanceName : Option String
  ProjectId : Option Nat
  Zone : Option String
  VpcId : Option String
  SubnetId : Option String
  Status : Option Int
  Vip : Option String
  Vport : Option Nat
  CreateTime : Option String
  MongoVersion : Option String
  Memory : Option Nat
  Volume : Option Nat
  MachineType : Option String
  PayMode : Option Nat
  AutoRenewFlag : Option Nat
  ReplicationSetNum : Option Nat
  RelatedInstance : Option DBInstanceInfo
  Tags : List (Option TagInfo)
deriving DecidableEq, Repr

/-- Request `dcdb.DescribeAccountPrivilegesRequest`. -/
structure DescribeAccountPrivilegesRequest where
  InstanceId : Option String
  UserName : Option String
  Host : Option String
  DbName : Option String
  Type_ : Option String
  Object : Option String
  ColName : Option String
deriving DecidableEq, Repr

/-- Response body `dcdb.DescribeAccountPrivilegesResponseParams`. -/
structure DescribeAccountPrivilegesResponseParams where
  InstanceId : Option String
  Privileges : List String
  UserName : Option String
  Host : Option String
deriving DecidableEq, Repr

/-- The provider client `connectivity.TencentCloudClient`: the field the
resource code reads and writes. -/
structure TencentCloudClient where
  Region : String
deriving DecidableEq, Repr

/-- The requests `mongodb.CreateDBInstanceHourRequest` and
`mongodb.CreateDBInstanceRequest`, the fields the resource fills; the first of
the two has no `Period` and no `AutoRenewFlag`, which then stay unset. -/
structure CreateDBInstanceRequest where
  ReplicateSetNum : Option Nat
  NodeNum : Option Nat
  GoodsNum : Option Nat
  ClusterType : Option String
  Memory : Option Nat
  Volume : Option Nat
  MongoVersion : Option String
  Zone : Option String
  MachineCode : Option String
  Clone : Option Int
  ProjectId : Option Int
  Father : Option String
  VpcId : Option String
  SubnetId : Option String
  SecurityGroup : List String
  Period : Option Nat
  AutoRenewFlag : Option Nat
deriving DecidableEq, Repr

/-- Remote object `dcdb.DCDBInstanceInfo`, the field the service reads. -/
structure DCDBInstanceInfo where
  Status : Option Int
deriving DecidableEq, Repr

/-- Remote object `dcdb.DBParamValue`. -/
structure DBParamValue where
  Param : Option String
  Value : Option String
deriving DecidableEq, Repr

/-- Request `dcdb.InitDCDBInstancesRequest`. -/
structure InitDCDBInstancesRequest where
  InstanceIds : List String
  Params : List (Option DBParamValue)
deriving DecidableEq, Repr

/-- Request `dcdb.DescribeDCDBInstancesRequest`, the fields the service fills. -/
structure DescribeDCDBInstancesRequest where
  InstanceIds : List (Option String)
  SearchName : Option String
  SearchKey : Option String
  ProjectIds : List (Option Int)
  IsFilterExcluster : Option Bool
  ExclusterType : Option Int
  IsFilterVpc : Option Bool
  VpcId : Option String
  SubnetId : Option String
  Offset : Option Int
  Limit : Option Int
deriving DecidableEq, Repr

/-- Response body `dcdb.DescribeDCDBInstancesResponseParams`, the field the
service reads. -/
structure DescribeDCDBInstancesResponseParams where
  Instances : List (Option DCDBInstanceInfo)
deriving DecidableEq, Repr

/-- Response `dcdb.DescribeDCDBInstancesResponse`. -/
structure DescribeDCDBInstancesResponse where
  Response : Option DescribeDCDBInstancesResponseParams
deriving DecidableEq, Repr

/-- Request `dcdb.DescribeAccountsRequest`, the field the service fills. -/
structure DescribeAccountsRequest where
  InstanceId : Option String
deriving DecidableEq, Repr

/-- Remote object `dcdb.DBAccount`, the fields that name the account. -/
structure DBAccount where
  UserName : Option String
  Host : Option String
deriving DecidableEq, Repr

/-- Response body `dcdb.DescribeAccountsResponseParams`, the field the service
reads in `DescribeDcdbAccountsByFilter`. -/
structure DescribeAccountsResponseParams where
  Users : List (Option DBAccount)
deriving DecidableEq, Repr

/-- Response `dcdb.DescribeAccountsResponse`. -/
structure DescribeAccountsResponse where
  Response : Option DescribeAccountsResponseParams
deriving DecidableEq, Repr

/-- A call to the service layer or to the SDK client, with its arguments.  A
call that names no client goes through the shared provider client; the calls
of the standby-instance Create carry the client they go through. -/
inductive Call where
  | AttachPlugin (request : AttachPluginRequest)
  | DescribeApiGatewayPluginAttachmentById (pluginId serviceId environmentName apiId : String)
  | DeleteApiGatewayPluginAttachmentById (pluginId serviceId environmentName apiId : String)
  | CreateApiRateLimitRuleWithDetailResp (request : CreateApiRateLimitRuleWithDetailRespRequest)
  | DescribeTsfApiRateLimitRuleById (apiId ruleId : String)
  | UpdateApiRateLimitRule (request : UpdateApiRateLimitRuleRequest)
  | DeleteTsfApiRateLimitRuleById (apiId ruleId : String)
  | DescribeVpnSslClientById (sslVpnClientId : String)
  | DescribeInstanceById (instanceId : String)
  | UpgradeInstance (instanceId : String) (memory volume : Int)
  | ModifyInstanceName (instanceId instanceName : String)
  | ModifyProjectId (instanceId : String) (projectId : Int)
  | ModifyTags (resourceName : String) (replaceTags : List (String × String)) (deleteTags : List String)
  | ModifyAutoRenewFlag (instanceId : String) (period autoRenewFlag : Int)
  | IsolateInstance (instanceId : String)
  | OfflineIsolatedDBInstance (instanceId : String) (timeOutTolerant : Bool)
  | DescribeAccountPrivileges (request : DescribeAccountPrivilegesRequest)
  | DescribeInstanceByIdOn (client : TencentCloudClient) (instanceId : String)
  | ModifyInstanceNameOn (client : TencentCloudClient) (instanceId instanceName : String)
  | ModifyTagsOn (client : TencentCloudClient) (resourceName : String)
      (replaceTags : List (String × String)) (deleteTags : List String)
  | CreateDBInstanceHour (client : TencentCloudClient) (request : CreateDBInstanceRequest)
  | CreateDBInstance (client : TencentCloudClient) (request : CreateDBInstanceRequest)
  | EnableVpnGatewaySslClientCert (sslVpnClientId : String)
  | DisableVpnGatewaySslClientCert (sslVpnClientId : String)
  | DescribeVpcTaskResult (taskId : String)
  | DescribeDcdbDbInstance (instanceId : String)
  | InitDCDBInstances (request : InitDCDBInstancesRequest)
  | DescribeDCDBInstances (request : DescribeDCDBInstancesRequest)
  | DescribeAccounts (request : DescribeAccountsRequest)
deriving DecidableEq, Repr

/-- One entry of the call history: the call and whether it returned without error. -/
structure Event where
  call : Call
  ok : Bool
deriving DecidableEq, Repr

/-- The remote side: the answer of every call as a function of the history of
the calls issued before it.  A describe call answers `none` when the object
does not exist. -/
structure Remote where
  AttachPlugin : List Event → AttachPluginRequest → Option RemoteError
  DescribeApiGatewayPluginAttachmentById :
    List Event → String → String → String → String → Except RemoteError (Option AttachedApiInfo)
  DeleteApiGatewayPluginAttachmentById :
    List Event → String → String → String → String → Option RemoteError
  /-- The answer carries `response.Response.Result.RuleId`, `none` when a
  pointer on that path is nil. -/
  CreateApiRateLimitRuleWithDetailResp :
    List Event → CreateApiRateLimitRuleWithDetailRespRequest → Except RemoteError (Option String)
  DescribeTsfApiRateLimitRuleById :
    List Event → String → String → Except RemoteError (Option ApiRateLimitRule)
  UpdateApiRateLimitRule : List Event → UpdateApiRateLimitRuleRequest → Option RemoteError
  DeleteTsfApiRateLimitRuleById : List Event → String → String → Option RemoteError
  DescribeVpnSslClientById : List Event → String → Except RemoteError (Option SslVpnClient)
  DescribeInstanceById : List Event → String → Except RemoteError (Option InstanceDetail)
  UpgradeInstance : List Event → String → Int → Int → Option RemoteError
  ModifyInstanceName : List Event → String → String → Option RemoteError
  ModifyProjectId : List Event → String → Int → Option RemoteError
  ModifyTags :
    List Event → String → List (String × String) → List String → Option RemoteError
  ModifyAutoRenewFlag : List Event → String → Int → Int → Option RemoteError
  IsolateInstance : List Event → String → Option RemoteError
  OfflineIsolatedDBInstance : List Event → String → Bool → Option RemoteError
  DescribeAccountPrivileges :
    List Event → DescribeAccountPrivilegesRequest →
      Except RemoteError (Option DescribeAccountPrivilegesResponseParams)
  /-- The service method `DescribeInstanceById` of a `MongodbService` on the given client. -/
  DescribeInstanceByIdOn :
    List Event → TencentCloudClient → String → Except RemoteError (Option InstanceDetail)
  /-- The service method `ModifyInstanceName` of a `MongodbService` on the given client. -/
  ModifyInstanceNameOn : List Event → TencentCloudClient → String → String → Option RemoteError
  /-- The service method `ModifyTags` of a `TagService` on the given client. -/
  ModifyTagsOn :
    List Event → TencentCloudClient → String → List (String × String) → List String →
      Option RemoteError
  /-- The answer carries `response.Response.InstanceIds`. -/
  CreateDBInstanceHour :
    List Event → TencentCloudClient → CreateDBInstanceRequest →
      Except RemoteError (List (Option String))
  /-- The answer carries `response.Response.InstanceIds`. -/
  CreateDBInstance :
    List Event → TencentCloudClient → CreateDBInstanceRequest →
      Except RemoteError (List (Option String))
  /-- The answer carries `result.Response.TaskId`. -/
  EnableVpnGatewaySslClientCert : List Event → String → Except RemoteError (Option Nat)
  /-- The answer carries `result.Response.TaskId`. -/
  DisableVpnGatewaySslClientCert : List Event → String → Except RemoteError (Option Nat)
  DescribeVpcTaskResult : List Event → String → Option RemoteError
  /-- The status read of the DCDB initialisation: the service method
  `DescribeDcdbDbInstance`, taken as one call whose answer carries the
  `Instances` it collects; the pages that it gathers through
  `DescribeDcdbInstancesByFilter` are not told apart. -/
  DescribeDcdbDbInstance :
    List Event → String → Except RemoteError (List (Option DCDBInstanceInfo))
  /-- The answer carries `result.Response.FlowIds`. -/
  InitDCDBInstances :
    List Event → InitDCDBInstancesRequest → Except RemoteError (List (Option Nat))
  /-- The SDK call `DescribeDCDBInstances`; the answer is the response pointer. -/
  DescribeDCDBInstances :
    List Event → DescribeDCDBInstancesRequest →
      Except RemoteError (Option DescribeDCDBInstancesResponse)
  /-- The SDK call `DescribeAccounts`; the answer is the response pointer. -/
  DescribeAccounts :
    List Event → DescribeAccountsRequest → Except RemoteError (Option DescribeAccountsResponse)

/-- Append a call and its outcome to the history. -/
def record (tr : List Event) (c : Call) (ok : Bool) : List Event := tr ++ [⟨c, ok⟩]

/-- Issue a call that returns only an `error`. -/
def callErr (tr : List Event) (c : Call) (answer : Option RemoteError) :
    List Event × Option RemoteError :=
  (record tr c answer.isNone, answer)

/-- Issue a call that returns a value and an `error`. -/
def callVal {α : Type} (tr : List Event) (c : Call) (answer : Except RemoteError α) :
    List Event × Except RemoteError α :=
  (record tr c (match answer with | .ok _ => true | .error _ => false), answer)

/-! ## `resource.Retry` -/

/-- SDK type `resource.RetryError`. -/
structure RetryError where
  Err : GoError
  Retryable : Bool
deriving DecidableEq, Repr

/-- The helper `retryError`, declared elsewhere: it wraps the error and marks
it retryable or not; the classification is the parameter `Env.retryable`. -/
def retryError (env : Env) (e : RemoteError) : RetryError :=
  { Err := .Remote e, Retryable := env.retryable e }

/-- SDK function `resource.Retry(timeout, f)`: `f` is run until it succeeds,
fails with a non-retryable error, or the time is used up, in which case the
last error is returned.  The `Nat` is the number of further attempts the
timeout leaves room for after the first one. -/
def Retry {α : Type} (f : List Event → List Event × Res RetryError α) :
    Nat → List Event → List Event × Res GoError α
  | 0, tr =>
      match f tr with
      | (tr1, .ok a) => (tr1, .ok a)
      | (tr1, .err e) => (tr1, .err e.Err)
      | (tr1, .panic) => (tr1, .panic)
  | n + 1, tr =>
      match f tr with
      | (tr1, .ok a) => (tr1, .ok a)
      | (tr1, .err e) => if e.Retryable then Retry f n tr1 else (tr1, .err e.Err)
      | (tr1, .panic) => (tr1, .panic)

/-- The closure handed to `resource.Retry` around an SDK call that returns only
an error: the call is issued, an error is classified by `retryError`. -/
def retryCall (env : Env) (c : Call) (answer : List Event → Option RemoteError)
    (t : List Event) : List Event × Res RetryError Unit :=
  match callErr t c (answer t) with
  | (t1, some e) => (t1, .err (retryError env e))
  | (t1, none) => (t1, .ok ())

/-- The closure handed to `resource.Retry` around an SDK call whose response
is kept: the call is issued, an error is classified by `retryError`. -/
def retryCallVal {α : Type} (env : Env) (c : Call) (answer : List Event → Except RemoteError α)
    (t : List Event) : List Event × Res RetryError α :=
  match callVal t c (answer t) with
  | (t1, .error e) => (t1, .err (retryError env e))
  | (t1, .ok result) => (t1, .ok result)

/-- State after a resource function has run: the resource data, the call
history, and how the function ended (`ok ()` is a `nil` error). -/
structure Run where
  d : ResourceData
  trace : List Event
  out : Res GoError Unit

/-- Sequencing inside one resource function: the next block runs only when the
previous one did not return early. -/
def Run.andThen (x : Run) (k : ResourceData → List Event → Run) : Run :=
  match x.out with
  | .ok () => k x.d x.trace
  | .err e => ⟨x.d, x.trace, .err e⟩
  | .panic => ⟨x.d, x.trace, .panic⟩

/-- The guarded write `if p != nil \x7b _ = d.Set(key, p) \x7d`. -/
def ResourceData.SetNonNil (d : ResourceData) (key : String) (p : Option Value) : ResourceData :=
  match p with
  | some v => d.Set key v
  | none => d

/-! ## `resource_tc_api_gateway_plugin_attachment.go` -/

/-- Source function `resourceTencentCloudApiGatewayPluginAttachmentRead`. -/
def resourceTencentCloudApiGatewayPluginAttachmentRead
    (r : Remote) (d : ResourceData) (tr : List Event) : Run :=
  let idSplit := Split d.id FILED_SP
  if idSplit.length ≠ 4 then
    ⟨d, tr, .err (.Errorf ("id is broken," ++ d.id))⟩
  else
    let pluginId := idSplit.getD 0 ""
    let serviceId := idSplit.getD 1 ""
    let environmentName := idSplit.getD 2 ""
    let apiId := idSplit.getD 3 ""
    match callVal tr (.DescribeApiGatewayPluginAttachmentById pluginId serviceId environmentName apiId)
        (r.DescribeApiGatewayPluginAttachmentById tr pluginId serviceId environmentName apiId) with
    | (tr1, .error err) => ⟨d, tr1, .err (.Remote err)⟩
    | (tr1, .ok none) =>
        let d1 := d.SetId ""
        ⟨d1, tr1, .err (.Errorf ("resource `ApiGatewayPluginAttachment` " ++ d1.id ++ " does not exist"))⟩
    | (tr1, .ok (some pluginAttachment)) =>
        let d1 := d.Set "plugin_id" (.str pluginId)
        let d2 := d1.SetNonNil "service_id" (pluginAttachment.ServiceId.map .str)
        let d3 := d2.SetNonNil "environment_name" (pluginAttachment.Environment.map .str)
        let d4 := d3.SetNonNil "api_id" (pluginAttachment.ApiId.map .str)
        ⟨d4, tr1, .ok ()⟩

/-- Source function `resourceTencentCloudApiGatewayPluginAttachmentCreate`. -/
def resourceTencentCloudApiGatewayPluginAttachmentCreate
    (env : Env) (r : Remote) (d : ResourceData) (tr : List Event) : Run :=
  let plugin := d.GetOk "plugin_id"
  let service := d.GetOk "service_id"
  let environment := d.GetOk "environment_name"
  let api := d.GetOk "api_id"
  let pluginId := if plugin.2 then plugin.1.asString else ""
  let serviceId := if service.2 then service.1.asString else ""
  let environmentName := if environment.2 then environment.1.asString else ""
  let apiId := if api.2 then api.1.asString else ""
  let request : AttachPluginRequest :=
    { PluginId := if plugin.2 then some plugin.1.asString else none
      ServiceId := if service.2 then some service.1.asString else none
      EnvironmentName := if environment.2 then some environment.1.asString else none
      ApiIds := if api.2 then [api.1.asString] else [] }
  match Retry (retryCall env (.AttachPlugin request) (fun t => r.AttachPlugin t request))
      env.writeRetryTimeout tr with
  | (tr1, .err err) => ⟨d, tr1, .err err⟩
  | (tr1, .panic) => ⟨d, tr1, .panic⟩
  | (tr1, .ok _) =>
      let d1 := d.SetId
        (pluginId ++ FILED_SP ++ serviceId ++ FILED_SP ++ environmentName ++ FILED_SP ++ apiId)
      resourceTencentCloudApiGatewayPluginAttachmentRead r d1 tr1

/-- Source function `resourceTencentCloudApiGatewayPluginAttachmentDelete`. -/
def resourceTencentCloudApiGatewayPluginAttachmentDelete
    (r : Remote) (d : ResourceData) (tr : List Event) : Run :=
  let idSplit := Split d.id FILED_SP
  if idSplit.length ≠ 4 then
    ⟨d, tr, .err (.Errorf ("id is broken," ++ d.id))⟩
  else
    let pluginId := idSplit.getD 0 ""
    let serviceId := idSplit.getD 1 ""
    let environmentName := idSplit.getD 2 ""
    let apiId := idSplit.getD 3 ""
    match callErr tr (.DeleteApiGatewayPluginAttachmentById pluginId serviceId environmentName apiId)
        (r.DeleteApiGatewayPluginAttachmentById tr pluginId serviceId environmentName apiId) with
    | (tr1, some err) => ⟨d, tr1, .err (.Remote err)⟩
    | (tr1, none) => ⟨d, tr1, .ok ()⟩

/-! ## `resource_tc_tsf_api_rate_limit_rule.go` -/

/-- Source function `resourceTencentCloudTsfApiRateLimitRuleRead`. -/
def resourceTencentCloudTsfApiRateLimitRuleRead
    (r : Remote) (d : ResourceData) (tr : List Event) : Run :=
  let idSplit := Split d.id FILED_SP
  if idSplit.length ≠ 2 then
    ⟨d, tr, .err (.Errorf ("id is broken," ++ d.id))⟩
  else
    let apiId := idSplit.getD 0 ""
    let ruleId := idSplit.getD 1 ""
    match callVal tr (.DescribeTsfApiRateLimitRuleById apiId ruleId)
        (r.DescribeTsfApiRateLimitRuleById tr apiId ruleId) with
    | (tr1, .error err) => ⟨d, tr1, .err (.Remote err)⟩
    | (tr1, .ok none) => ⟨d.SetId "", tr1, .ok ()⟩
    | (tr1, .ok (some apiRateLimitRule)) =>
        let d1 := d.SetNonNil "api_id" (apiRateLimitRule.ApiId.map .str)
        let d2 := d1.SetNonNil "max_qps" (apiRateLimitRule.MaxQps.map (fun n => .int (Int.ofNat n)))
        let d3 := d2.SetNonNil "usable_status" (apiRateLimitRule.UsableStatus.map .str)
        let d4 := d3.SetNonNil "rule_id" (apiRateLimitRule.RuleId.map .str)
        let d5 := d4.SetNonNil "rule_name" (apiRateLimitRule.RuleName.map .str)
        let d6 := d5.SetNonNil "rule_content" (apiRateLimitRule.RuleContent.map .str)
        let d7 := d6.SetNonNil "tsf_rule_id" (apiRateLimitRule.TsfRuleId.map .str)
        let d8 := d7.SetNonNil "description" (apiRateLimitRule.Description.map .str)
        let d9 := d8.SetNonNil "created_time" (apiRateLimitRule.CreatedTime.map .str)
        let d10 := d9.SetNonNil "updated_time" (apiRateLimitRule.UpdatedTime.map .str)
        ⟨d10, tr1, .ok ()⟩

/-- Source function `resourceTencentCloudTsfApiRateLimitRuleCreate`.  The test
`v != nil` on the value of `GetOk` holds for every attribute of the schema. -/
def resourceTencentCloudTsfApiRateLimitRuleCreate
    (env : Env) (r : Remote) (d : ResourceData) (tr : List Event) : Run :=
  let api := d.GetOk "api_id"
  let qps := d.GetOk "max_qps"
  let usable := d.GetOk "usable_status"
  let apiId := if api.2 then api.1.asString else ""
  let request : CreateApiRateLimitRuleWithDetailRespRequest :=
    { ApiId := if api.2 then some api.1.asString else none
      MaxQps := some (uint64OfInt qps.1.asInt)
      UsableStatus := if usable.2 then some usable.1.asString else none }
  match Retry (retryCallVal env (.CreateApiRateLimitRuleWithDetailResp request)
      (fun t => r.CreateApiRateLimitRuleWithDetailResp t request)) env.writeRetryTimeout tr with
  | (tr1, .err err) => ⟨d, tr1, .err err⟩
  | (tr1, .panic) => ⟨d, tr1, .panic⟩
  | (tr1, .ok response) =>
      match response with
      | none => ⟨d, tr1, .panic⟩
      | some ruleId =>
          resourceTencentCloudTsfApiRateLimitRuleRead r (d.SetId (apiId ++ FILED_SP ++ ruleId)) tr1

/-- Source function `resourceTencentCloudTsfApiRateLimitRuleUpdate`. -/
def resourceTencentCloudTsfApiRateLimitRuleUpdate
    (env : Env) (r : Remote) (d : ResourceData) (tr : List Event) : Run :=
  let idSplit := Split d.id FILED_SP
  if idSplit.length ≠ 2 then
    ⟨d, tr, .err (.Errorf ("id is broken," ++ d.id))⟩
  else
    let ruleId := idSplit.getD 1 ""
    if d.HasChange "api_id" then
      ⟨d, tr, .err (.Errorf ("argument `" ++ "api_id" ++ "` cannot be changed"))⟩
    else
      let request : UpdateApiRateLimitRuleRequest :=
        { RuleId := some ruleId
          MaxQps := if d.HasChange "max_qps" then some (d.GetOk "max_qps").1.asInt else none
          UsableStatus :=
            if d.HasChange "usable_status" && (d.GetOk "usable_status").2 then
              some (d.GetOk "usable_status").1.asString
            else none }
      match Retry (retryCall env (.UpdateApiRateLimitRule request)
          (fun t => r.UpdateApiRateLimitRule t request)) env.writeRetryTimeout tr with
      | (tr1, .err err) => ⟨d, tr1, .err err⟩
      | (tr1, .panic) => ⟨d, tr1, .panic⟩
      | (tr1, .ok _) => resourceTencentCloudTsfApiRateLimitRuleRead r d tr1

/-- Source function `resourceTencentCloudTsfApiRateLimitRuleDelete`. -/
def resourceTencentCloudTsfApiRateLimitRuleDelete
    (r : Remote) (d : ResourceData) (tr : List Event) : Run :=
  let idSplit := Split d.id FILED_SP
  if idSplit.length ≠ 2 then
    ⟨d, tr, .err (.Errorf ("id is broken," ++ d.id))⟩
  else
    let apiId := idSplit.getD 0 ""
    let ruleId := idSplit.getD 1 ""
    match callErr tr (.DeleteTsfApiRateLimitRuleById apiId ruleId)
        (r.DeleteTsfApiRateLimitRuleById tr apiId ruleId) with
    | (tr1, some err) => ⟨d, tr1, .err (.Remote err)⟩
    | (tr1, none) => ⟨d, tr1, .ok ()⟩

/-! ## `resource_tc_vpn_gateway_ssl_client_cert.go` -/

/-- Source function `resourceTencentCloudVpnGatewaySslClientCertRead`. -/
def resourceTencentCloudVpnGatewaySslClientCertRead
    (r : Remote) (d : ResourceData) (tr : List Event) : Run :=
  let sslVpnClientId := d.id
  match callVal tr (.DescribeVpnSslClientById sslVpnClientId)
      (r.DescribeVpnSslClientById tr sslVpnClientId) with
  | (tr1, .error err) => ⟨d, tr1, .err (.Remote err)⟩
  | (tr1, .ok none) => ⟨d.SetId "", tr1, .ok ()⟩
  | (tr1, .ok (some vpnGatewaySslClientCert)) =>
      let d1 := d.SetNonNil "ssl_vpn_client_id" (vpnGatewaySslClientCert.SslVpnClientId.map .str)
      let d2 :=
        match vpnGatewaySslClientCert.CertStatus with
        | some certStatus =>
            let da := if certStatus = 1 then d1.Set "switch" (.str "on") else d1
            if certStatus = 2 then da.Set "switch" (.str "off") else da
        | none => d1
      ⟨d2, tr1, .ok ()⟩

/-! ## `service_tencentcloud_dcdb.go` -/

/-- Source function `DcdbService.DescribeDcdbAccountPrivilegesById`: the call
history after it, and its two results as one value. -/
def DescribeDcdbAccountPrivilegesById (r : Remote) (ids : String)
    (dbName aType object colName : Option String) (tr : List Event) :
    List Event × Except GoError (Option DescribeAccountPrivilegesResponseParams) :=
  let idSplit := Split ids FILED_SP
  if idSplit.length ≠ 7 then
    (tr, .error (.Errorf ("[service_tc_dbdb]id is broken," ++ ids)))
  else
    let all := "*"
    let request : DescribeAccountPrivilegesRequest :=
      { InstanceId := some (idSplit.getD 0 "")
        UserName := some (idSplit.getD 1 "")
        Host := some (idSplit.getD 2 "")
        DbName := if dbName.isSome then dbName else some all
        Type_ := if aType.isSome then aType else some all
        Object := if object.isSome then object else some all
        ColName := if colName.isSome then colName else some all }
    match callVal tr (.DescribeAccountPrivileges request) (r.DescribeAccountPrivileges tr request) with
    | (tr1, .error err) => (tr1, .error (.Remote err))
    | (tr1, .ok response) => (tr1, .ok response)

/-! ## `resource_tc_mongodb_standby_instance.go` -/

/-- Modelled from the spec: the helper `CheckNil` is declared outside the files
at hand and the spec is silent on it; it is modelled from its call in
`resourceTencentCloudMongodbStandbyInstanceRead`, as the descriptions of the
listed fields that are nil. -/
def CheckNil (instanceDetail : InstanceDetail) : List String :=
  (if instanceDetail.InstanceName.isNone then ["instance name"] else []) ++
  (if instanceDetail.ProjectId.isNone then ["project id"] else []) ++
  (if instanceDetail.Zone.isNone then ["available zone"] else []) ++
  (if instanceDetail.VpcId.isNone then ["vpc id"] else []) ++
  (if instanceDetail.SubnetId.isNone then ["subnet id"] else []) ++
  (if instanceDetail.Status.isNone then ["status"] else []) ++
  (if instanceDetail.Vip.isNone then ["vip"] else []) ++
  (if instanceDetail.Vport.isNone then ["vport"] else []) ++
  (if instanceDetail.CreateTime.isNone then ["create time"] else []) ++
  (if instanceDetail.MongoVersion.isNone then ["engine version"] else []) ++
  (if instanceDetail.Memory.isNone then ["memory"] else []) ++
  (if instanceDetail.Volume.isNone then ["volume"] else []) ++
  (if instanceDetail.MachineType.isNone then ["machine type"] else [])

/-- Go formatting of a `[]string` with the verb `%v`. -/
def fmtStrings (l : List String) : String := "[" ++ " ".intercalate l ++ "]"

/-- Go map assignment `m[key] = value` on an association list. -/
def mapAssign (m : List (String × String)) (key value : String) : List (String × String) :=
  if m.any (fun p => p.1 == key) then m.map (fun p => if p.1 == key then (key, value) else p)
  else m ++ [(key, value)]

/-- The loop over `instance.Tags` in `resourceTencentCloudMongodbStandbyInstanceRead`. -/
def readTags : List (Option TagInfo) → List (String × String) → Res GoError (List (String × String))
  | [], tags => .ok tags
  | none :: _, _ => .panic
  | some tag :: rest, tags =>
      match tag.TagKey with
      | none => .err (.Errorf "mongodb tag key is nil")
      | some tagKey =>
          match tag.TagValue with
          | none => .err (.Errorf "mongodb tag value is nil")
          | some tagValue =>
              if tagKey = "project" then readTags rest tags
              else readTags rest (mapAssign tags tagKey tagValue)

/-- The part of `resourceTencentCloudMongodbStandbyInstanceRead` that follows
the write of `auto_renew_flag`: from `machine_type` to the end. -/
def mongodbStandbyInstanceReadRest (instanceDetail : InstanceDetail) (d : ResourceData)
    (tr1 : List Event) : Run :=
  match instanceDetail.MachineType with
  | none => ⟨d, tr1, .panic⟩
  | some machineType =>
  let d := d.Set "machine_type" (.str machineType)
  let d := d.SetPtr "available_zone" (instanceDetail.Zone.map .str)
  let d := d.SetPtr "vpc_id" (instanceDetail.VpcId.map .str)
  let d := d.SetPtr "subnet_id" (instanceDetail.SubnetId.map .str)
  let d := d.SetPtr "project_id" (instanceDetail.ProjectId.map (fun n => .int (Int.ofNat n)))
  let d := d.SetPtr "status" (instanceDetail.Status.map .int)
  let d := d.SetPtr "vip" (instanceDetail.Vip.map .str)
  let d := d.SetPtr "vport" (instanceDetail.Vport.map (fun n => .int (Int.ofNat n)))
  let d := d.SetPtr "create_time" (instanceDetail.CreateTime.map .str)
  let d :=
    match instanceDetail.RelatedInstance with
    | some relatedInstance =>
        (d.SetPtr "father_instance_id" (relatedInstance.InstanceId.map .str)).SetPtr
          "father_instance_region" (relatedInstance.Region.map .str)
    | none => d
  match readTags instanceDetail.Tags [] with
  | .err e => ⟨d, tr1, .err e⟩
  | .panic => ⟨d, tr1, .panic⟩
  | .ok tags => ⟨d.Set "tags" (.map tags), tr1, .ok ()⟩

/-- Source function `resourceTencentCloudMongodbStandbyInstanceRead`. -/
def resourceTencentCloudMongodbStandbyInstanceRead
    (env : Env) (r : Remote) (d : ResourceData) (tr : List Event) : Run :=
  let instanceId := d.id
  match callVal tr (.DescribeInstanceById instanceId) (r.DescribeInstanceById tr instanceId) with
  | (tr1, .error err) => ⟨d, tr1, .err (.Remote err)⟩
  | (tr1, .ok none) => ⟨d.SetId "", tr1, .ok ()⟩
  | (tr1, .ok (some instanceDetail)) =>
      let nilFields := CheckNil instanceDetail
      if nilFields.length > 0 then
        ⟨d, tr1, .err (.Errorf ("mongodb " ++ fmtStrings nilFields ++ " are nil"))⟩
      else
        let d := d.SetPtr "instance_name" (instanceDetail.InstanceName.map .str)
        match instanceDetail.Memory with
        | none => ⟨d, tr1, .panic⟩
        | some memory =>
        let d := d.Set "memory" (.int (Int.ofNat (memory / 1024)))
        match instanceDetail.Volume with
        | none => ⟨d, tr1, .panic⟩
        | some volume =>
        let d := d.Set "volume" (.int (Int.ofNat (volume / 1024)))
        let d := d.SetPtr "engine_version" (instanceDetail.MongoVersion.map .str)
        match instanceDetail.PayMode with
        | none => ⟨d, tr1, .panic⟩
        | some payMode =>
        let d := d.Set "charge_type" (.str (env.MONGODB_CHARGE_TYPE payMode))
        if env.MONGODB_CHARGE_TYPE payMode = env.MONGODB_CHARGE_TYPE_PREPAID then
          match instanceDetail.AutoRenewFlag with
          | none => ⟨d, tr1, .panic⟩
          | some autoRenewFlag =>
              mongodbStandbyInstanceReadRest instanceDetail
                (d.Set "auto_renew_flag" (.int (Int.ofNat autoRenewFlag))) tr1
        else mongodbStandbyInstanceReadRest instanceDetail d tr1

/-- One round of the wait loop of `resourceTencentCloudMongodbStandbyInstanceUpdate`:
the function handed to `resource.Retry` after the upgrade call. -/
def mongodbStandbyInstanceUpgradePoll (env : Env) (r : Remote) (instanceId : String)
    (memory volume : Int) (t : List Event) : List Event × Res RetryError Unit :=
  match callVal t (.DescribeInstanceById instanceId) (r.DescribeInstanceById t instanceId) with
  | (t1, .error e) => (t1, .err ⟨.Remote e, false⟩)
  | (t1, .ok none) =>
      (t1, .err ⟨.Errorf ("[CRITAL]" ++ env.logId ++
        " updating mongodb instance failed, instance doesn't exist"), false⟩)
  | (t1, .ok (some infos)) =>
      match infos.Memory, infos.ReplicationSetNum, infos.Volume with
      | some mem, some replicationSetNum, some vol =>
          if replicationSetNum = 0 then (t1, .panic)
          else
            let memoryDes := mem / 1024 / replicationSetNum
            let volumeDes := vol / 1024 / replicationSetNum
            if memory ≠ intOfUint64 memoryDes || volume ≠ intOfUint64 volumeDes then
              (t1, .err ⟨.Errorf ("[CRITAL] updating mongodb instance, current memory and volume values: "
                ++ toString memoryDes ++ ", " ++ toString volumeDes
                ++ ", waiting for them becoming new value: "
                ++ toString memory ++ ", " ++ toString volume), true⟩)
            else (t1, .ok ())
      | _, _, _ => (t1, .panic)

/-- Block of `resourceTencentCloudMongodbStandbyInstanceUpdate` guarded by
`d.HasChange("memory") || d.HasChange("volume")`. -/
def mongodbStandbyInstanceUpdateMemoryVolume (env : Env) (r : Remote) (instanceId : String)
    (d : ResourceData) (tr : List Event) : Run :=
  if d.HasChange "memory" || d.HasChange "volume" then
    let memory := (d.Get "memory").asInt
    let volume := (d.Get "volume").asInt
    match callErr tr (.UpgradeInstance instanceId memory volume)
        (r.UpgradeInstance tr instanceId memory volume) with
    | (tr1, some err) => ⟨d, tr1, .err (.Remote err)⟩
    | (tr1, none) =>
        match Retry (mongodbStandbyInstanceUpgradePoll env r instanceId memory volume)
            (20 * env.readRetryTimeout) tr1 with
        | (tr2, .err errUpdate) => ⟨d, tr2, .err errUpdate⟩
        | (tr2, .panic) => ⟨d, tr2, .panic⟩
        | (tr2, .ok _) => ⟨(d.SetPartial "memory").SetPartial "volume", tr2, .ok ()⟩
  else ⟨d, tr, .ok ()⟩

/-- Block of `resourceTencentCloudMongodbStandbyInstanceUpdate` guarded by
`d.HasChange("instance_name")`. -/
def mongodbStandbyInstanceUpdateInstanceName (r : Remote) (instanceId : String)
    (d : ResourceData) (tr : List Event) : Run :=
  if d.HasChange "instance_name" then
    let instanceName := (d.Get "instance_name").asString
    match callErr tr (.ModifyInstanceName instanceId instanceName)
        (r.ModifyInstanceName tr instanceId instanceName) with
    | (tr1, some err) => ⟨d, tr1, .err (.Remote err)⟩
    | (tr1, none) => ⟨d.SetPartial "instance_name", tr1, .ok ()⟩
  else ⟨d, tr, .ok ()⟩

/-- Block of `resourceTencentCloudMongodbStandbyInstanceUpdate` guarded by
`d.HasChange("project_id")`. -/
def mongodbStandbyInstanceUpdateProjectId (r : Remote) (instanceId : String)
    (d : ResourceData) (tr : List Event) : Run :=
  if d.HasChange "project_id" then
    let projectId := (d.Get "project_id").asInt
    match callErr tr (.ModifyProjectId instanceId projectId)
        (r.ModifyProjectId tr instanceId projectId) with
    | (tr1, some err) => ⟨d, tr1, .err (.Remote err)⟩
    | (tr1, none) => ⟨d.SetPartial "project_id", tr1, .ok ()⟩
  else ⟨d, tr, .ok ()⟩

/-- Block of `resourceTencentCloudMongodbStandbyInstanceUpdate` guarded by
`d.HasChange("tags")`. -/
def mongodbStandbyInstanceUpdateTags (env : Env) (r : Remote) (region instanceId : String)
    (d : ResourceData) (tr : List Event) : Run :=
  if d.HasChange "tags" then
    let oldTags := (d.GetChange "tags").1
    let newTags := (d.GetChange "tags").2
    let replaceTags := (env.diffTags oldTags.asMap newTags.asMap).1
    let deleteTags := (env.diffTags oldTags.asMap newTags.asMap).2
    let resourceName := env.BuildTagResourceName "mongodb" "instance" region instanceId
    match callErr tr (.ModifyTags resourceName replaceTags deleteTags)
        (r.ModifyTags tr resourceName replaceTags deleteTags) with
    | (tr1, some err) => ⟨d, tr1, .err (.Remote err)⟩
    | (tr1, none) => ⟨d.SetPartial "tags", tr1, .ok ()⟩
  else ⟨d, tr, .ok ()⟩

/-- Block of `resourceTencentCloudMongodbStandbyInstanceUpdate` guarded by
`d.HasChange("prepaid_period")`. -/
def mongodbStandbyInstanceUpdatePrepaidPeriod (d : ResourceData) (tr : List Event) : Run :=
  if d.HasChange "prepaid_period" then
    ⟨d, tr, .err (.Errorf
      "setting of the field[prepaid_period] does not make sense after the initialization")⟩
  else ⟨d, tr, .ok ()⟩

/-- Block of `resourceTencentCloudMongodbStandbyInstanceUpdate` guarded by
`d.HasChange("auto_renew_flag")`. -/
def mongodbStandbyInstanceUpdateAutoRenewFlag (r : Remote) (instanceId : String)
    (d : ResourceData) (tr : List Event) : Run :=
  if d.HasChange "auto_renew_flag" then
    let autoRenewFlag := (d.Get "auto_renew_flag").asInt
    let period := (d.Get "prepaid_period").asInt
    match callErr tr (.ModifyAutoRenewFlag instanceId period autoRenewFlag)
        (r.ModifyAutoRenewFlag tr instanceId period autoRenewFlag) with
    | (tr1, some err) => ⟨d, tr1, .err (.Remote err)⟩
    | (tr1, none) => ⟨d.SetPartial "auto_renew_flag", tr1, .ok ()⟩
  else ⟨d, tr, .ok ()⟩

/-- The part of `resourceTencentCloudMongodbStandbyInstanceUpdate` between
`d.Partial(true)` and `d.Partial(false)`: the six guarded blocks in order. -/
def mongodbStandbyInstanceUpdateBlocks (env : Env) (r : Remote) (region instanceId : String)
    (d : ResourceData) (tr : List Event) : Run :=
  (((((mongodbStandbyInstanceUpdateMemoryVolume env r instanceId d tr).andThen
    (mongodbStandbyInstanceUpdateInstanceName r instanceId)).andThen
    (mongodbStandbyInstanceUpdateProjectId r instanceId)).andThen
    (mongodbStandbyInstanceUpdateTags env r region instanceId)).andThen
    mongodbStandbyInstanceUpdatePrepaidPeriod).andThen
    (mongodbStandbyInstanceUpdateAutoRenewFlag r instanceId)

/-- Source function `resourceTencentCloudMongodbStandbyInstanceUpdate`. -/
def resourceTencentCloudMongodbStandbyInstanceUpdate
    (env : Env) (r : Remote) (d : ResourceData) (tr : List Event) : Run :=
  let instanceId := d.id
  let region := env.Region
  (mongodbStandbyInstanceUpdateBlocks env r region instanceId (d.Partial true) tr).andThen
    (fun d1 tr1 => resourceTencentCloudMongodbStandbyInstanceRead env r (d1.Partial false) tr1)

/-- Source function `resourceTencentCloudMongodbStandbyInstanceDelete`. -/
def resourceTencentCloudMongodbStandbyInstanceDelete
    (env : Env) (r : Remote) (d : ResourceData) (tr : List Event) : Run :=
  let instanceId := d.id
  match callVal tr (.DescribeInstanceById instanceId) (r.DescribeInstanceById tr instanceId) with
  | (tr1, .error err) => ⟨d, tr1, .err (.Remote err)⟩
  | (tr1, .ok none) => ⟨d.SetId "", tr1, .ok ()⟩
  | (tr1, .ok (some instanceDetail)) =>
      match instanceDetail.PayMode with
      | none => ⟨d, tr1, .panic⟩
      | some payMode =>
      if env.MONGODB_CHARGE_TYPE payMode = env.MONGODB_CHARGE_TYPE_PREPAID then
        ⟨d, tr1, .err (.Errorf
          "PREPAID instances are not allowed to be deleted now, please isolate them on console")⟩
      else
        match callErr tr1 (.IsolateInstance instanceId) (r.IsolateInstance tr1 instanceId) with
        | (tr2, some err) => ⟨d, tr2, .err (.Remote err)⟩
        | (tr2, none) =>
        match callErr tr2 (.OfflineIsolatedDBInstance instanceId true)
            (r.OfflineIsolatedDBInstance tr2 instanceId true) with
        | (tr3, some err) => ⟨d, tr3, .err (.Remote err)⟩
        | (tr3, none) =>
        match callVal tr3 (.DescribeInstanceById instanceId) (r.DescribeInstanceById tr3 instanceId) with
        | (tr4, .error errRet) => ⟨d, tr4, .err (.Remote errRet)⟩
        | (tr4, .ok none) => ⟨d, tr4, .ok ()⟩
        | (tr4, .ok (some _)) =>
            ⟨d, tr4, .err (.Errorf ("[CRITAL]" ++ env.logId ++ " mongodb " ++
              "OfflineIsolatedDBInstance" ++ " fail"))⟩

/-! ## `resource_tc_mongodb_standby_instance.go`: Create -/

/-- A pointer to a provider client: the shared one behind `meta.apiV3Conn`, or
the local variable `client1` of
`resourceTencentCloudMongodbStandbyInstanceCreate`. -/
inductive ClientRef where
  | apiV3Conn
  | client1
deriving DecidableEq, Repr

/-- The provider clients that exist while
`resourceTencentCloudMongodbStandbyInstanceCreate` runs, one per `ClientRef`. -/
structure ClientStore where
  apiV3Conn : TencentCloudClient
  client1 : TencentCloudClient
deriving DecidableEq, Repr

/-- Read through a client pointer. -/
def ClientStore.deref (s : ClientStore) : ClientRef → TencentCloudClient
  | .apiV3Conn => s.apiV3Conn
  | .client1 => s.client1

/-- The assignment `p.Region = region` through a client pointer. -/
def ClientStore.setRegion (s : ClientStore) (p : ClientRef) (region : String) : ClientStore :=
  match p with
  | .apiV3Conn => { s with apiV3Conn := { s.apiV3Conn with Region := region } }
  | .client1 => { s with client1 := { s.client1 with Region := region } }

/-- Service type `MongodbService`. -/
structure MongodbService where
  client : ClientRef
deriving DecidableEq, Repr

/-- Service type `TagService`. -/
structure TagService where
  client : ClientRef
deriving DecidableEq, Repr

/-- Go map lookup `m[key]` on an association list of strings: a missing key
gives the empty string. -/
def mapGet (m : List (String × String)) (key : String) : String :=
  (m.lookup key).getD ""

/-- The type assertion `v.(*schema.Set).List()` turned into strings; the schema
types the attribute. -/
def Value.asSet : Value → List String
  | .set l => l
  | _ => []

/-- The two request types handed to `mongodbAllStandbyInstanceReqSet`. -/
inductive CreateRequestType where
  | CreateDBInstanceHourRequest
  | CreateDBInstanceRequest
deriving DecidableEq, Repr

/-- The text of `reflect.TypeOf(requestInter).String()`. -/
def CreateRequestType.String : CreateRequestType → String
  | .CreateDBInstanceHourRequest => "*v20190725.CreateDBInstanceHourRequest"
  | .CreateDBInstanceRequest => "*v20190725.CreateDBInstanceRequest"

/-- A fresh request, as `mongodb.NewCreateDBInstanceHourRequest ()` and
`mongodb.NewCreateDBInstanceRequest ()` give it: no field is set. -/
def newCreateDBInstanceRequest : CreateDBInstanceRequest :=
  { ReplicateSetNum := none, NodeNum := none, GoodsNum := none, ClusterType := none,
    Memory := none, Volume := none, MongoVersion := none, Zone := none, MachineCode := none,
    Clone := none, ProjectId := none, Father := none, VpcId := none, SubnetId := none,
    SecurityGroup := [], Period := none, AutoRenewFlag := none }

/-- Source function `mongodbAllStandbyInstanceReqSet`: the request after the
function has written into it, and the error it returns. -/
def mongodbAllStandbyInstanceReqSet (env : Env) (getType : CreateRequestType)
    (request : CreateDBInstanceRequest) (d : ResourceData) (masterInfo : List (String × String)) :
    CreateDBInstanceRequest × Option GoError :=
  let replicateSetNum : Int := 1
  let nodeNum : Int := 3
  let goodsNum : Int := 1
  let clusterType := env.MONGODB_CLUSTER_TYPE_REPLSET
  let memoryInterface := (d.Get "memory").asInt
  let volumeInterface := (d.Get "volume").asInt
  let mongoVersionInterface := mapGet masterInfo "engine_version"
  let zoneInterface := (d.Get "available_zone").asString
  let machine := mapGet masterInfo "machine_type"
  let fatherId := mapGet masterInfo "father_instance_id"
  let instanceType := env.MONGO_INSTANCE_TYPE_STANDBY
  let projectId := (d.Get "project_id").asInt
  let request : CreateDBInstanceRequest :=
    { request with
      ReplicateSetNum := some (uint64OfInt replicateSetNum)
      NodeNum := some (uint64OfInt nodeNum)
      GoodsNum := some (uint64OfInt goodsNum)
      ClusterType := some clusterType
      Memory := some (uint64OfInt memoryInterface)
      Volume := some (uint64OfInt volumeInterface)
      MongoVersion := some mongoVersionInterface
      Zone := some zoneInterface
      MachineCode := some machine
      Clone := some instanceType
      ProjectId := some projectId
      Father := some fatherId }
  let vpc := d.GetOk "vpc_id"
  let subnet := d.GetOk "subnet_id"
  let request := if vpc.2 then { request with VpcId := some vpc.1.asString } else request
  let request := if subnet.2 then { request with SubnetId := some subnet.1.asString } else request
  if (vpc.2 && !subnet.2) || (!vpc.2 && subnet.2) then
    (request, some (.Errorf "you have to set vpc_id and subnet_id both"))
  else
    let securityGroups := d.GetOk "security_groups"
    let request :=
      if securityGroups.2 then { request with SecurityGroup := securityGroups.1.asSet } else request
    if Contains getType.String "CreateDBInstanceRequest" then
      let period := d.GetOk "prepaid_period"
      if period.2 then
        let request := { request with Period := some (uint64OfInt period.1.asInt) }
        let request :=
          { request with AutoRenewFlag := some (uint64OfInt (d.Get "auto_renew_flag").asInt) }
        (request, none)
      else
        (request, some (.Errorf "prepaid_period must be specified for a PREPAID instance"))
    else (request, none)

/-- The lines of `mongodbCreateStandbyInstanceByUse` and of
`mongodbCreateStandbyInstanceByMonth` that follow the creation call: the id of
the first created instance is stored. -/
def mongodbStandbyInstanceStoreId (d : ResourceData) (tr : List Event)
    (InstanceIds : List (Option String)) : Run :=
  match InstanceIds with
  | [] => ⟨d, tr, .err (.Errorf "mongodb standby instance id is nil")⟩
  | none :: _ => ⟨d, tr, .panic⟩
  | some instanceId :: _ => ⟨d.SetId instanceId, tr, .ok ()⟩

/-- Source function `mongodbCreateStandbyInstanceByUse`; `apiV3Conn` is the
shared provider client at the time of the call. -/
def mongodbCreateStandbyInstanceByUse (env : Env) (r : Remote) (apiV3Conn : TencentCloudClient)
    (d : ResourceData) (tr : List Event) (masterInfo : List (String × String)) : Run :=
  match mongodbAllStandbyInstanceReqSet env .CreateDBInstanceHourRequest
      newCreateDBInstanceRequest d masterInfo with
  | (_, some err) => ⟨d, tr, .err err⟩
  | (request, none) =>
      match Retry (retryCallVal env (.CreateDBInstanceHour apiV3Conn request)
          (fun t => r.CreateDBInstanceHour t apiV3Conn request)) env.writeRetryTimeout tr with
      | (tr1, .err err) => ⟨d, tr1, .err err⟩
      | (tr1, .panic) => ⟨d, tr1, .panic⟩
      | (tr1, .ok InstanceIds) => mongodbStandbyInstanceStoreId d tr1 InstanceIds

/-- Source function `mongodbCreateStandbyInstanceByMonth`; `apiV3Conn` is the
shared provider client at the time of the call. -/
def mongodbCreateStandbyInstanceByMonth (env : Env) (r : Remote) (apiV3Conn : TencentCloudClient)
    (d : ResourceData) (tr : List Event) (masterInfo : List (String × String)) : Run :=
  match mongodbAllStandbyInstanceReqSet env .CreateDBInstanceRequest
      newCreateDBInstanceRequest d masterInfo with
  | (_, some err) => ⟨d, tr, .err err⟩
  | (request, none) =>
      match Retry (retryCallVal env (.CreateDBInstance apiV3Conn request)
          (fun t => r.CreateDBInstance t apiV3Conn request)) env.writeRetryTimeout tr with
      | (tr1, .err err) => ⟨d, tr1, .err err⟩
      | (tr1, .panic) => ⟨d, tr1, .panic⟩
      | (tr1, .ok InstanceIds) => mongodbStandbyInstanceStoreId d tr1 InstanceIds

/-- The part of `resourceTencentCloudMongodbStandbyInstanceCreate` from the
read of `charge_type` to the creation call. -/
def mongodbStandbyInstanceCreateInstance (env : Env) (r : Remote) (apiV3Conn : TencentCloudClient)
    (masterInfoMap : List (String × String)) (d : ResourceData) (tr : List Event) : Run :=
  let chargeType := (d.Get "charge_type").asString
  if chargeType = env.MONGODB_CHARGE_TYPE_POSTPAID then
    let ok := (d.GetOk "prepaid_period").2
    let ok1 := (d.GetOk "auto_renew_flag").2
    if ok || ok1 then
      ⟨d, tr, .err (.Errorf ("prepaid_period and auto_renew_flag don't make sense for "
        ++ "POSTPAID_BY_HOUR mongodb standby instance, please remove them from your template"))⟩
    else mongodbCreateStandbyInstanceByUse env r apiV3Conn d tr masterInfoMap
  else mongodbCreateStandbyInstanceByMonth env r apiV3Conn d tr masterInfoMap

/-- The part of `resourceTencentCloudMongodbStandbyInstanceCreate` that follows
the creation, up to the tag call: existence check, rename, second existence
check, tags.  `mongodbService` and `tagService` point to clients of `clients`,
`region` is the region read off the shared client at the start of Create. -/
def mongodbStandbyInstanceCreateSteps (env : Env) (r : Remote) (clients : ClientStore)
    (mongodbService : MongodbService) (tagService : TagService) (region : String)
    (d : ResourceData) (tr : List Event) : Run :=
  let instanceId := d.id
  match callVal tr (.DescribeInstanceByIdOn (clients.deref mongodbService.client) instanceId)
      (r.DescribeInstanceByIdOn tr (clients.deref mongodbService.client) instanceId) with
  | (tr1, .error err) => ⟨d, tr1, .err (.Remote err)⟩
  | (tr1, .ok none) =>
      ⟨d, tr1, .err (.Errorf ("[CRITAL]" ++ env.logId ++
        " creating mongodb standby instance failed, instance doesn't exist"))⟩
  | (tr1, .ok (some _)) =>
  let instanceName := (d.Get "instance_name").asString
  match callErr tr1 (.ModifyInstanceNameOn (clients.deref mongodbService.client) instanceId
      instanceName)
      (r.ModifyInstanceNameOn tr1 (clients.deref mongodbService.client) instanceId
        instanceName) with
  | (tr2, some err) => ⟨d, tr2, .err (.Remote err)⟩
  | (tr2, none) =>
  match callVal tr2 (.DescribeInstanceByIdOn (clients.deref mongodbService.client) instanceId)
      (r.DescribeInstanceByIdOn tr2 (clients.deref mongodbService.client) instanceId) with
  | (tr3, .error err) => ⟨d, tr3, .err (.Remote err)⟩
  | (tr3, .ok none) =>
      ⟨d, tr3, .err (.Errorf ("[CRITAL]" ++ env.logId ++
        " creating mongodb instance failed, instance doesn't exist"))⟩
  | (tr3, .ok (some _)) =>
  let tags := (d.Get "tags").asMap
  if tags.length > 0 then
    let resourceName := env.BuildTagResourceName "mongodb" "instance" region instanceId
    match callErr tr3 (.ModifyTagsOn (clients.deref tagService.client) resourceName tags [])
        (r.ModifyTagsOn tr3 (clients.deref tagService.client) resourceName tags []) with
    | (tr4, some err) => ⟨d, tr4, .err (.Remote err)⟩
    | (tr4, none) => ⟨d, tr4, .ok ()⟩
  else ⟨d, tr3, .ok ()⟩

/-- State after `resourceTencentCloudMongodbStandbyInstanceCreate`: the run and
the provider clients. -/
structure CreateRun where
  run : Run
  clients : ClientStore

/-- The part of `resourceTencentCloudMongodbStandbyInstanceCreate` from the
check of `father_instance_id` to the creation call: the lookup of the father
instance through `mongodbService1`, the checks, and the creation.  `clients`
holds the shared client and its copy `client1`. -/
def mongodbStandbyInstanceCreateCreation (env : Env) (r : Remote) (clients : ClientStore)
    (mongodbService1 : MongodbService) (d : ResourceData) (tr : List Event) : CreateRun :=
  let masterInfoMap : List (String × String) := []
  if !(d.GetOk "father_instance_id").2 then
    ⟨⟨d, tr, .err (.Errorf
      "[CRITAL] father instance id must be specified for standby instance")⟩, clients⟩
  else if !(d.GetOk "father_instance_region").2 then
    ⟨⟨d, tr, .err (.Errorf
      "[CRITAL] father instance region must be specified for standby instance")⟩, clients⟩
  else
    let fatherRegion := (d.Get "father_instance_region").asString
    let clients := clients.setRegion mongodbService1.client fatherRegion
    let masterInfoMap := mapAssign masterInfoMap "father_instance_id"
      (d.Get "father_instance_id").asString
    match callVal tr (.DescribeInstanceByIdOn (clients.deref mongodbService1.client)
        (mapGet masterInfoMap "father_instance_id"))
        (r.DescribeInstanceByIdOn tr (clients.deref mongodbService1.client)
          (mapGet masterInfoMap "father_instance_id")) with
    | (tr1, .error err) => ⟨⟨d, tr1, .err (.Remote err)⟩, clients⟩
    | (tr1, .ok none) =>
        ⟨⟨d, tr1, .err (.Errorf
          "[CRITAL] father instance can't be found for creating mongodb standby instance")⟩,
          clients⟩
    | (tr1, .ok (some masterInfo)) =>
    match masterInfo.MachineType with
    | none => ⟨⟨d, tr1, .panic⟩, clients⟩
    | some machineType =>
    let masterInfoMap := mapAssign masterInfoMap "machine_type" machineType
    match masterInfo.MongoVersion with
    | none => ⟨⟨d, tr1, .panic⟩, clients⟩
    | some mongoVersion =>
    let masterInfoMap := mapAssign masterInfoMap "engine_version" mongoVersion
    match masterInfo.Zone with
    | none => ⟨⟨d, tr1, .panic⟩, clients⟩
    | some zone =>
    if (d.Get "available_zone").asString = zone then
      ⟨⟨d, tr1, .err (.Errorf
        "[CRITAL] standBy instance zoneId must not same with father instance's")⟩, clients⟩
    else if mongoVersion = env.MONGODB_ENGINE_VERSION_4_WT ∧ (d.GetOk "security_groups").2 then
      ⟨⟨d, tr1, .err (.Errorf ("[CRITAL] for instance which `engine_version` is `MONGO_40_WT`, "
        ++ "`security_groups` is not supported"))⟩, clients⟩
    else
      ⟨mongodbStandbyInstanceCreateInstance env r (clients.deref .apiV3Conn) masterInfoMap d tr1,
        clients⟩

/-- The part of `resourceTencentCloudMongodbStandbyInstanceCreate` before its
last line, the Read: `apiV3Conn` is the shared provider client on entry. -/
def mongodbStandbyInstanceCreateBody (env : Env) (r : Remote) (apiV3Conn : TencentCloudClient)
    (d : ResourceData) (tr : List Event) : CreateRun :=
  let client : ClientRef := .apiV3Conn
  let clients : ClientStore := { apiV3Conn := apiV3Conn, client1 := apiV3Conn }
  let mongodbService : MongodbService := { client := client }
  let mongodbService1 : MongodbService := { client := .client1 }
  let tagService : TagService := { client := client }
  let region := (clients.deref client).Region
  let created := mongodbStandbyInstanceCreateCreation env r clients mongodbService1 d tr
  ⟨created.run.andThen
    (mongodbStandbyInstanceCreateSteps env r created.clients mongodbService tagService region),
    created.clients⟩

/-- Source function `resourceTencentCloudMongodbStandbyInstanceCreate`.  Its
last line calls `resourceTencentCloudMongodbInstanceRead`, a function of
another file, which is a parameter here; `apiV3Conn` is the shared provider
client on entry. -/
def resourceTencentCloudMongodbStandbyInstanceCreate (env : Env) (r : Remote)
    (resourceTencentCloudMongodbInstanceRead : ResourceData → List Event → Run)
    (apiV3Conn : TencentCloudClient) (d : ResourceData) (tr : List Event) : CreateRun :=
  let body := mongodbStandbyInstanceCreateBody env r apiV3Conn d tr
  ⟨body.run.andThen resourceTencentCloudMongodbInstanceRead, body.clients⟩

/-! ## `resource_tc_vpn_gateway_ssl_client_cert.go`: Update and Create -/

/-- The lines of `resourceTencentCloudVpnGatewaySslClientCertUpdate` after the
enable or disable call: the task is awaited, then the resource is read.
`taskId` is the pointer taken from the response. -/
def vpnGatewaySslClientCertUpdateTask (r : Remote) (d : ResourceData) (tr : List Event)
    (taskId : Option Nat) : Run :=
  match taskId with
  | none => ⟨d, tr, .panic⟩
  | some task =>
      match callErr tr (.DescribeVpcTaskResult (toString task))
          (r.DescribeVpcTaskResult tr (toString task)) with
      | (tr1, some err) => ⟨d, tr1, .err (.Remote err)⟩
      | (tr1, none) => resourceTencentCloudVpnGatewaySslClientCertRead r d tr1

/-- Source function `resourceTencentCloudVpnGatewaySslClientCertUpdate`. -/
def resourceTencentCloudVpnGatewaySslClientCertUpdate
    (env : Env) (r : Remote) (d : ResourceData) (tr : List Event) : Run :=
  let sslVpnClientId := d.id
  let certSwitch := (d.Get "switch").asString
  if certSwitch = "on" then
    match Retry (retryCallVal env (.EnableVpnGatewaySslClientCert sslVpnClientId)
        (fun t => r.EnableVpnGatewaySslClientCert t sslVpnClientId)) env.writeRetryTimeout tr with
    | (tr1, .err err) => ⟨d, tr1, .err err⟩
    | (tr1, .panic) => ⟨d, tr1, .panic⟩
    | (tr1, .ok taskId) => vpnGatewaySslClientCertUpdateTask r d tr1 taskId
  else
    match Retry (retryCallVal env (.DisableVpnGatewaySslClientCert sslVpnClientId)
        (fun t => r.DisableVpnGatewaySslClientCert t sslVpnClientId)) env.writeRetryTimeout tr with
    | (tr1, .err err) => ⟨d, tr1, .err err⟩
    | (tr1, .panic) => ⟨d, tr1, .panic⟩
    | (tr1, .ok taskId) => vpnGatewaySslClientCertUpdateTask r d tr1 taskId

/-- Source function `resourceTencentCloudVpnGatewaySslClientCertCreate`. -/
def resourceTencentCloudVpnGatewaySslClientCertCreate
    (env : Env) (r : Remote) (d : ResourceData) (tr : List Event) : Run :=
  let sslVpnClientId := (d.Get "ssl_vpn_client_id").asString
  resourceTencentCloudVpnGatewaySslClientCertUpdate env r (d.SetId sslVpnClientId) tr

/-! ## `service_tencentcloud_dcdb.go`: `InitDcdbDbInstance` -/

/-- A value of the `map[string]interface{}` handed to the `...ByFilter`
methods, by its dynamic type. -/
inductive ParamValue where
  /-- A value of type `[]*string`. -/
  | strPtrs (v : List (Option String))
  /-- A value of type `*string`. -/
  | strPtr (v : Option String)
  /-- A value of type `[]*int64`. -/
  | int64Ptrs (v : List (Option Int))
  /-- A value of type `*bool`. -/
  | boolPtr (v : Option Bool)
  /-- A value of type `*int64`. -/
  | int64Ptr (v : Option Int)
deriving DecidableEq, Repr

/-- The type assertion `v.([]*string)`: `none` is the panic of a failed
assertion. -/
def ParamValue.asStrPtrs : ParamValue → Option (List (Option String))
  | .strPtrs v => some v
  | _ => none

/-- The type assertion `v.(*string)`. -/
def ParamValue.asStrPtr : ParamValue → Option (Option String)
  | .strPtr v => some v
  | _ => none

/-- The type assertion `v.([]*int64)`. -/
def ParamValue.asInt64Ptrs : ParamValue → Option (List (Option Int))
  | .int64Ptrs v => some v
  | _ => none

/-- The type assertion `v.(*bool)`. -/
def ParamValue.asBoolPtr : ParamValue → Option (Option Bool)
  | .boolPtr v => some v
  | _ => none

/-- The type assertion `v.(*int64)`. -/
def ParamValue.asInt64Ptr : ParamValue → Option (Option Int)
  | .int64Ptr v => some v
  | _ => none

/-- How a paged query `...ByFilter` ends: it returns its named results,
it panics, or the loop is still running after the rounds it was given, with the
items gathered so far. -/
inductive Paged (α : Type) where
  | returned (items : List α) (errRet : Option RemoteError)
  | panic
  | running (items : List α)
deriving DecidableEq, Repr

/-- A fresh request, as `dcdb.NewDescribeDCDBInstancesRequest ()` gives it. -/
def newDescribeDCDBInstancesRequest : DescribeDCDBInstancesRequest :=
  { InstanceIds := [], SearchName := none, SearchKey := none, ProjectIds := [],
    IsFilterExcluster := none, ExclusterType := none, IsFilterVpc := none, VpcId := none,
    SubnetId := none, Offset := none, Limit := none }

/-- The body of the loop `for k, v := range params` of
`DescribeDcdbInstancesByFilter`; `none` is the panic of a failed type
assertion. -/
def describeDcdbInstancesParam (request : DescribeDCDBInstancesRequest) (k : String)
    (v : ParamValue) : Option DescribeDCDBInstancesRequest := do
  let request ←
    if k = "instance_ids" then v.asStrPtrs.map (fun ids => { request with InstanceIds := ids })
    else some request
  let request ←
    if k = "search_name" then v.asStrPtr.map (fun p => { request with SearchName := p })
    else some request
  let request ←
    if k = "search_key" then v.asStrPtr.map (fun p => { request with SearchKey := p })
    else some request
  let request ←
    if k = "project_ids" then v.asInt64Ptrs.map (fun ids => { request with ProjectIds := ids })
    else some request
  let request ←
    if k = "is_filter_excluster" then
      v.asBoolPtr.map (fun p => { request with IsFilterExcluster := p })
    else some request
  let request ←
    if k = "excluster_type" then v.asInt64Ptr.map (fun p => { request with ExclusterType := p })
    else some request
  let request ←
    if k = "is_filter_vpc" then v.asBoolPtr.map (fun p => { request with IsFilterVpc := p })
    else some request
  let request ←
    if k = "vpc_id" then v.asStrPtr.map (fun p => { request with VpcId := p })
    else some request
  if k = "subnet_id" then v.asStrPtr.map (fun p => { request with SubnetId := p })
  else some request

/-- The loop `for k, v := range params` of `DescribeDcdbInstancesByFilter` on a
fresh request; the map is an association list. -/
def describeDcdbInstancesRequest (params : List (String × ParamValue)) :
    Option DescribeDCDBInstancesRequest :=
  params.foldlM (fun request kv => describeDcdbInstancesParam request kv.1 kv.2)
    newDescribeDCDBInstancesRequest

/-- The endless `for` loop of `DescribeDcdbInstancesByFilter`, run for at
most the given number of rounds from the given call history, `offset` and
`instances`. -/
def describeDcdbInstancesPages (r : Remote) (request : DescribeDCDBInstancesRequest) :
    Nat → List Event → Int → List (Option DCDBInstanceInfo) →
    List Event × Paged (Option DCDBInstanceInfo)
  | 0, tr, _, instances => (tr, .running instances)
  | fuel + 1, tr, offset, instances =>
      let pageSize : Int := 20
      let request := { request with Offset := some offset, Limit := some pageSize }
      match callVal tr (.DescribeDCDBInstances request) (r.DescribeDCDBInstances tr request) with
      | (tr1, .error err) => (tr1, .returned instances (some err))
      | (tr1, .ok none) => (tr1, .returned instances none)
      | (tr1, .ok (some ⟨none⟩)) => (tr1, .panic)
      | (tr1, .ok (some ⟨some response⟩)) =>
          if response.Instances.length < 1 then (tr1, .returned instances none)
          else if (response.Instances.length : Int) < pageSize then
            (tr1, .returned (instances ++ response.Instances) none)
          else
            describeDcdbInstancesPages r request fuel tr1 (addInt64 offset pageSize)
              (instances ++ response.Instances)

/-- Source function `DcdbService.DescribeDcdbInstancesByFilter`, its loop run
for at most `fuel` rounds. -/
def DescribeDcdbInstancesByFilter (r : Remote) (params : List (String × ParamValue))
    (fuel : Nat) (tr : List Event) : List Event × Paged (Option DCDBInstanceInfo) :=
  match describeDcdbInstancesRequest params with
  | none => (tr, .panic)
  | some request => describeDcdbInstancesPages r request fuel tr 0 []

/-- The loop `for k, v := range param` of `DescribeDcdbAccountsByFilter` on a
fresh request. -/
def describeDcdbAccountsRequest (param : List (String × ParamValue)) :
    Option DescribeAccountsRequest :=
  param.foldlM
    (fun (request : DescribeAccountsRequest) kv =>
      if kv.1 = "instance_id" then
        kv.2.asStrPtr.map (fun p => ({ request with InstanceId := p } : DescribeAccountsRequest))
      else some request)
    { InstanceId := none }

/-- The endless `for` loop of `DescribeDcdbAccountsByFilter`, run for at
most the given number of rounds.  The loop adds `pageSize` to `offset` and
writes neither of them into the request. -/
def describeDcdbAccountsPages (r : Remote) (request : DescribeAccountsRequest) :
    Nat → List Event → Int → List (Option DBAccount) → List Event × Paged (Option DBAccount)
  | 0, tr, _, accounts => (tr, .running accounts)
  | fuel + 1, tr, offset, accounts =>
      let pageSize : Int := 20
      match callVal tr (.DescribeAccounts request) (r.DescribeAccounts tr request) with
      | (tr1, .error err) => (tr1, .returned accounts (some err))
      | (tr1, .ok none) => (tr1, .returned accounts none)
      | (tr1, .ok (some ⟨none⟩)) => (tr1, .panic)
      | (tr1, .ok (some ⟨some response⟩)) =>
          if response.Users.length < 1 then (tr1, .returned accounts none)
          else if (response.Users.length : Int) < pageSize then
            (tr1, .returned (accounts ++ response.Users) none)
          else
            describeDcdbAccountsPages r request fuel tr1 (addInt64 offset pageSize)
              (accounts ++ response.Users)

/-- Source function `DcdbService.DescribeDcdbAccountsByFilter`, its loop run
for at most `fuel` rounds. -/
def DescribeDcdbAccountsByFilter (r : Remote) (param : List (String × ParamValue))
    (fuel : Nat) (tr : List Event) : List Event × Paged (Option DBAccount) :=
  match describeDcdbAccountsRequest param with
  | none => (tr, .panic)
  | some request => describeDcdbAccountsPages r request fuel tr 0 []

/-! ## Helpers modelled from the specification -/

/-- Modelled from the spec: the helper `diffTags` is declared outside the files
at hand.  As the differ of the spec has it, a key of the new map that the old
map lacks (to add) or holds with another value (to modify) is to be replaced
with its new value, and a key of the old map that the new map lacks is to be
deleted. -/
def diffTags (oldTags newTags : List (String × String)) :
    List (String × String) × List String :=
  (newTags.filter (fun kv => oldTags.lookup kv.1 != some kv.2),
    (oldTags.filter (fun kv => (newTags.lookup kv.1).isNone)).map Prod.fst)

/-- Applying a tag diff to a tag map: every key of `replaceTags` is set to its
value, then every key of `deleteTags` is removed. -/
def applyTags (tags replaceTags : List (String × String)) (deleteTags : List String) :
    List (String × String) :=
  (replaceTags.foldl (fun m kv => mapAssign m kv.1 kv.2) tags).filter
    (fun kv => !deleteTags.contains kv.1)

/-- Modelled from the spec: the helper `validateAllowedStringValue` is declared
outside the files at hand and the spec is silent on it; by its name and its use
in the schemas it accepts a value exactly when the value is one of the listed
strings. -/
def validateAllowedStringValue (ss : List String) (v : String) : Bool :=
  ss.contains v

/-- The values the schema of `tencentcloud_tsf_api_rate_limit_rule` allows for
`usable_status`: the list handed to `validateAllowedStringValue`. -/
def tsfApiRateLimitRuleUsableStatusValues : List String := ["enabled", "disabled"]

/-- The example usage in the doc comment of `resource_tc_tsf_api_rate_limit_rule.go`. -/
def tsfApiRateLimitRuleExample : List (String × Value) :=
  [("api_id", .str "api-xxxxxx"), ("max_qps", .int 10), ("usable_status", .str "enable")]

/-- The id given to `terraform import` in the doc comment of
`resource_tc_tsf_api_rate_limit_rule.go`: a rule id alone. -/
def tsfApiRateLimitRuleImportId : String := "api_rate_limit_rule_id"

/-! ## Reading the call history -/

/-- Whether the history holds a call of the kind `p` that returned without error. -/
def succeeded (tr : List Event) (p : Call → Bool) : Bool :=
  tr.any (fun e => e.ok && p e.call)

/-- Recogniser of the calls `UpgradeInstance`. -/
def Call.isUpgradeInstance : Call → Bool
  | .UpgradeInstance _ _ _ => true
  | _ => false

/-- Recogniser of the calls `ModifyInstanceName`. -/
def Call.isModifyInstanceName : Call → Bool
  | .ModifyInstanceName _ _ => true
  | _ => false

/-- Recogniser of the calls `ModifyProjectId`. -/
def Call.isModifyProjectId : Call → Bool
  | .ModifyProjectId _ _ => true
  | _ => false

/-- Recogniser of the calls `ModifyTags`. -/
def Call.isModifyTags : Call → Bool
  | .ModifyTags _ _ _ => true
  | _ => false

/-- Recogniser of the calls `ModifyAutoRenewFlag`. -/
def Call.isModifyAutoRenewFlag : Call → Bool
  | .ModifyAutoRenewFlag _ _ _ => true
  | _ => false

/-- Recogniser of the calls `DescribeInstanceById`. -/
def Call.isDescribeInstanceById : Call → Bool
  | .DescribeInstanceById _ => true
  | _ => false

/-- Recogniser of the calls `UpdateApiRateLimitRule`. -/
def Call.isUpdateApiRateLimitRule : Call → Bool
  | .UpdateApiRateLimitRule _ => true
  | _ => false

/-! ## Sample environments, remotes and resource data -/

/-- A sample environment: no retry is left after the first attempt. -/
def sampleEnv : Env :=
  { logId := "log-0"
    Region := "ap-shanghai"
    writeRetryTimeout := 0
    readRetryTimeout := 0
    retryable := fun _ => false
    MONGODB_CHARGE_TYPE := fun n => if n = 1 then "PREPAID" else if n = 0 then "POSTPAID_BY_HOUR" else ""
    MONGODB_CHARGE_TYPE_PREPAID := "PREPAID"
    diffTags := fun _ newTags => (newTags, [])
    BuildTagResourceName := fun serviceType resourceType region id =>
      "qcs::" ++ serviceType ++ ":" ++ region ++ ":uin/:" ++ resourceType ++ "/" ++ id
    MONGODB_CLUSTER_TYPE_REPLSET := "REPLSET"
    MONGO_INSTANCE_TYPE_STANDBY := 3
    MONGODB_ENGINE_VERSION_4_WT := "MONGO_40_WT"
    MONGODB_CHARGE_TYPE_POSTPAID := "POSTPAID_BY_HOUR"
    retryableOrInternalError := fun e => e.code == "InternalError" }

/-- A remote on which every call succeeds and no described object exists. -/
def remoteAbsent : Remote :=
  { AttachPlugin := fun _ _ => none
    DescribeApiGatewayPluginAttachmentById := fun _ _ _ _ _ => .ok none
    DeleteApiGatewayPluginAttachmentById := fun _ _ _ _ _ => none
    CreateApiRateLimitRuleWithDetailResp := fun _ _ => .ok (some "rule-1")
    DescribeTsfApiRateLimitRuleById := fun _ _ _ => .ok none
    UpdateApiRateLimitRule := fun _ _ => none
    DeleteTsfApiRateLimitRuleById := fun _ _ _ => none
    DescribeVpnSslClientById := fun _ _ => .ok none
    DescribeInstanceById := fun _ _ => .ok none
    UpgradeInstance := fun _ _ _ _ => none
    ModifyInstanceName := fun _ _ _ => none
    ModifyProjectId := fun _ _ _ => none
    ModifyTags := fun _ _ _ _ => none
    ModifyAutoRenewFlag := fun _ _ _ _ => none
    IsolateInstance := fun _ _ => none
    OfflineIsolatedDBInstance := fun _ _ _ => none
    DescribeAccountPrivileges := fun _ _ => .ok none
    DescribeInstanceByIdOn := fun _ _ _ => .ok none
    ModifyInstanceNameOn := fun _ _ _ _ => none
    ModifyTagsOn := fun _ _ _ _ _ => none
    CreateDBInstanceHour := fun _ _ _ => .ok [some "cmgo-41s6jwy4"]
    CreateDBInstance := fun _ _ _ => .ok [some "cmgo-41s6jwy4"]
    EnableVpnGatewaySslClientCert := fun _ _ => .ok (some 7)
    DisableVpnGatewaySslClientCert := fun _ _ => .ok (some 8)
    DescribeVpcTaskResult := fun _ _ => none
    DescribeDcdbDbInstance := fun _ _ => .ok []
    InitDCDBInstances := fun _ _ => .ok [some 1]
    DescribeDCDBInstances := fun _ _ => .ok (some ⟨some ⟨[]⟩⟩)
    DescribeAccounts := fun _ _ => .ok (some ⟨some ⟨[]⟩⟩) }

/-- A standby instance as the remote may describe it; `payMode` selects the charge type. -/
def sampleInstance (payMode : Nat) : InstanceDetail :=
  { InstanceName := some "tf-mongodb-standby-test"
    ProjectId := some 0
    Zone := some "ap-shanghai-2"
    VpcId := some ""
    SubnetId := some ""
    Status := some 2
    Vip := some "10.0.0.8"
    Vport := some 27017
    CreateTime := some "2021-01-01 00:00:00"
    MongoVersion := some "MONGO_40_WT"
    Memory := some 4096
    Volume := some 102400
    MachineType := some "HIO10G"
    PayMode := some payMode
    AutoRenewFlag := some 0
    ReplicationSetNum := some 1
    RelatedInstance := some { InstanceId := some "cmgo-father", Region := some "ap-guangzhou" }
    Tags := [some { TagKey := some "test", TagValue := some "test" }] }

/-- A remote on which every call succeeds and the MongoDB instance exists with
the given pay mode. -/
def remotePresent (payMode : Nat) : Remote :=
  { remoteAbsent with DescribeInstanceById := fun _ _ => .ok (some (sampleInstance payMode)) }

/-- A remote on which every mutating call succeeds and describing the MongoDB
instance fails. -/
def remoteDescribeFails : Remote :=
  { remoteAbsent with DescribeInstanceById := fun _ _ => .error ⟨"InternalError"⟩ }

/-- Resource data with the given id, prior state and planned values, nothing
written yet; an attribute that is not listed is unset. -/
def sampleData (id : String) (state config : List (String × Value)) : ResourceData :=
  { id := id
    state := fun k => (state.lookup k).getD .null
    config := fun k => (config.lookup k).getD .null
    sets := []
    partialMode := false
    partialKeys := [] }

/-- A plugin attachment whose `plugin_id` holds the separator. -/
def samplePluginData : ResourceData :=
  sampleData "" [] [("plugin_id", .str "a#b"), ("service_id", .str "s"),
    ("environment_name", .str "e"), ("api_id", .str "i")]

/-- A rate-limit rule whose `api_id` holds the separator. -/
def sampleRuleSeparatorData : ResourceData :=
  sampleData "" [] [("api_id", .str "a#b"), ("max_qps", .int 10)]

/-- A stored rate-limit rule whose planned values equal its prior state. -/
def sampleRuleData : ResourceData :=
  sampleData "api-xxxxxx#rule-1"
    [("api_id", .str "api-xxxxxx"), ("max_qps", .int 10), ("usable_status", .str "enabled")]
    [("api_id", .str "api-xxxxxx"), ("max_qps", .int 10), ("usable_status", .str "enabled")]

/-- A stored standby instance whose planned values equal its prior state. -/
def sampleStandbyData : ResourceData :=
  sampleData "cmgo-41s6jwy4"
    [("instance_name", .str "tf-mongodb-standby-test"), ("memory", .int 4), ("volume", .int 100)]
    [("instance_name", .str "tf-mongodb-standby-test"), ("memory", .int 4), ("volume", .int 100)]

/-- A stored standby instance whose `instance_name` is to change. -/
def sampleStandbyRename : ResourceData :=
  sampleData "cmgo-41s6jwy4"
    [("instance_name", .str "tf-mongodb-standby-test"), ("memory", .int 4), ("volume", .int 100)]
    [("instance_name", .str "tf-mongodb-standby-new"), ("memory", .int 4), ("volume", .int 100)]

/-- A stored standby instance whose `memory` is to change. -/
def sampleStandbyUpgrade : ResourceData :=
  sampleData "cmgo-41s6jwy4"
    [("instance_name", .str "tf-mongodb-standby-test"), ("memory", .int 4), ("volume", .int 100)]
    [("instance_name", .str "tf-mongodb-standby-test"), ("memory", .int 8), ("volume", .int 100)]

/-! ## Committed partitions of an update -/

/-- The attribute keys of an update of `d` whose change is committed according
to the call history `tr`, in the order of the blocks of
`resourceTencentCloudMongodbStandbyInstanceUpdate`: an attribute is listed when
it has changed and the mutating call of its block has returned without error;
`waited` says whether, for memory and volume, the wait after the upgrade call
counts as having succeeded. -/
def mongodbStandbyCommitted (d : ResourceData) (tr : List Event) (waited : Bool) : List String :=
  (if (d.HasChange "memory" || d.HasChange "volume") && succeeded tr Call.isUpgradeInstance
      && waited then ["memory", "volume"] else []) ++
  (if d.HasChange "instance_name" && succeeded tr Call.isModifyInstanceName then
      ["instance_name"] else []) ++
  (if d.HasChange "project_id" && succeeded tr Call.isModifyProjectId then ["project_id"] else []) ++
  (if d.HasChange "tags" && succeeded tr Call.isModifyTags then ["tags"] else []) ++
  (if d.HasChange "auto_renew_flag" && succeeded tr Call.isModifyAutoRenewFlag then
      ["auto_renew_flag"] else [])

/-- Whether a run ended with a `nil` error. -/
def Res.isOk {ε α : Type} : Res ε α → Bool
  | .ok _ => true
  | _ => false

/-- Invariant of a run `x` inside an update of `d`, between two blocks of
`resourceTencentCloudMongodbStandbyInstanceUpdate`: the recorded keys are the
committed ones, partial mode is on, the attributes are those of `d`, and as
long as no block has failed the history holds no successful call of a block
that is still `pending`. -/
def StandbyUpdateInv (d : ResourceData) (waited : Bool) (pending : List (Call → Bool))
    (x : Run) : Prop :=
  x.d.partialKeys = mongodbStandbyCommitted d x.trace waited ∧
  x.d.partialMode = true ∧ x.d.state = d.state ∧ x.d.config = d.config ∧ x.d.id = d.id ∧
  (x.out.isOk = true → ∀ p ∈ pending, succeeded x.trace p = false)

/-! ## Sample values for the standby-instance Create, the VPN client cert and DCDB -/

/-- The shared provider client of the documented example: region `ap-shanghai`. -/
def sampleClient : TencentCloudClient := { Region := "ap-shanghai" }

/-- The father instance of the documented example, in zone `ap-guangzhou-3`. -/
def sampleFather : InstanceDetail :=
  { sampleInstance 0 with
    InstanceName := some "tf-mongodb-test", Zone := some "ap-guangzhou-3"
    MongoVersion := some "MONGO_36_WT", RelatedInstance := none }

/-- A remote for Create: the lookup through a client of region `ap-guangzhou`
finds the father instance, every other describe finds the standby instance,
and every call succeeds. -/
def remoteCreate : Remote :=
  { remoteAbsent with
    DescribeInstanceByIdOn := fun _ client _ =>
      if client.Region = "ap-guangzhou" then .ok (some sampleFather)
      else .ok (some (sampleInstance 0)) }

/-- The remote `remoteCreate` with a failing rename. -/
def remoteCreateRenameFails : Remote :=
  { remoteCreate with ModifyInstanceNameOn := fun _ _ _ _ => some ⟨"InternalError"⟩ }

/-- The standby instance of the documented example, charged by the hour. -/
def sampleCreateData : ResourceData :=
  sampleData "" []
    [("instance_name", .str "tf-mongodb-standby-test"), ("memory", .int 4), ("volume", .int 100),
      ("available_zone", .str "ap-shanghai-2"), ("project_id", .int 0),
      ("father_instance_id", .str "cmgo-father"), ("father_instance_region", .str "ap-guangzhou"),
      ("charge_type", .str "POSTPAID_BY_HOUR"), ("tags", .map [("test", "test")])]

/-- The documented example with the zone of the father instance. -/
def sampleCreateSameZone : ResourceData :=
  sampleData "" []
    [("instance_name", .str "tf-mongodb-standby-test"), ("memory", .int 4), ("volume", .int 100),
      ("available_zone", .str "ap-guangzhou-3"), ("project_id", .int 0),
      ("father_instance_id", .str "cmgo-father"), ("father_instance_region", .str "ap-guangzhou"),
      ("charge_type", .str "POSTPAID_BY_HOUR")]

/-- The documented example, charged by the hour, with `prepaid_period` set. -/
def sampleCreatePostpaidPeriod : ResourceData :=
  sampleData "" []
    [("instance_name", .str "tf-mongodb-standby-test"), ("memory", .int 4), ("volume", .int 100),
      ("available_zone", .str "ap-shanghai-2"), ("project_id", .int 0),
      ("father_instance_id", .str "cmgo-father"), ("father_instance_region", .str "ap-guangzhou"),
      ("charge_type", .str "POSTPAID_BY_HOUR"), ("prepaid_period", .int 1)]

/-- The documented example, prepaid, without `prepaid_period`. -/
def sampleCreatePrepaidNoPeriod : ResourceData :=
  sampleData "" []
    [("instance_name", .str "tf-mongodb-standby-test"), ("memory", .int 4), ("volume", .int 100),
      ("available_zone", .str "ap-shanghai-2"), ("project_id", .int 0),
      ("father_instance_id", .str "cmgo-father"), ("father_instance_region", .str "ap-guangzhou"),
      ("charge_type", .str "PREPAID")]

/-- A Read standing for `resourceTencentCloudMongodbInstanceRead`: it issues
no call and writes nothing. -/
def sampleInstanceRead (d : ResourceData) (tr : List Event) : Run := ⟨d, tr, .ok ()⟩

/-- A VPN client cert with the given value of `switch`. -/
def sampleVpnData (switch : String) : ResourceData :=
  sampleData "vpnc-5n4mbhwt" [] [("switch", .str switch)]

/-! ## Reading the poll of `InitDcdbDbInstance` -/

/-- The client and the request of a creation call, `none` for any other call. -/
def Call.createRequest : Call → Option (TencentCloudClient × CreateDBInstanceRequest)
  | .CreateDBInstanceHour client request => some (client, request)
  | .CreateDBInstance client request => some (client, request)
  | _ => none

/-- The client a call of the standby-instance Create goes through, `none` for
the calls of other resources. -/
def Call.client : Call → Option TencentCloudClient
  | .DescribeInstanceByIdOn client _ => some client
  | .ModifyInstanceNameOn client _ _ => some client
  | .ModifyTagsOn client _ _ _ => some client
  | .CreateDBInstanceHour client _ => some client
  | .CreateDBInstance client _ => some client
  | _ => none

/-- The instance id that a creation call answers with when it is issued after
the call history `t`: `*response.Response.InstanceIds[0]`. -/
def createdInstanceId (r : Remote) (t : List Event) : Call → Option String
  | .CreateDBInstanceHour client request =>
      match r.CreateDBInstanceHour t client request with
      | .ok (some instanceId :: _) => some instanceId
      | _ => none
  | .CreateDBInstance client request =>
      match r.CreateDBInstance t client request with
      | .ok (some instanceId :: _) => some instanceId
      | _ => none
  | _ => none

/-! ## Sample values and readers for the Reads and the paged queries -/

/-- A remote on which the SSL client exists with the given certificate status. -/
def remoteVpnClient (certStatus : Option Nat) : Remote :=
  { remoteAbsent with
    DescribeVpnSslClientById := fun _ sslVpnClientId =>
      .ok (some { SslVpnClientId := some sslVpnClientId, CertStatus := certStatus }) }

/-- A stored TSF rule whose `api_id` is to change. -/
def sampleRuleApiChange : ResourceData :=
  sampleData "api-xxxxxx#rule-1"
    [("api_id", .str "api-xxxxxx"), ("max_qps", .int 10), ("usable_status", .str "enabled")]
    [("api_id", .str "api-yyyyyy"), ("max_qps", .int 10), ("usable_status", .str "enabled")]

/-- The remote tags as pairs, in the order of the remote list; tags with a nil
pointer, key or value are left out. -/
def remoteTagPairs (tags : List (Option TagInfo)) : List (String × String) :=
  tags.filterMap (fun t =>
    match t with
    | some ⟨some tagKey, some tagValue⟩ => some (tagKey, tagValue)
    | _ => none)

/-- The value of the last remote tag with the given key. -/
def lastRemoteTag (tags : List (Option TagInfo)) (key : String) : Option String :=
  (remoteTagPairs tags).reverse.lookup key

/-- An instance with the externally managed tag and a repeated key. -/
def sampleTaggedInstance : InstanceDetail :=
  { sampleInstance 0 with
    Tags := [some ⟨some "project", some "default"⟩, some ⟨some "team", some "a"⟩,
      some ⟨some "team", some "b"⟩] }

/-- A remote on which the MongoDB instance exists with the tags of
`sampleTaggedInstance`. -/
def remoteTagged : Remote :=
  { remoteAbsent with DescribeInstanceById := fun _ _ => .ok (some sampleTaggedInstance) }

/-- A remote that holds the DCDB instances `L` and answers a request with the
slice of `L` that its offset and limit select. -/
def remotePaged (L : List (Option DCDBInstanceInfo)) : Remote :=
  { remoteAbsent with
    DescribeDCDBInstances := fun _ request =>
      match request.Offset, request.Limit with
      | some offset, some limit => .ok (some ⟨some ⟨(L.drop offset.toNat).take limit.toNat⟩⟩)
      | _, _ => .ok (some ⟨some ⟨L⟩⟩) }

/-- Twenty-one DCDB instances. -/
def sampleDcdbInstances : List (Option DCDBInstanceInfo) :=
  (List.range 21).map (fun n => some ⟨some (Int.ofNat n)⟩)

/-- Twenty DCDB accounts. -/
def sampleDcdbAccounts : List (Option DBAccount) :=
  (List.range 20).map (fun n => some ⟨some (toString n), some "%"⟩)

/-- A remote that answers every `DescribeAccounts` call with the twenty
accounts of `sampleDcdbAccounts`. -/
def remoteTwentyAccounts : Remote :=
  { remoteAbsent with DescribeAccounts := fun _ _ => .ok (some ⟨some ⟨sampleDcdbAccounts⟩⟩) }

/-- The plugin attachment of the documented example, not yet created. -/
def samplePluginExample : ResourceData :=
  sampleData "" [] [("plugin_id", .str "plugin-ny74siyz"), ("service_id", .str "service-n1mgl0sq"),
    ("environment_name", .str "test"), ("api_id", .str "api-6tfrdysk")]

/-- A remote on which every call succeeds and the plugin attachment exists. -/
def remotePluginAttached : Remote :=
  { remoteAbsent with
    DescribeApiGatewayPluginAttachmentById := fun _ _ serviceId environmentName apiId =>
      .ok (some ⟨some serviceId, some environmentName, some apiId⟩) }

/-! ## Theorems -/

/-! ### The separator and `strings.Split` -/

theorem sepData : FILED_SP.data = ['#'] := rfl

theorem splitLoop_sep_step (acc : List Char) (c : Char) (rest : List Char) :
    splitLoop ['#'] 0 acc (c :: rest) =
      if c = '#' then acc.reverse :: splitLoop ['#'] 0 [] rest
      else splitLoop ['#'] 0 (c :: acc) rest := by
  by_cases h : c = '#'
  · subst h; simp [splitLoop, List.isPrefixOf]
  · have h' : ¬ ('#' = c) := fun e => h e.symm
    simp [splitLoop, List.isPrefixOf, h, h']

theorem splitLoop_free (l : List Char) : ∀ acc : List Char, '#' ∉ l →
    splitLoop ['#'] 0 acc l = [acc.reverse ++ l] := by
  induction l with
  | nil => intro acc _; simp [splitLoop]
  | cons c rest ih =>
      intro acc h
      have hc : c ≠ '#' := fun e => h (by simp [e])
      have hr : '#' ∉ rest := fun e => h (by simp [e])
      rw [splitLoop_sep_step, if_neg hc, ih _ hr]
      simp

theorem splitLoop_piece (a : List Char) (rest : List Char) : ∀ acc : List Char, '#' ∉ a →
    splitLoop ['#'] 0 acc (a ++ '#' :: rest) = (acc.reverse ++ a) :: splitLoop ['#'] 0 [] rest := by
  induction a with
  | nil => intro acc _; rw [List.nil_append, splitLoop_sep_step, if_pos rfl]; simp
  | cons c a ih =>
      intro acc h
      have hc : c ≠ '#' := fun e => h (by simp [e])
      have hr : '#' ∉ a := fun e => h (by simp [e])
      rw [List.cons_append, splitLoop_sep_step, if_neg hc, ih _ hr]
      simp

theorem splitLoop_length (l : List Char) : ∀ acc : List Char,
    (splitLoop ['#'] 0 acc l).length = l.count '#' + 1 := by
  induction l with
  | nil => intro acc; simp [splitLoop]
  | cons c rest ih =>
      intro acc
      rw [splitLoop_sep_step]
      by_cases hc : c = '#'
      · subst hc; simp [ih]
      · rw [if_neg hc, ih]; simp [List.count_cons, hc]

theorem Split_length (s : String) : (Split s FILED_SP).length = s.data.count '#' + 1 := by
  simp [Split, sepData, splitLoop_length]

theorem Contains_sep (s : String) : Contains s FILED_SP = true ↔ '#' ∈ s.data := by
  unfold Contains
  rw [sepData, List.any_eq_true]
  constructor
  · rintro ⟨t, ht, hp⟩
    have hsuf : t <:+ s.data := (List.mem_tails _ _).1 ht
    cases t with
    | nil => simp [List.isPrefixOf] at hp
    | cons c t =>
        simp [List.isPrefixOf] at hp
        subst hp
        exact hsuf.subset (by simp)
  · intro h
    obtain ⟨a, b, hab⟩ := List.append_of_mem h
    refine ⟨'#' :: b, (List.mem_tails _ _).2 ⟨a, hab.symm⟩, by simp [List.isPrefixOf]⟩

theorem Split_join4 (a b c e : String) (ha : '#' ∉ a.data) (hb : '#' ∉ b.data)
    (hc : '#' ∉ c.data) (he : '#' ∉ e.data) :
    Split (a ++ FILED_SP ++ b ++ FILED_SP ++ c ++ FILED_SP ++ e) FILED_SP = [a, b, c, e] := by
  have hd : (a ++ FILED_SP ++ b ++ FILED_SP ++ c ++ FILED_SP ++ e).data
      = a.data ++ '#' :: (b.data ++ '#' :: (c.data ++ '#' :: e.data)) := by
    simp [String.data_append, sepData]
  simp only [Split, sepData, hd]
  rw [if_neg (by simp), splitLoop_piece _ _ _ ha, splitLoop_piece _ _ _ hb,
    splitLoop_piece _ _ _ hc, splitLoop_free _ _ he]
  simp


theorem notExist_ne_idBroken (id : String) :
    GoError.Errorf ("resource `ApiGatewayPluginAttachment` " ++ "" ++ " does not exist")
      ≠ GoError.Errorf ("id is broken," ++ id) := by
  intro h
  injection h with h
  have h2 := congrArg String.data h
  simp [String.data_append] at h2

/-- Claim C2 (arity check on decode): at each decoding site, the plugin
attachment Read and Delete (arity 4), the TSF rate-limit rule Read (arity 2) and
`DescribeDcdbAccountPrivilegesById` (arity 7), the "id is broken" error is
returned if and only if splitting the id on the separator does not give the
expected number of parts, and when it is returned the call history is unchanged:
no remote call has been issued. -/
theorem decode_arity_check (r : Remote) (d : ResourceData) (tr : List Event) (ids : String)
    (dbName aType object colName : Option String) :
    (((resourceTencentCloudApiGatewayPluginAttachmentRead r d tr).out
          = .err (.Errorf ("id is broken," ++ d.id)) ↔ (Split d.id FILED_SP).length ≠ 4) ∧
      ((resourceTencentCloudApiGatewayPluginAttachmentRead r d tr).out
          = .err (.Errorf ("id is broken," ++ d.id)) →
        (resourceTencentCloudApiGatewayPluginAttachmentRead r d tr).trace = tr)) ∧
    (((resourceTencentCloudApiGatewayPluginAttachmentDelete r d tr).out
          = .err (.Errorf ("id is broken," ++ d.id)) ↔ (Split d.id FILED_SP).length ≠ 4) ∧
      ((resourceTencentCloudApiGatewayPluginAttachmentDelete r d tr).out
          = .err (.Errorf ("id is broken," ++ d.id)) →
        (resourceTencentCloudApiGatewayPluginAttachmentDelete r d tr).trace = tr)) ∧
    (((resourceTencentCloudTsfApiRateLimitRuleRead r d tr).out
          = .err (.Errorf ("id is broken," ++ d.id)) ↔ (Split d.id FILED_SP).length ≠ 2) ∧
      ((resourceTencentCloudTsfApiRateLimitRuleRead r d tr).out
          = .err (.Errorf ("id is broken," ++ d.id)) →
        (resourceTencentCloudTsfApiRateLimitRuleRead r d tr).trace = tr)) ∧
    (((DescribeDcdbAccountPrivilegesById r ids dbName aType object colName tr).2
          = .error (.Errorf ("[service_tc_dbdb]id is broken," ++ ids)) ↔
        (Split ids FILED_SP).length ≠ 7) ∧
      ((DescribeDcdbAccountPrivilegesById r ids dbName aType object colName tr).2
          = .error (.Errorf ("[service_tc_dbdb]id is broken," ++ ids)) →
        (DescribeDcdbAccountPrivilegesById r ids dbName aType object colName tr).1 = tr)) := by
  refine ⟨?_, ?_, ?_, ?_⟩
  · by_cases h : (Split d.id FILED_SP).length = 4
    · have key : (resourceTencentCloudApiGatewayPluginAttachmentRead r d tr).out
          ≠ .err (.Errorf ("id is broken," ++ d.id)) := by
        simp only [resourceTencentCloudApiGatewayPluginAttachmentRead, callVal, h]
        cases r.DescribeApiGatewayPluginAttachmentById tr ((Split d.id FILED_SP).getD 0 "")
            ((Split d.id FILED_SP).getD 1 "") ((Split d.id FILED_SP).getD 2 "")
            ((Split d.id FILED_SP).getD 3 "") with
        | error e => simp
        | ok a =>
            cases a with
            | none =>
                simp only [ResourceData.SetId]
                intro hh
                exact notExist_ne_idBroken d.id (by simpa using hh)
            | some v => simp
      exact ⟨⟨fun hh => absurd hh key, fun hh => absurd h hh⟩, fun hh => absurd hh key⟩
    · simp [resourceTencentCloudApiGatewayPluginAttachmentRead, h]
  · by_cases h : (Split d.id FILED_SP).length = 4
    · have key : (resourceTencentCloudApiGatewayPluginAttachmentDelete r d tr).out
          ≠ .err (.Errorf ("id is broken," ++ d.id)) := by
        simp only [resourceTencentCloudApiGatewayPluginAttachmentDelete, callErr, h]
        cases r.DeleteApiGatewayPluginAttachmentById tr ((Split d.id FILED_SP).getD 0 "")
            ((Split d.id FILED_SP).getD 1 "") ((Split d.id FILED_SP).getD 2 "")
            ((Split d.id FILED_SP).getD 3 "") <;> simp
      exact ⟨⟨fun hh => absurd hh key, fun hh => absurd h hh⟩, fun hh => absurd hh key⟩
    · simp [resourceTencentCloudApiGatewayPluginAttachmentDelete, h]
  · by_cases h : (Split d.id FILED_SP).length = 2
    · have key : (resourceTencentCloudTsfApiRateLimitRuleRead r d tr).out
          ≠ .err (.Errorf ("id is broken," ++ d.id)) := by
        simp only [resourceTencentCloudTsfApiRateLimitRuleRead, callVal, h]
        cases r.DescribeTsfApiRateLimitRuleById tr ((Split d.id FILED_SP).getD 0 "")
            ((Split d.id FILED_SP).getD 1 "") with
        | error e => simp
        | ok a => cases a <;> simp
      exact ⟨⟨fun hh => absurd hh key, fun hh => absurd h hh⟩, fun hh => absurd hh key⟩
    · simp [resourceTencentCloudTsfApiRateLimitRuleRead, h]
  · by_cases h : (Split ids FILED_SP).length = 7
    · have key : (DescribeDcdbAccountPrivilegesById r ids dbName aType object colName tr).2
          ≠ .error (.Errorf ("[service_tc_dbdb]id is broken," ++ ids)) := by
        simp only [DescribeDcdbAccountPrivilegesById, callVal, h]
        generalize r.DescribeAccountPrivileges tr _ = ans
        cases ans <;> simp
      exact ⟨⟨fun hh => absurd hh key, fun hh => absurd h hh⟩, fun hh => absurd hh key⟩
    · simp [DescribeDcdbAccountPrivilegesById, h]


/-! ### `resource.Retry` around a single call -/

theorem Retry_retryCall (env : Env) (c : Call) (answer : List Event → Option RemoteError) :
    ∀ (n : Nat) (tr : List Event), ∃ pre : List Event,
      Retry (retryCall env c answer) n tr = (tr ++ pre ++ [⟨c, true⟩], .ok ()) ∨
      ∃ e, Retry (retryCall env c answer) n tr = (tr ++ pre ++ [⟨c, false⟩], .err (.Remote e)) := by
  intro n
  induction n with
  | zero =>
      intro tr
      refine ⟨[], ?_⟩
      cases h : answer tr with
      | none => left; simp [Retry, retryCall, callErr, record, h]
      | some e => right; exact ⟨e, by simp [Retry, retryCall, callErr, record, h, retryError]⟩
  | succ n ih =>
      intro tr
      cases h : answer tr with
      | none => exact ⟨[], Or.inl (by simp [Retry, retryCall, callErr, record, h])⟩
      | some e =>
          by_cases hr : env.retryable e = true
          · obtain ⟨pre, hpre⟩ := ih (tr ++ [⟨c, false⟩])
            refine ⟨⟨c, false⟩ :: pre, ?_⟩
            have hstep : Retry (retryCall env c answer) (n + 1) tr
                = Retry (retryCall env c answer) n (tr ++ [⟨c, false⟩]) := by
              simp [Retry, retryCall, callErr, record, h, retryError, hr]
            rw [hstep]
            simpa using hpre
          · exact ⟨[], Or.inr ⟨e, by simp [Retry, retryCall, callErr, record, h, retryError, hr]⟩⟩

theorem Retry_retryCallVal {α : Type} (env : Env) (c : Call)
    (answer : List Event → Except RemoteError α) :
    ∀ (n : Nat) (tr : List Event), ∃ pre : List Event,
      (∃ a, answer (tr ++ pre) = .ok a ∧
        Retry (retryCallVal env c answer) n tr = (tr ++ pre ++ [⟨c, true⟩], .ok a)) ∨
      ∃ e, Retry (retryCallVal env c answer) n tr = (tr ++ pre ++ [⟨c, false⟩], .err (.Remote e)) := by
  intro n
  induction n with
  | zero =>
      intro tr
      refine ⟨[], ?_⟩
      cases h : answer tr with
      | ok a => left; exact ⟨a, by simpa using h, by simp [Retry, retryCallVal, callVal, record, h]⟩
      | error e => right; exact ⟨e, by simp [Retry, retryCallVal, callVal, record, h, retryError]⟩
  | succ n ih =>
      intro tr
      cases h : answer tr with
      | ok a =>
          exact ⟨[], Or.inl ⟨a, by simpa using h, by simp [Retry, retryCallVal, callVal, record, h]⟩⟩
      | error e =>
          by_cases hr : env.retryable e = true
          · obtain ⟨pre, hpre⟩ := ih (tr ++ [⟨c, false⟩])
            refine ⟨⟨c, false⟩ :: pre, ?_⟩
            have hstep : Retry (retryCallVal env c answer) (n + 1) tr
                = Retry (retryCallVal env c answer) n (tr ++ [⟨c, false⟩]) := by
              simp [Retry, retryCallVal, callVal, record, h, retryError, hr]
            rw [hstep]
            simpa using hpre
          · exact ⟨[], Or.inr ⟨e, by
              simp [Retry, retryCallVal, callVal, record, h, retryError, hr]⟩⟩

theorem GetOk_asString (d : ResourceData) (key : String) :
    (if (d.GetOk key).2 then (d.GetOk key).1.asString else "") = (d.Get key).asString := by
  unfold ResourceData.GetOk ResourceData.Get
  cases h : d.config key <;> simp [Value.isZero, Value.asString]
  intro hs; exact hs.symm

theorem count_pos_of_Contains (s : String) (h : Contains s FILED_SP = true) :
    0 < s.data.count '#' :=
  List.count_pos_iff.2 ((Contains_sep s).1 h)

theorem Split_join4_length (a b c e : String) :
    (Split (a ++ FILED_SP ++ b ++ FILED_SP ++ c ++ FILED_SP ++ e) FILED_SP).length
      = a.data.count '#' + b.data.count '#' + c.data.count '#' + e.data.count '#' + 4 := by
  rw [Split_length]
  simp [String.data_append, sepData, List.count_append, List.count_cons]
  omega

theorem Split_join2_length (a b : String) :
    (Split (a ++ FILED_SP ++ b) FILED_SP).length = a.data.count '#' + b.data.count '#' + 2 := by
  rw [Split_length]
  simp [String.data_append, sepData, List.count_append, List.count_cons]
  omega


/-- Counterexample to claim C3: with `plugin_id = "a#b"` (respectively
`api_id = "a#b"`) and a remote whose create call succeeds, Create has issued
the remote call and the stored id is the identity built from the components. -/
theorem create_stores_id_with_separator :
    Contains (samplePluginData.Get "plugin_id").asString FILED_SP = true ∧
    (resourceTencentCloudApiGatewayPluginAttachmentCreate sampleEnv remoteAbsent
      samplePluginData []).d.id = "a#b" ++ FILED_SP ++ "s" ++ FILED_SP ++ "e" ++ FILED_SP ++ "i" ∧
    (resourceTencentCloudApiGatewayPluginAttachmentCreate sampleEnv remoteAbsent
      samplePluginData []).trace
      = [⟨.AttachPlugin ⟨some "a#b", some "s", some "e", ["i"]⟩, true⟩] ∧
    Contains (sampleRuleSeparatorData.Get "api_id").asString FILED_SP = true ∧
    (resourceTencentCloudTsfApiRateLimitRuleCreate sampleEnv remoteAbsent
      sampleRuleSeparatorData []).d.id = "a#b" ++ FILED_SP ++ "rule-1" := by
  decide

/-- Claim C3, amended: Create checks no component for the separator and always
issues the remote create call first.  For the plugin attachment, when a
component contains the separator, either the call fails, Create returns its
error and the resource data is untouched, or the call succeeds, Create stores
the joined identity and returns the "id is broken" error of the Read that
follows.  For the TSF rule, either the create call fails (its error, data
untouched), or it returns no rule id (nil dereference), or it returns a rule id
and, when `api_id` or that rule id contains the separator, Create stores
`api_id + SEP + ruleId` and returns the "id is broken" error. -/
theorem create_with_separator_in_component (env : Env) (r : Remote) (d : ResourceData)
    (tr : List Event) :
    (Contains (d.Get "plugin_id").asString FILED_SP = true ∨
        Contains (d.Get "service_id").asString FILED_SP = true ∨
        Contains (d.Get "environment_name").asString FILED_SP = true ∨
        Contains (d.Get "api_id").asString FILED_SP = true →
      ∃ (pre : List Event) (request : AttachPluginRequest),
        ((resourceTencentCloudApiGatewayPluginAttachmentCreate env r d tr).trace
              = tr ++ pre ++ [⟨.AttachPlugin request, true⟩] ∧
          (resourceTencentCloudApiGatewayPluginAttachmentCreate env r d tr).d
              = d.SetId ((d.Get "plugin_id").asString ++ FILED_SP ++ (d.Get "service_id").asString
                  ++ FILED_SP ++ (d.Get "environment_name").asString ++ FILED_SP
                  ++ (d.Get "api_id").asString) ∧
          (resourceTencentCloudApiGatewayPluginAttachmentCreate env r d tr).out
              = .err (.Errorf ("id is broken," ++ ((d.Get "plugin_id").asString ++ FILED_SP
                  ++ (d.Get "service_id").asString ++ FILED_SP
                  ++ (d.Get "environment_name").asString ++ FILED_SP
                  ++ (d.Get "api_id").asString)))) ∨
        ((resourceTencentCloudApiGatewayPluginAttachmentCreate env r d tr).trace
              = tr ++ pre ++ [⟨.AttachPlugin request, false⟩] ∧
          (resourceTencentCloudApiGatewayPluginAttachmentCreate env r d tr).d = d ∧
          ∃ e, (resourceTencentCloudApiGatewayPluginAttachmentCreate env r d tr).out
              = .err (.Remote e))) ∧
    (∃ (pre : List Event) (request : CreateApiRateLimitRuleWithDetailRespRequest),
        ((resourceTencentCloudTsfApiRateLimitRuleCreate env r d tr).trace
              = tr ++ pre ++ [⟨.CreateApiRateLimitRuleWithDetailResp request, false⟩] ∧
          (resourceTencentCloudTsfApiRateLimitRuleCreate env r d tr).d = d ∧
          ∃ e, (resourceTencentCloudTsfApiRateLimitRuleCreate env r d tr).out = .err (.Remote e)) ∨
        (r.CreateApiRateLimitRuleWithDetailResp (tr ++ pre) request = .ok none ∧
          (resourceTencentCloudTsfApiRateLimitRuleCreate env r d tr).out = .panic) ∨
        (∃ ruleId, r.CreateApiRateLimitRuleWithDetailResp (tr ++ pre) request = .ok (some ruleId) ∧
          (Contains (d.Get "api_id").asString FILED_SP = true ∨ Contains ruleId FILED_SP = true →
            (resourceTencentCloudTsfApiRateLimitRuleCreate env r d tr).trace
                = tr ++ pre ++ [⟨.CreateApiRateLimitRuleWithDetailResp request, true⟩] ∧
            (resourceTencentCloudTsfApiRateLimitRuleCreate env r d tr).d
                = d.SetId ((d.Get "api_id").asString ++ FILED_SP ++ ruleId) ∧
            (resourceTencentCloudTsfApiRateLimitRuleCreate env r d tr).out
                = .err (.Errorf ("id is broken," ++ ((d.Get "api_id").asString ++ FILED_SP
                    ++ ruleId)))))) := by
  constructor
  · intro hsep
    have hlen : (Split ((d.Get "plugin_id").asString ++ FILED_SP ++ (d.Get "service_id").asString
        ++ FILED_SP ++ (d.Get "environment_name").asString ++ FILED_SP
        ++ (d.Get "api_id").asString) FILED_SP).length ≠ 4 := by
      rw [Split_join4_length]
      rcases hsep with h | h | h | h <;> have := count_pos_of_Contains _ h <;> omega
    simp only [resourceTencentCloudApiGatewayPluginAttachmentCreate, GetOk_asString]
    generalize hreq : ({ PluginId := _, ServiceId := _, EnvironmentName := _, ApiIds := _ }
      : AttachPluginRequest) = request
    obtain ⟨pre, hpre⟩ := Retry_retryCall env (.AttachPlugin request)
      (fun t => r.AttachPlugin t request) env.writeRetryTimeout tr
    refine ⟨pre, request, ?_⟩
    rcases hpre with h | ⟨e, h⟩
    · left
      rw [h]
      simp [resourceTencentCloudApiGatewayPluginAttachmentRead, ResourceData.SetId, hlen]
    · right
      rw [h]
      simp
  · simp only [resourceTencentCloudTsfApiRateLimitRuleCreate, GetOk_asString]
    generalize hreq : ({ ApiId := _, MaxQps := _, UsableStatus := _ }
      : CreateApiRateLimitRuleWithDetailRespRequest) = request
    obtain ⟨pre, hpre⟩ := Retry_retryCallVal env (.CreateApiRateLimitRuleWithDetailResp request)
      (fun t => r.CreateApiRateLimitRuleWithDetailResp t request) env.writeRetryTimeout tr
    refine ⟨pre, request, ?_⟩
    rcases hpre with ⟨a, ha, h⟩ | ⟨e, h⟩
    · right
      cases a with
      | none => left; rw [h]; exact ⟨ha, rfl⟩
      | some ruleId =>
          right
          refine ⟨ruleId, ha, ?_⟩
          intro hsep
          have hlen : (Split ((d.Get "api_id").asString ++ FILED_SP ++ ruleId) FILED_SP).length
              ≠ 2 := by
            rw [Split_join2_length]
            rcases hsep with h | h <;> have := count_pos_of_Contains _ h <;> omega
          rw [h]
          simp [resourceTencentCloudTsfApiRateLimitRuleRead, ResourceData.SetId, hlen]
    · left
      rw [h]
      simp

/-- Witness of C3, amended: a plugin attachment whose `plugin_id` is `a#b`. -/
theorem create_with_separator_in_component_witness :
    Contains (samplePluginData.Get "plugin_id").asString FILED_SP = true ∧
    ∃ (pre : List Event) (request : AttachPluginRequest),
      ((resourceTencentCloudApiGatewayPluginAttachmentCreate sampleEnv remoteAbsent
            samplePluginData []).trace = [] ++ pre ++ [⟨.AttachPlugin request, true⟩] ∧
        (resourceTencentCloudApiGatewayPluginAttachmentCreate sampleEnv remoteAbsent
            samplePluginData []).d
          = samplePluginData.SetId ((samplePluginData.Get "plugin_id").asString ++ FILED_SP
              ++ (samplePluginData.Get "service_id").asString ++ FILED_SP
              ++ (samplePluginData.Get "environment_name").asString ++ FILED_SP
              ++ (samplePluginData.Get "api_id").asString) ∧
        (resourceTencentCloudApiGatewayPluginAttachmentCreate sampleEnv remoteAbsent
            samplePluginData []).out
          = .err (.Errorf ("id is broken," ++ ((samplePluginData.Get "plugin_id").asString
              ++ FILED_SP ++ (samplePluginData.Get "service_id").asString ++ FILED_SP
              ++ (samplePluginData.Get "environment_name").asString ++ FILED_SP
              ++ (samplePluginData.Get "api_id").asString)))) ∨
      ((resourceTencentCloudApiGatewayPluginAttachmentCreate sampleEnv remoteAbsent
            samplePluginData []).trace = [] ++ pre ++ [⟨.AttachPlugin request, false⟩] ∧
        (resourceTencentCloudApiGatewayPluginAttachmentCreate sampleEnv remoteAbsent
            samplePluginData []).d = samplePluginData ∧
        ∃ e, (resourceTencentCloudApiGatewayPluginAttachmentCreate sampleEnv remoteAbsent
            samplePluginData []).out = .err (.Remote e)) :=
  ⟨by decide, (create_with_separator_in_component sampleEnv remoteAbsent samplePluginData []).1
    (Or.inl (by decide))⟩

/-- Claim C4, the code at the failing input: for the well-formed id
`plugin-ny74siyz#service-n1mgl0sq#test#api-6tfrdysk` and a remote whose describe
call succeeds and reports the attachment absent, Read clears the id and returns
the error "resource `ApiGatewayPluginAttachment`  does not exist". -/
theorem plugin_attachment_read_absent_returns_error :
    (resourceTencentCloudApiGatewayPluginAttachmentRead remoteAbsent
      (sampleData "plugin-ny74siyz#service-n1mgl0sq#test#api-6tfrdysk" [] []) []).out
      = .err (.Errorf "resource `ApiGatewayPluginAttachment`  does not exist") ∧
    (resourceTencentCloudApiGatewayPluginAttachmentRead remoteAbsent
      (sampleData "plugin-ny74siyz#service-n1mgl0sq#test#api-6tfrdysk" [] []) []).d.id = "" ∧
    (resourceTencentCloudApiGatewayPluginAttachmentRead remoteAbsent
      (sampleData "plugin-ny74siyz#service-n1mgl0sq#test#api-6tfrdysk" [] []) []).trace
      = [⟨.DescribeApiGatewayPluginAttachmentById "plugin-ny74siyz" "service-n1mgl0sq" "test"
          "api-6tfrdysk", true⟩] := by
  decide

/-- Claim C5 (not-found on read clears the identity without error): for the TSF
rate-limit rule Read (on a well-formed id), the VPN-gateway SSL-client-cert Read
and the MongoDB standby-instance Read, when the describe call succeeds and
reports the object absent, the resource data after Read is the one before it
with the id set to the empty string, so no attribute is written, and Read
returns no error. -/
theorem read_absent_clears_id (env : Env) (r : Remote) (d : ResourceData) (tr : List Event) :
    ((Split d.id FILED_SP).length = 2 →
      r.DescribeTsfApiRateLimitRuleById tr ((Split d.id FILED_SP).getD 0 "")
        ((Split d.id FILED_SP).getD 1 "") = .ok none →
      (resourceTencentCloudTsfApiRateLimitRuleRead r d tr).d = { d with id := "" } ∧
      (resourceTencentCloudTsfApiRateLimitRuleRead r d tr).out = .ok ()) ∧
    (r.DescribeVpnSslClientById tr d.id = .ok none →
      (resourceTencentCloudVpnGatewaySslClientCertRead r d tr).d = { d with id := "" } ∧
      (resourceTencentCloudVpnGatewaySslClientCertRead r d tr).out = .ok ()) ∧
    (r.DescribeInstanceById tr d.id = .ok none →
      (resourceTencentCloudMongodbStandbyInstanceRead env r d tr).d = { d with id := "" } ∧
      (resourceTencentCloudMongodbStandbyInstanceRead env r d tr).out = .ok ()) := by
  refine ⟨?_, ?_, ?_⟩
  · intro h hd
    simp only [resourceTencentCloudTsfApiRateLimitRuleRead, callVal, h, hd, ResourceData.SetId,
      ne_eq, not_true_eq_false, if_false, and_self]
  · intro hd
    simp only [resourceTencentCloudVpnGatewaySslClientCertRead, callVal, hd, ResourceData.SetId,
      and_self]
  · intro hd
    simp only [resourceTencentCloudMongodbStandbyInstanceRead, callVal, hd, ResourceData.SetId,
      and_self]

/-- Witness of C5: the three Reads on a remote that reports every object absent. -/
theorem read_absent_clears_id_witness :
    ((resourceTencentCloudTsfApiRateLimitRuleRead remoteAbsent
        (sampleData "api-xxxxxx#rule-1" [] []) []).d
        = { sampleData "api-xxxxxx#rule-1" [] [] with id := "" } ∧
      (resourceTencentCloudTsfApiRateLimitRuleRead remoteAbsent
        (sampleData "api-xxxxxx#rule-1" [] []) []).out = .ok ()) ∧
    ((resourceTencentCloudVpnGatewaySslClientCertRead remoteAbsent
        (sampleData "vpnc-123456" [] []) []).d = { sampleData "vpnc-123456" [] [] with id := "" } ∧
      (resourceTencentCloudVpnGatewaySslClientCertRead remoteAbsent
        (sampleData "vpnc-123456" [] []) []).out = .ok ()) ∧
    ((resourceTencentCloudMongodbStandbyInstanceRead sampleEnv remoteAbsent
        (sampleData "cmgo-41s6jwy4" [] []) []).d = { sampleData "cmgo-41s6jwy4" [] [] with id := "" } ∧
      (resourceTencentCloudMongodbStandbyInstanceRead sampleEnv remoteAbsent
        (sampleData "cmgo-41s6jwy4" [] []) []).out = .ok ()) :=
  ⟨(read_absent_clears_id sampleEnv remoteAbsent (sampleData "api-xxxxxx#rule-1" [] []) []).1
      (by decide) rfl,
    (read_absent_clears_id sampleEnv remoteAbsent (sampleData "vpnc-123456" [] []) []).2.1 rfl,
    (read_absent_clears_id sampleEnv remoteAbsent (sampleData "cmgo-41s6jwy4" [] []) []).2.2 rfl⟩

/-- Claim C6 (idempotent delete): when the first describe call of the MongoDB
standby-instance Delete succeeds and reports the instance absent, Delete returns
success, clears the id, and the describe call is the only call it issues:
neither the isolate call nor the offline call. -/
theorem mongodb_standby_delete_absent (env : Env) (r : Remote) (d : ResourceData)
    (tr : List Event) (h : r.DescribeInstanceById tr d.id = .ok none) :
    (resourceTencentCloudMongodbStandbyInstanceDelete env r d tr).out = .ok () ∧
    (resourceTencentCloudMongodbStandbyInstanceDelete env r d tr).d = { d with id := "" } ∧
    (resourceTencentCloudMongodbStandbyInstanceDelete env r d tr).trace
      = tr ++ [⟨.DescribeInstanceById d.id, true⟩] := by
  simp only [resourceTencentCloudMongodbStandbyInstanceDelete, callVal, h, ResourceData.SetId,
    record, and_self]

/-- Witness of C6: Delete on a remote that reports the instance absent. -/
theorem mongodb_standby_delete_absent_witness :
    remoteAbsent.DescribeInstanceById [] (sampleData "cmgo-41s6jwy4" [] []).id = .ok none ∧
    (resourceTencentCloudMongodbStandbyInstanceDelete sampleEnv remoteAbsent
      (sampleData "cmgo-41s6jwy4" [] []) []).out = .ok () :=
  ⟨rfl, (mongodb_standby_delete_absent sampleEnv remoteAbsent (sampleData "cmgo-41s6jwy4" [] []) []
    rfl).1⟩

/-- Claim C7 (deletion forbidden by object state): when the describe call finds
the standby instance and its pay mode maps to the PREPAID charge type, Delete
returns the dedicated "PREPAID instances are not allowed to be deleted" error,
leaves the resource data untouched, and the describe call is the only call it
issues: neither the isolate call nor the offline call. -/
theorem mongodb_standby_delete_prepaid (env : Env) (r : Remote) (d : ResourceData)
    (tr : List Event) (instanceDetail : InstanceDetail) (payMode : Nat)
    (h : r.DescribeInstanceById tr d.id = .ok (some instanceDetail))
    (hp : instanceDetail.PayMode = some payMode)
    (hc : env.MONGODB_CHARGE_TYPE payMode = env.MONGODB_CHARGE_TYPE_PREPAID) :
    (resourceTencentCloudMongodbStandbyInstanceDelete env r d tr).out
      = .err (.Errorf
          "PREPAID instances are not allowed to be deleted now, please isolate them on console") ∧
    (resourceTencentCloudMongodbStandbyInstanceDelete env r d tr).d = d ∧
    (resourceTencentCloudMongodbStandbyInstanceDelete env r d tr).trace
      = tr ++ [⟨.DescribeInstanceById d.id, true⟩] := by
  simp only [resourceTencentCloudMongodbStandbyInstanceDelete, callVal, h, hp, hc, record,
    if_true, and_self]

/-- Witness of C7: Delete of an instance whose pay mode 1 maps to PREPAID. -/
theorem mongodb_standby_delete_prepaid_witness :
    sampleEnv.MONGODB_CHARGE_TYPE 1 = sampleEnv.MONGODB_CHARGE_TYPE_PREPAID ∧
    (resourceTencentCloudMongodbStandbyInstanceDelete sampleEnv (remotePresent 1)
      (sampleData "cmgo-41s6jwy4" [] []) []).trace
      = [] ++ [⟨.DescribeInstanceById (sampleData "cmgo-41s6jwy4" [] []).id, true⟩] :=
  ⟨by decide, (mongodb_standby_delete_prepaid sampleEnv (remotePresent 1)
    (sampleData "cmgo-41s6jwy4" [] []) [] (sampleInstance 1) 1 rfl rfl (by decide)).2.2⟩

/-! ### What a Read leaves untouched -/

theorem Set_partialKeys (d : ResourceData) (k : String) (v : Value) :
    (d.Set k v).partialKeys = d.partialKeys := rfl

theorem Set_partialMode (d : ResourceData) (k : String) (v : Value) :
    (d.Set k v).partialMode = d.partialMode := rfl

theorem SetPtr_partialKeys (d : ResourceData) (k : String) (p : Option Value) :
    (d.SetPtr k p).partialKeys = d.partialKeys := by
  cases p <;> rfl

theorem SetPtr_partialMode (d : ResourceData) (k : String) (p : Option Value) :
    (d.SetPtr k p).partialMode = d.partialMode := by
  cases p <;> rfl

theorem standbyReadRest_frame (instanceDetail : InstanceDetail) (d : ResourceData)
    (tr : List Event) :
    (mongodbStandbyInstanceReadRest instanceDetail d tr).d.partialKeys = d.partialKeys ∧
    (mongodbStandbyInstanceReadRest instanceDetail d tr).d.partialMode = d.partialMode ∧
    (mongodbStandbyInstanceReadRest instanceDetail d tr).trace = tr := by
  simp only [mongodbStandbyInstanceReadRest]
  repeat' split
  all_goals
    refine ⟨?_, ?_, rfl⟩ <;>
      simp only [Set_partialKeys, Set_partialMode, SetPtr_partialKeys, SetPtr_partialMode]

theorem standbyRead_frame (env : Env) (r : Remote) (d : ResourceData) (tr : List Event) :
    (resourceTencentCloudMongodbStandbyInstanceRead env r d tr).d.partialKeys = d.partialKeys ∧
    (resourceTencentCloudMongodbStandbyInstanceRead env r d tr).d.partialMode = d.partialMode ∧
    ∃ ok, (resourceTencentCloudMongodbStandbyInstanceRead env r d tr).trace
      = tr ++ [⟨.DescribeInstanceById d.id, ok⟩] := by
  simp only [resourceTencentCloudMongodbStandbyInstanceRead, callVal, record]
  cases r.DescribeInstanceById tr d.id with
  | error e => exact ⟨rfl, rfl, false, rfl⟩
  | ok a =>
      cases a with
      | none => exact ⟨rfl, rfl, true, rfl⟩
      | some instanceDetail =>
          simp only []
          repeat' split
          all_goals
            refine ⟨?_, ?_, true, ?_⟩ <;>
              simp only [standbyReadRest_frame, Set_partialKeys, Set_partialMode,
                SetPtr_partialKeys, SetPtr_partialMode]


/-- Claim C8 (no-op update of the MongoDB standby instance): when none of memory,
volume, instance_name, project_id, tags, prepaid_period and auto_renew_flag has
changed, Update is the Read of the resource data with partial mode switched off,
and the only call it issues is the describe call of that Read: no upgrade,
rename, project, tag or auto-renew call. -/
theorem mongodb_standby_update_noop (env : Env) (r : Remote) (d : ResourceData)
    (tr : List Event)
    (h1 : d.HasChange "memory" = false) (h2 : d.HasChange "volume" = false)
    (h3 : d.HasChange "instance_name" = false) (h4 : d.HasChange "project_id" = false)
    (h5 : d.HasChange "tags" = false) (h6 : d.HasChange "prepaid_period" = false)
    (h7 : d.HasChange "auto_renew_flag" = false) :
    resourceTencentCloudMongodbStandbyInstanceUpdate env r d tr
      = resourceTencentCloudMongodbStandbyInstanceRead env r (d.Partial false) tr ∧
    ∃ ok, (resourceTencentCloudMongodbStandbyInstanceUpdate env r d tr).trace
      = tr ++ [⟨.DescribeInstanceById d.id, ok⟩] := by
  have hu : resourceTencentCloudMongodbStandbyInstanceUpdate env r d tr
      = resourceTencentCloudMongodbStandbyInstanceRead env r (d.Partial false) tr := by
    have e1 : (d.Partial true).HasChange "memory" = false := h1
    have e2 : (d.Partial true).HasChange "volume" = false := h2
    have e3 : (d.Partial true).HasChange "instance_name" = false := h3
    have e4 : (d.Partial true).HasChange "project_id" = false := h4
    have e5 : (d.Partial true).HasChange "tags" = false := h5
    have e6 : (d.Partial true).HasChange "prepaid_period" = false := h6
    have e7 : (d.Partial true).HasChange "auto_renew_flag" = false := h7
    simp only [resourceTencentCloudMongodbStandbyInstanceUpdate, mongodbStandbyInstanceUpdateBlocks,
      mongodbStandbyInstanceUpdateMemoryVolume, mongodbStandbyInstanceUpdateInstanceName,
      mongodbStandbyInstanceUpdateProjectId, mongodbStandbyInstanceUpdateTags,
      mongodbStandbyInstanceUpdatePrepaidPeriod, mongodbStandbyInstanceUpdateAutoRenewFlag,
      Run.andThen, e1, e2, e3, e4, e5, e6, e7, Bool.or_self, Bool.false_eq_true, if_false]
    rfl
  refine ⟨hu, ?_⟩
  rw [hu]
  obtain ⟨_, _, ok, ht⟩ := standbyRead_frame env r (d.Partial false) tr
  exact ⟨ok, ht⟩

/-- Witness of C8: an Update whose planned values equal the prior state. -/
theorem mongodb_standby_update_noop_witness :
    sampleStandbyData.HasChange "memory" = false ∧
    resourceTencentCloudMongodbStandbyInstanceUpdate sampleEnv (remotePresent 0) sampleStandbyData []
      = resourceTencentCloudMongodbStandbyInstanceRead sampleEnv (remotePresent 0)
          (sampleStandbyData.Partial false) [] :=
  ⟨by decide, (mongodb_standby_update_noop sampleEnv (remotePresent 0) sampleStandbyData []
    (by decide) (by decide) (by decide) (by decide) (by decide) (by decide) (by decide)).1⟩

theorem tsfRead_trace (r : Remote) (d : ResourceData) (tr : List Event) :
    ∃ rest, (resourceTencentCloudTsfApiRateLimitRuleRead r d tr).trace = tr ++ rest := by
  unfold resourceTencentCloudTsfApiRateLimitRuleRead
  by_cases h : (Split d.id FILED_SP).length = 2
  · simp only [h, ne_eq, not_true_eq_false, if_false, callVal, record]
    generalize r.DescribeTsfApiRateLimitRuleById tr _ _ = ans
    cases ans with
    | error e => exact ⟨_, rfl⟩
    | ok a => cases a <;> exact ⟨_, rfl⟩
  · exact ⟨[], by simp [h]⟩

/-- Counterexample to claim C9: for the stored rule `api-xxxxxx#rule-1` with
none of api_id, max_qps and usable_status changed, Update issues an
`UpdateApiRateLimitRule` call, whose request carries the rule id only. -/
theorem tsf_update_noop_issues_call :
    sampleRuleData.HasChange "api_id" = false ∧ sampleRuleData.HasChange "max_qps" = false ∧
    sampleRuleData.HasChange "usable_status" = false ∧
    (resourceTencentCloudTsfApiRateLimitRuleUpdate sampleEnv remoteAbsent sampleRuleData []).trace
      = [⟨.UpdateApiRateLimitRule { RuleId := some "rule-1", MaxQps := none, UsableStatus := none },
          true⟩, ⟨.DescribeTsfApiRateLimitRuleById "api-xxxxxx" "rule-1", true⟩] := by
  decide

/-- Claim C9, amended: for every well-formed id, when api_id has not changed,
Update issues an `UpdateApiRateLimitRule` call for the rule id of the stored id
whether or not max_qps and usable_status have changed; the request leaves out
max_qps when it has not changed and usable_status when it has not changed. -/
theorem tsf_update_always_issues_call (env : Env) (r : Remote) (d : ResourceData)
    (tr : List Event) (h : (Split d.id FILED_SP).length = 2)
    (ha : d.HasChange "api_id" = false) :
    ∃ (pre rest : List Event) (ok : Bool) (request : UpdateApiRateLimitRuleRequest),
      (resourceTencentCloudTsfApiRateLimitRuleUpdate env r d tr).trace
        = tr ++ pre ++ ⟨.UpdateApiRateLimitRule request, ok⟩ :: rest ∧
      request.RuleId = some ((Split d.id FILED_SP).getD 1 "") ∧
      (d.HasChange "max_qps" = false → request.MaxQps = none) ∧
      (d.HasChange "usable_status" = false → request.UsableStatus = none) := by
  simp only [resourceTencentCloudTsfApiRateLimitRuleUpdate, h, ha, ne_eq, not_true_eq_false,
    if_false, Bool.false_eq_true]
  generalize hreq : ({ RuleId := _, MaxQps := _, UsableStatus := _ }
    : UpdateApiRateLimitRuleRequest) = request
  obtain ⟨pre, hpre⟩ := Retry_retryCall env (.UpdateApiRateLimitRule request)
    (fun t => r.UpdateApiRateLimitRule t request) env.writeRetryTimeout tr
  have hfields : request.RuleId = some ((Split d.id FILED_SP).getD 1 "") ∧
      (d.HasChange "max_qps" = false → request.MaxQps = none) ∧
      (d.HasChange "usable_status" = false → request.UsableStatus = none) := by
    subst hreq
    refine ⟨rfl, ?_, ?_⟩
    · intro hq; simp only [hq, Bool.false_eq_true, if_false]
    · intro hq; simp only [hq, Bool.false_and, Bool.false_eq_true, if_false]
  rcases hpre with hok | ⟨e, he⟩
  · rw [hok]
    obtain ⟨rest, hrest⟩ := tsfRead_trace r d (tr ++ pre ++ [⟨.UpdateApiRateLimitRule request, true⟩])
    refine ⟨pre, rest, true, request, ?_, hfields⟩
    rw [hrest]
    simp only [List.append_assoc, List.singleton_append]
  · rw [he]
    exact ⟨pre, [], false, request, rfl, hfields⟩

/-- Witness of C9, amended: the Update of a rule with nothing changed. -/
theorem tsf_update_always_issues_call_witness :
    (Split sampleRuleData.id FILED_SP).length = 2 ∧ sampleRuleData.HasChange "api_id" = false ∧
    ∃ (pre rest : List Event) (ok : Bool) (request : UpdateApiRateLimitRuleRequest),
      (resourceTencentCloudTsfApiRateLimitRuleUpdate sampleEnv remoteAbsent sampleRuleData []).trace
        = [] ++ pre ++ ⟨.UpdateApiRateLimitRule request, ok⟩ :: rest ∧
      request.RuleId = some ((Split sampleRuleData.id FILED_SP).getD 1 "") ∧
      (sampleRuleData.HasChange "max_qps" = false → request.MaxQps = none) ∧
      (sampleRuleData.HasChange "usable_status" = false → request.UsableStatus = none) :=
  ⟨by decide, by decide,
    tsf_update_always_issues_call sampleEnv remoteAbsent sampleRuleData [] (by decide) (by decide)⟩

/-! ### The blocks of the standby-instance Update -/

theorem succeeded_append (tr l : List Event) (p : Call → Bool) :
    succeeded (tr ++ l) p = (succeeded tr p || succeeded l p) := by
  simp [succeeded, List.any_append]

theorem succeeded_describes (l : List Event) (p : Call → Bool)
    (hl : ∀ ev ∈ l, ev.call.isDescribeInstanceById = true)
    (hp : ∀ c, c.isDescribeInstanceById = true → p c = false) : succeeded l p = false := by
  simp only [succeeded, List.any_eq_false, Bool.and_eq_true, not_and, Bool.not_eq_true]
  intro ev hev _
  exact hp _ (hl ev hev)

theorem upgradePoll_trace (env : Env) (r : Remote) (instanceId : String) (memory volume : Int) :
    ∀ (n : Nat) (tr : List Event), ∃ (pre : List Event) (o : Res GoError Unit),
      Retry (mongodbStandbyInstanceUpgradePoll env r instanceId memory volume) n tr
        = (tr ++ pre, o) ∧
      ∀ ev ∈ pre, ev.call.isDescribeInstanceById = true := by
  have step : ∀ t, ∃ b res, mongodbStandbyInstanceUpgradePoll env r instanceId memory volume t
      = (t ++ [⟨.DescribeInstanceById instanceId, b⟩], res) := by
    intro t
    simp only [mongodbStandbyInstanceUpgradePoll, callVal, record]
    cases r.DescribeInstanceById t instanceId with
    | error e => exact ⟨_, _, rfl⟩
    | ok a =>
        cases a with
        | none => exact ⟨_, _, rfl⟩
        | some infos =>
            simp only []
            split
            · split
              · exact ⟨_, _, rfl⟩
              · split <;> exact ⟨_, _, rfl⟩
            · exact ⟨_, _, rfl⟩
  intro n
  induction n with
  | zero =>
      intro tr
      obtain ⟨b, res, hs⟩ := step tr
      cases res with
      | ok a => exact ⟨[⟨.DescribeInstanceById instanceId, b⟩], _, by simp only [Retry, hs]; rfl,
          by simp [Call.isDescribeInstanceById]⟩
      | panic => exact ⟨[⟨.DescribeInstanceById instanceId, b⟩], _, by simp only [Retry, hs]; rfl,
          by simp [Call.isDescribeInstanceById]⟩
      | err e => exact ⟨[⟨.DescribeInstanceById instanceId, b⟩], _, by simp only [Retry, hs]; rfl,
          by simp [Call.isDescribeInstanceById]⟩
  | succ n ih =>
      intro tr
      obtain ⟨b, res, hs⟩ := step tr
      cases res with
      | ok a => exact ⟨[⟨.DescribeInstanceById instanceId, b⟩], _, by simp only [Retry, hs]; rfl,
          by simp [Call.isDescribeInstanceById]⟩
      | panic => exact ⟨[⟨.DescribeInstanceById instanceId, b⟩], _, by simp only [Retry, hs]; rfl,
          by simp [Call.isDescribeInstanceById]⟩
      | err e =>
          by_cases hr : e.Retryable = true
          · obtain ⟨pre, o, hpre, hall⟩ := ih (tr ++ [⟨.DescribeInstanceById instanceId, b⟩])
            refine ⟨⟨.DescribeInstanceById instanceId, b⟩ :: pre, o, ?_, ?_⟩
            · simp only [Retry, hs, hr, if_true, hpre, List.append_assoc, List.singleton_append]
            · intro ev hev
              rcases List.mem_cons.1 hev with h | h
              · subst h; rfl
              · exact hall ev h
          · exact ⟨[⟨.DescribeInstanceById instanceId, b⟩], _,
              by simp only [Retry, hs, hr, Bool.false_eq_true, if_false]; rfl,
              by simp [Call.isDescribeInstanceById]⟩

theorem memoryVolume_block (env : Env) (r : Remote) (d : ResourceData)
    (hk : d.partialKeys = []) :
    (mongodbStandbyInstanceUpdateMemoryVolume env r d.id (d.Partial true) []).d
      = { d with
          partialMode := true
          partialKeys :=
            if (d.HasChange "memory" || d.HasChange "volume") &&
                (mongodbStandbyInstanceUpdateMemoryVolume env r d.id (d.Partial true) []).out.isOk
            then ["memory", "volume"] else [] } ∧
    succeeded (mongodbStandbyInstanceUpdateMemoryVolume env r d.id (d.Partial true) []).trace
      Call.isModifyInstanceName = false ∧
    succeeded (mongodbStandbyInstanceUpdateMemoryVolume env r d.id (d.Partial true) []).trace
      Call.isModifyProjectId = false ∧
    succeeded (mongodbStandbyInstanceUpdateMemoryVolume env r d.id (d.Partial true) []).trace
      Call.isModifyTags = false ∧
    succeeded (mongodbStandbyInstanceUpdateMemoryVolume env r d.id (d.Partial true) []).trace
      Call.isModifyAutoRenewFlag = false ∧
    (((d.HasChange "memory" || d.HasChange "volume") &&
        (mongodbStandbyInstanceUpdateMemoryVolume env r d.id (d.Partial true) []).out.isOk) = true →
      succeeded (mongodbStandbyInstanceUpdateMemoryVolume env r d.id (d.Partial true) []).trace
        Call.isUpgradeInstance = true) := by
  have e1 : (d.Partial true).HasChange "memory" = d.HasChange "memory" := rfl
  have e2 : (d.Partial true).HasChange "volume" = d.HasChange "volume" := rfl
  simp only [mongodbStandbyInstanceUpdateMemoryVolume, e1, e2]
  by_cases hc : (d.HasChange "memory" || d.HasChange "volume") = true
  · simp only [hc, if_true, callErr, record, List.nil_append, Bool.true_and]
    cases r.UpgradeInstance [] d.id ((d.Partial true).Get "memory").asInt
        ((d.Partial true).Get "volume").asInt with
    | some e =>
        simp [Res.isOk, ResourceData.Partial, hk, succeeded, Call.isModifyInstanceName,
          Call.isModifyProjectId, Call.isModifyTags, Call.isModifyAutoRenewFlag]
    | none =>
        simp only [Option.isNone_none]
        obtain ⟨pre, o2, hpre, hall⟩ := upgradePoll_trace env r d.id ((d.Partial true).Get "memory").asInt
          ((d.Partial true).Get "volume").asInt (20 * env.readRetryTimeout)
          [⟨.UpgradeInstance d.id ((d.Partial true).Get "memory").asInt
            ((d.Partial true).Get "volume").asInt, true⟩]
        have hq : ∀ p : Call → Bool, (∀ c, c.isDescribeInstanceById = true → p c = false) →
            p (.UpgradeInstance d.id ((d.Partial true).Get "memory").asInt
              ((d.Partial true).Get "volume").asInt) = false →
            succeeded ([⟨.UpgradeInstance d.id ((d.Partial true).Get "memory").asInt
              ((d.Partial true).Get "volume").asInt, true⟩] ++ pre) p = false := by
          intro p hp1 hp2
          rw [succeeded_append, succeeded_describes pre p hall hp1]
          simp [succeeded, hp2]
        have h1 := hq Call.isModifyInstanceName (by intro c; cases c <;> simp [Call.isDescribeInstanceById, Call.isModifyInstanceName]) rfl
        have h2 := hq Call.isModifyProjectId (by intro c; cases c <;> simp [Call.isDescribeInstanceById, Call.isModifyProjectId]) rfl
        have h3 := hq Call.isModifyTags (by intro c; cases c <;> simp [Call.isDescribeInstanceById, Call.isModifyTags]) rfl
        have h4 := hq Call.isModifyAutoRenewFlag (by intro c; cases c <;> simp [Call.isDescribeInstanceById, Call.isModifyAutoRenewFlag]) rfl
        have h5 : succeeded ([⟨.UpgradeInstance d.id ((d.Partial true).Get "memory").asInt
              ((d.Partial true).Get "volume").asInt, true⟩] ++ pre) Call.isUpgradeInstance = true := by
          rw [succeeded_append]; simp [succeeded, Call.isUpgradeInstance]
        simp only [hpre]
        cases o2 with
        | ok u =>
            refine ⟨?_, h1, h2, h3, h4, fun _ => h5⟩
            simp [Res.isOk, ResourceData.Partial, ResourceData.SetPartial, hk]
        | err e =>
            refine ⟨?_, h1, h2, h3, h4, fun _ => h5⟩
            simp [Res.isOk, ResourceData.Partial, hk]
        | panic =>
            refine ⟨?_, h1, h2, h3, h4, fun _ => h5⟩
            simp [Res.isOk, ResourceData.Partial, hk]
  · have hc' : (d.HasChange "memory" || d.HasChange "volume") = false := by
      simpa using hc
    simp [hc', ResourceData.Partial, hk, succeeded]


theorem succeeded_snoc (tr : List Event) (c : Call) (b : Bool) (p : Call → Bool) :
    succeeded (tr ++ [⟨c, b⟩]) p = (succeeded tr p || (b && p c)) := by
  simp [succeeded, List.any_append]

theorem HasChange_frame (d x : ResourceData) (hs : x.state = d.state) (hc : x.config = d.config)
    (k : String) : x.HasChange k = d.HasChange k := by
  simp only [ResourceData.HasChange, hs, hc]

theorem inv_instanceName (r : Remote) (d : ResourceData) (w : Bool) (x : Run)
    (h : StandbyUpdateInv d w
      [Call.isModifyInstanceName, Call.isModifyProjectId, Call.isModifyTags,
        Call.isModifyAutoRenewFlag] x) :
    StandbyUpdateInv d w [Call.isModifyProjectId, Call.isModifyTags, Call.isModifyAutoRenewFlag]
      (x.andThen (mongodbStandbyInstanceUpdateInstanceName r d.id)) := by
  obtain ⟨xd, xt, xo⟩ := x
  obtain ⟨hk, hm, hs, hc, hi, hp⟩ := h
  simp only at hk hm hs hc hi hp
  cases xo with
  | err e => exact ⟨hk, hm, hs, hc, hi, fun hh => by simp [Run.andThen, Res.isOk] at hh⟩
  | panic => exact ⟨hk, hm, hs, hc, hi, fun hh => by simp [Run.andThen, Res.isOk] at hh⟩
  | ok u =>
      have hp' := hp rfl
      simp only [List.mem_cons, List.mem_singleton, forall_eq_or_imp, forall_eq, List.not_mem_nil,
        false_implies, implies_true, and_true] at hp'
      obtain ⟨p1, p2, p3, p4⟩ := hp'
      simp only [Run.andThen, mongodbStandbyInstanceUpdateInstanceName,
        HasChange_frame d xd hs hc, callErr, record]
      by_cases hch : d.HasChange "instance_name" = true
      · simp only [hch, if_true]
        cases r.ModifyInstanceName xt d.id (xd.Get "instance_name").asString with
        | some e =>
            refine ⟨?_, hm, hs, hc, hi, fun hh => by simp [Res.isOk] at hh⟩
            simp [hk, mongodbStandbyCommitted, succeeded_snoc]
        | none =>
            refine ⟨?_, hm, hs, hc, hi, ?_⟩
            · simp [hk, mongodbStandbyCommitted, succeeded_snoc, ResourceData.SetPartial, hch,
                p1, p2, p3, p4, Call.isModifyInstanceName, Call.isModifyProjectId,
                Call.isModifyTags, Call.isModifyAutoRenewFlag, Call.isUpgradeInstance]
            · intro _
              simp [succeeded_snoc, p2, p3, p4, Call.isModifyProjectId,
                Call.isModifyTags, Call.isModifyAutoRenewFlag]
      · simp only [hch, Bool.false_eq_true, if_false]
        exact ⟨hk, hm, hs, hc, hi, fun _ => by simp [p2, p3, p4]⟩

theorem inv_projectId (r : Remote) (d : ResourceData) (w : Bool) (x : Run)
    (h : StandbyUpdateInv d w [Call.isModifyProjectId, Call.isModifyTags, Call.isModifyAutoRenewFlag] x) :
    StandbyUpdateInv d w [Call.isModifyTags, Call.isModifyAutoRenewFlag]
      (x.andThen (mongodbStandbyInstanceUpdateProjectId r d.id)) := by
  obtain ⟨xd, xt, xo⟩ := x
  obtain ⟨hk, hm, hs, hc, hi, hp⟩ := h
  simp only at hk hm hs hc hi hp
  cases xo with
  | err e => exact ⟨hk, hm, hs, hc, hi, fun hh => by simp [Run.andThen, Res.isOk] at hh⟩
  | panic => exact ⟨hk, hm, hs, hc, hi, fun hh => by simp [Run.andThen, Res.isOk] at hh⟩
  | ok u =>
      have hp' := hp rfl
      simp only [List.mem_cons, List.mem_singleton, forall_eq_or_imp, forall_eq, List.not_mem_nil,
        false_implies, implies_true, and_true] at hp'
      obtain ⟨p1, p2, p3⟩ := hp'
      simp only [Run.andThen, mongodbStandbyInstanceUpdateProjectId,
        HasChange_frame d xd hs hc, callErr, record]
      by_cases hch : d.HasChange "project_id" = true
      · simp only [hch, if_true]
        cases r.ModifyProjectId xt d.id (xd.Get "project_id").asInt with
        | some e =>
            refine ⟨?_, hm, hs, hc, hi, fun hh => by simp [Res.isOk] at hh⟩
            simp [hk, mongodbStandbyCommitted, succeeded_snoc]
        | none =>
            refine ⟨?_, hm, hs, hc, hi, ?_⟩
            · simp [hk, mongodbStandbyCommitted, succeeded_snoc, ResourceData.SetPartial, hch,
                p1, p2, p3, Call.isModifyInstanceName, Call.isModifyProjectId,
                Call.isModifyTags, Call.isModifyAutoRenewFlag, Call.isUpgradeInstance]
            · intro _
              simp [succeeded_snoc, p2, p3, Call.isModifyInstanceName, Call.isModifyProjectId,
                Call.isModifyTags, Call.isModifyAutoRenewFlag]
      · simp only [hch, Bool.false_eq_true, if_false]
        exact ⟨hk, hm, hs, hc, hi, fun _ => by simp [p2, p3]⟩

theorem inv_tags (env : Env) (r : Remote) (d : ResourceData) (w : Bool) (x : Run)
    (h : StandbyUpdateInv d w [Call.isModifyTags, Call.isModifyAutoRenewFlag] x) :
    StandbyUpdateInv d w [Call.isModifyAutoRenewFlag]
      (x.andThen (mongodbStandbyInstanceUpdateTags env r env.Region d.id)) := by
  obtain ⟨xd, xt, xo⟩ := x
  obtain ⟨hk, hm, hs, hc, hi, hp⟩ := h
  simp only at hk hm hs hc hi hp
  cases xo with
  | err e => exact ⟨hk, hm, hs, hc, hi, fun hh => by simp [Run.andThen, Res.isOk] at hh⟩
  | panic => exact ⟨hk, hm, hs, hc, hi, fun hh => by simp [Run.andThen, Res.isOk] at hh⟩
  | ok u =>
      have hp' := hp rfl
      simp only [List.mem_cons, List.mem_singleton, forall_eq_or_imp, forall_eq, List.not_mem_nil,
        false_implies, implies_true, and_true] at hp'
      obtain ⟨p1, p2⟩ := hp'
      simp only [Run.andThen, mongodbStandbyInstanceUpdateTags,
        HasChange_frame d xd hs hc, callErr, record]
      by_cases hch : d.HasChange "tags" = true
      · simp only [hch, if_true]
        cases r.ModifyTags xt (env.BuildTagResourceName "mongodb" "instance" env.Region d.id) (env.diffTags (xd.GetChange "tags").1.asMap (xd.GetChange "tags").2.asMap).1 (env.diffTags (xd.GetChange "tags").1.asMap (xd.GetChange "tags").2.asMap).2 with
        | some e =>
            refine ⟨?_, hm, hs, hc, hi, fun hh => by simp [Res.isOk] at hh⟩
            simp [hk, mongodbStandbyCommitted, succeeded_snoc]
        | none =>
            refine ⟨?_, hm, hs, hc, hi, ?_⟩
            · simp [hk, mongodbStandbyCommitted, succeeded_snoc, ResourceData.SetPartial, hch,
                p1, p2, Call.isModifyInstanceName, Call.isModifyProjectId,
                Call.isModifyTags, Call.isModifyAutoRenewFlag, Call.isUpgradeInstance]
            · intro _
              simp [succeeded_snoc, p2, Call.isModifyInstanceName, Call.isModifyProjectId,
                Call.isModifyTags, Call.isModifyAutoRenewFlag]
      · simp only [hch, Bool.false_eq_true, if_false]
        exact ⟨hk, hm, hs, hc, hi, fun _ => by simp [p2]⟩

theorem inv_autoRenewFlag (r : Remote) (d : ResourceData) (w : Bool) (x : Run)
    (h : StandbyUpdateInv d w [Call.isModifyAutoRenewFlag] x) :
    StandbyUpdateInv d w []
      (x.andThen (mongodbStandbyInstanceUpdateAutoRenewFlag r d.id)) := by
  obtain ⟨xd, xt, xo⟩ := x
  obtain ⟨hk, hm, hs, hc, hi, hp⟩ := h
  simp only at hk hm hs hc hi hp
  cases xo with
  | err e => exact ⟨hk, hm, hs, hc, hi, fun hh => by simp [Run.andThen, Res.isOk] at hh⟩
  | panic => exact ⟨hk, hm, hs, hc, hi, fun hh => by simp [Run.andThen, Res.isOk] at hh⟩
  | ok u =>
      have hp' := hp rfl
      simp only [List.mem_cons, List.mem_singleton, forall_eq_or_imp, forall_eq, List.not_mem_nil,
        false_implies, implies_true, and_true] at hp'
      have p1 := hp'
      simp only [Run.andThen, mongodbStandbyInstanceUpdateAutoRenewFlag,
        HasChange_frame d xd hs hc, callErr, record]
      by_cases hch : d.HasChange "auto_renew_flag" = true
      · simp only [hch, if_true]
        cases r.ModifyAutoRenewFlag xt d.id (xd.Get "prepaid_period").asInt (xd.Get "auto_renew_flag").asInt with
        | some e =>
            refine ⟨?_, hm, hs, hc, hi, fun hh => by simp [Res.isOk] at hh⟩
            simp [hk, mongodbStandbyCommitted, succeeded_snoc]
        | none =>
            refine ⟨?_, hm, hs, hc, hi, ?_⟩
            · simp [hk, mongodbStandbyCommitted, succeeded_snoc, ResourceData.SetPartial, hch,
                p1, Call.isModifyInstanceName, Call.isModifyProjectId,
                Call.isModifyTags, Call.isModifyAutoRenewFlag, Call.isUpgradeInstance]
            · intro _
              simp [succeeded_snoc, Call.isModifyInstanceName, Call.isModifyProjectId,
                Call.isModifyTags, Call.isModifyAutoRenewFlag]
      · simp only [hch, Bool.false_eq_true, if_false]
        exact ⟨hk, hm, hs, hc, hi, fun _ => by simp []⟩

theorem inv_prepaidPeriod (d : ResourceData) (w : Bool) (x : Run)
    (h : StandbyUpdateInv d w [Call.isModifyAutoRenewFlag] x) :
    StandbyUpdateInv d w [Call.isModifyAutoRenewFlag]
      (x.andThen mongodbStandbyInstanceUpdatePrepaidPeriod) := by
  obtain ⟨xd, xt, xo⟩ := x
  obtain ⟨hk, hm, hs, hc, hi, hp⟩ := h
  simp only at hk hm hs hc hi hp
  cases xo with
  | err e => exact ⟨hk, hm, hs, hc, hi, fun hh => by simp [Run.andThen, Res.isOk] at hh⟩
  | panic => exact ⟨hk, hm, hs, hc, hi, fun hh => by simp [Run.andThen, Res.isOk] at hh⟩
  | ok u =>
      simp only [Run.andThen, mongodbStandbyInstanceUpdatePrepaidPeriod]
      split
      · exact ⟨hk, hm, hs, hc, hi, fun hh => by simp [Res.isOk] at hh⟩
      · exact ⟨hk, hm, hs, hc, hi, hp⟩

theorem inv_memoryVolume (env : Env) (r : Remote) (d : ResourceData) (hk : d.partialKeys = []) :
    StandbyUpdateInv d
      (mongodbStandbyInstanceUpdateMemoryVolume env r d.id (d.Partial true) []).out.isOk
      [Call.isModifyInstanceName, Call.isModifyProjectId, Call.isModifyTags,
        Call.isModifyAutoRenewFlag]
      (mongodbStandbyInstanceUpdateMemoryVolume env r d.id (d.Partial true) []) := by
  obtain ⟨hd, h1, h2, h3, h4, h5⟩ := memoryVolume_block env r d hk
  refine ⟨?_, by rw [hd], by rw [hd], by rw [hd], by rw [hd], fun _ => by simp [h1, h2, h3, h4]⟩
  rw [hd]
  simp only [mongodbStandbyCommitted, h1, h2, h3, h4, Bool.and_false, Bool.false_eq_true, if_false,
    List.append_nil]
  by_cases hc : ((d.HasChange "memory" || d.HasChange "volume") &&
      (mongodbStandbyInstanceUpdateMemoryVolume env r d.id (d.Partial true) []).out.isOk) = true
  · have hu := h5 hc
    simp only [Bool.and_eq_true] at hc
    simp [hc.1, hc.2, hu]
  · have hc' : ((d.HasChange "memory" || d.HasChange "volume") &&
      (mongodbStandbyInstanceUpdateMemoryVolume env r d.id (d.Partial true) []).out.isOk) = false := by
      simpa using hc
    simp only [hc', Bool.false_eq_true, if_false]
    have : ((d.HasChange "memory" || d.HasChange "volume") &&
        succeeded (mongodbStandbyInstanceUpdateMemoryVolume env r d.id (d.Partial true) []).trace
          Call.isUpgradeInstance &&
        (mongodbStandbyInstanceUpdateMemoryVolume env r d.id (d.Partial true) []).out.isOk) = false := by
      rw [Bool.and_right_comm, hc', Bool.false_and]
    simp only [this, Bool.false_eq_true, if_false]

theorem inv_blocks (env : Env) (r : Remote) (d : ResourceData) (hk : d.partialKeys = []) :
    StandbyUpdateInv d
      (mongodbStandbyInstanceUpdateMemoryVolume env r d.id (d.Partial true) []).out.isOk []
      (mongodbStandbyInstanceUpdateBlocks env r env.Region d.id (d.Partial true) []) := by
  unfold mongodbStandbyInstanceUpdateBlocks
  exact inv_autoRenewFlag r d _ _ (inv_prepaidPeriod d _ _ (inv_tags env r d _ _
    (inv_projectId r d _ _ (inv_instanceName r d _ _ (inv_memoryVolume env r d hk)))))

/-- Counterexample to claim C10: when the rename succeeds and the final Read
fails, Update returns an error with partial mode off; when the upgrade call
succeeds and the wait that follows fails, Update returns an error and no key
is recorded although the mutating call for memory and volume has succeeded. -/
theorem mongodb_standby_update_error_after_partial_off :
    ((resourceTencentCloudMongodbStandbyInstanceUpdate sampleEnv remoteDescribeFails
        sampleStandbyRename []).out = .err (.Remote ⟨"InternalError"⟩) ∧
      (resourceTencentCloudMongodbStandbyInstanceUpdate sampleEnv remoteDescribeFails
        sampleStandbyRename []).d.partialMode = false) ∧
    ((resourceTencentCloudMongodbStandbyInstanceUpdate sampleEnv remoteDescribeFails
        sampleStandbyUpgrade []).out = .err (.Remote ⟨"InternalError"⟩) ∧
      (resourceTencentCloudMongodbStandbyInstanceUpdate sampleEnv remoteDescribeFails
        sampleStandbyUpgrade []).trace
        = [⟨.UpgradeInstance "cmgo-41s6jwy4" 8 100, true⟩,
            ⟨.DescribeInstanceById "cmgo-41s6jwy4", false⟩] ∧
      (resourceTencentCloudMongodbStandbyInstanceUpdate sampleEnv remoteDescribeFails
        sampleStandbyUpgrade []).d.partialKeys = [] ∧
      mongodbStandbyCommitted sampleStandbyUpgrade
        (resourceTencentCloudMongodbStandbyInstanceUpdate sampleEnv remoteDescribeFails
          sampleStandbyUpgrade []).trace true = ["memory", "volume"]) := by
  decide

/-- Claim C10, amended: after an Update started with no recorded key, whatever
it returns, the keys recorded through SetPartial are exactly the changed
attributes whose mutating call has succeeded, memory and volume being recorded
only when the wait that follows the upgrade call has succeeded as well; partial
mode is on exactly when one of the update blocks failed, in which case Update
returns that block's result; when all blocks succeed partial mode is switched
off before the final Read, also when that Read fails. -/
theorem mongodb_standby_update_partial_keys (env : Env) (r : Remote) (d : ResourceData)
    (hk : d.partialKeys = []) :
    (resourceTencentCloudMongodbStandbyInstanceUpdate env r d []).d.partialKeys
      = mongodbStandbyCommitted d (resourceTencentCloudMongodbStandbyInstanceUpdate env r d []).trace
          (mongodbStandbyInstanceUpdateMemoryVolume env r d.id (d.Partial true) []).out.isOk ∧
    (resourceTencentCloudMongodbStandbyInstanceUpdate env r d []).d.partialMode
      = !(mongodbStandbyInstanceUpdateBlocks env r env.Region d.id (d.Partial true) []).out.isOk ∧
    ((mongodbStandbyInstanceUpdateBlocks env r env.Region d.id (d.Partial true) []).out.isOk = false →
      (resourceTencentCloudMongodbStandbyInstanceUpdate env r d []).out
        = (mongodbStandbyInstanceUpdateBlocks env r env.Region d.id (d.Partial true) []).out) := by
  obtain ⟨ik, im, _, _, _, _⟩ := inv_blocks env r d hk
  simp only [resourceTencentCloudMongodbStandbyInstanceUpdate]
  generalize mongodbStandbyInstanceUpdateBlocks env r env.Region d.id (d.Partial true) [] = x
    at ik im ⊢
  generalize (mongodbStandbyInstanceUpdateMemoryVolume env r d.id (d.Partial true) []).out.isOk = w
    at ik ⊢
  obtain ⟨xd, xt, xo⟩ := x
  simp only at ik im
  cases xo with
  | err e => exact ⟨ik, by simp [Run.andThen, Res.isOk, im], fun _ => rfl⟩
  | panic => exact ⟨ik, by simp [Run.andThen, Res.isOk, im], fun _ => rfl⟩
  | ok u =>
      simp only [Run.andThen, Res.isOk]
      obtain ⟨fk, fm, ok, ft⟩ := standbyRead_frame env r (xd.Partial false) xt
      refine ⟨?_, by rw [fm]; rfl, fun hh => by simp at hh⟩
      rw [fk, ft]
      show xd.partialKeys = _
      rw [ik]
      simp [mongodbStandbyCommitted, succeeded_snoc, Call.isModifyInstanceName,
        Call.isModifyProjectId, Call.isModifyTags, Call.isModifyAutoRenewFlag,
        Call.isUpgradeInstance]

/-- Witness of C10, amended: an upgrade whose wait fails. -/
theorem mongodb_standby_update_partial_keys_witness :
    sampleStandbyUpgrade.partialKeys = [] ∧
    (resourceTencentCloudMongodbStandbyInstanceUpdate sampleEnv remoteDescribeFails
        sampleStandbyUpgrade []).d.partialKeys
      = mongodbStandbyCommitted sampleStandbyUpgrade
          (resourceTencentCloudMongodbStandbyInstanceUpdate sampleEnv remoteDescribeFails
            sampleStandbyUpgrade []).trace
          (mongodbStandbyInstanceUpdateMemoryVolume sampleEnv remoteDescribeFails
            sampleStandbyUpgrade.id (sampleStandbyUpgrade.Partial true) []).out.isOk :=
  ⟨rfl, (mongodb_standby_update_partial_keys sampleEnv remoteDescribeFails sampleStandbyUpgrade
    rfl).1⟩

/-! ### Tag maps as association lists -/

theorem lookup_cons_eq (k a : String) (b : String) (t : List (String × String)) :
    ((a, b) :: t).lookup k = if k = a then some b else t.lookup k := by
  by_cases h : k = a
  · subst h; simp [List.lookup]
  · have : (k == a) = false := by simpa using h
    simp [List.lookup, this, h]

theorem lookup_none_of_not_mem (k : String) (m : List (String × String))
    (h : k ∉ m.map Prod.fst) : m.lookup k = none := by
  induction m with
  | nil => rfl
  | cons a t ih =>
      obtain ⟨a1, a2⟩ := a
      simp only [List.map_cons, List.mem_cons, not_or] at h
      rw [lookup_cons_eq, if_neg h.1, ih h.2]

theorem mem_keys_of_lookup (k v : String) (m : List (String × String))
    (h : m.lookup k = some v) : k ∈ m.map Prod.fst := by
  by_contra hc
  rw [lookup_none_of_not_mem k m hc] at h
  exact Option.noConfusion h

theorem lookup_isSome_of_mem (k : String) (m : List (String × String))
    (h : k ∈ m.map Prod.fst) : ∃ v, m.lookup k = some v := by
  induction m with
  | nil => simp at h
  | cons a t ih =>
      obtain ⟨a1, a2⟩ := a
      rw [lookup_cons_eq]
      by_cases hk : k = a1
      · exact ⟨a2, by rw [if_pos hk]⟩
      · simp only [List.map_cons, List.mem_cons, hk, false_or] at h
        rw [if_neg hk]
        exact ih h

theorem lookup_map_assign (m : List (String × String)) (k v k' : String) :
    (m.map (fun p => if p.1 == k then (k, v) else p)).lookup k'
      = if k' = k then (m.lookup k).map (fun _ => v) else m.lookup k' := by
  induction m with
  | nil => simp
  | cons a t ih =>
      obtain ⟨a1, a2⟩ := a
      simp only [List.map_cons]
      by_cases ha : a1 = k
      · subst ha
        simp only [beq_self_eq_true, if_true, lookup_cons_eq, ih]
        by_cases hk : k' = a1
        · subst hk; simp
        · simp [hk]
      · have hb : (a1 == k) = false := by simpa using ha
        simp only [hb, Bool.false_eq_true, if_false, lookup_cons_eq, ih]
        by_cases hk : k' = k
        · subst hk
          have hne : ¬ k' = a1 := fun e => ha e.symm
          simp [hne]
        · simp [hk]

theorem lookup_append_single (m : List (String × String)) (k v k' : String) :
    (m ++ [(k, v)]).lookup k' = (m.lookup k').orElse (fun _ => if k' = k then some v else none) := by
  induction m with
  | nil =>
      simp only [List.nil_append, lookup_cons_eq]
      rfl
  | cons a t ih =>
      obtain ⟨a1, a2⟩ := a
      simp only [List.cons_append, lookup_cons_eq, ih]
      by_cases hk : k' = a1
      · simp [hk, Option.orElse]
      · simp [hk]

theorem lookup_mapAssign (m : List (String × String)) (k v k' : String) :
    (mapAssign m k v).lookup k' = if k' = k then some v else m.lookup k' := by
  unfold mapAssign
  by_cases hex : (m.any fun p => p.1 == k) = true
  · rw [if_pos hex, lookup_map_assign]
    by_cases hk : k' = k
    · rw [if_pos hk, if_pos hk]
      have hmem : k ∈ m.map Prod.fst := by
        simp only [List.any_eq_true, beq_iff_eq] at hex
        obtain ⟨p, hp, hpk⟩ := hex
        exact List.mem_map.2 ⟨p, hp, hpk⟩
      obtain ⟨w, hw⟩ := lookup_isSome_of_mem k m hmem
      rw [hw]; rfl
    · rw [if_neg hk, if_neg hk]
  · rw [if_neg hex, lookup_append_single]
    have hnot : k ∉ m.map Prod.fst := by
      intro hmem
      apply hex
      obtain ⟨p, hp, hpk⟩ := List.mem_map.1 hmem
      simp only [List.any_eq_true, beq_iff_eq]
      exact ⟨p, hp, hpk⟩
    by_cases hk : k' = k
    · subst hk
      rw [lookup_none_of_not_mem k' m hnot]
      simp [Option.orElse]
    · rw [if_neg hk, if_neg hk]
      cases m.lookup k' <;> rfl


theorem lookup_foldl_mapAssign (R : List (String × String)) :
    ∀ (m : List (String × String)) (k : String), (R.map Prod.fst).Nodup →
      (R.foldl (fun m kv => mapAssign m kv.1 kv.2) m).lookup k
        = (R.lookup k).orElse (fun _ => m.lookup k) := by
  induction R with
  | nil => intro m k _; rfl
  | cons a t ih =>
      intro m k hnd
      obtain ⟨a1, a2⟩ := a
      simp only [List.map_cons, List.nodup_cons] at hnd
      simp only [List.foldl_cons, ih _ k hnd.2, lookup_mapAssign, lookup_cons_eq]
      by_cases hk : k = a1
      · subst hk
        rw [lookup_none_of_not_mem k t hnd.1]
        simp [Option.orElse]
      · simp [hk]

theorem lookup_filter_key (m : List (String × String)) (p : String → Bool) (k : String) :
    (m.filter (fun kv => p kv.1)).lookup k = if p k then m.lookup k else none := by
  induction m with
  | nil => simp
  | cons a t ih =>
      obtain ⟨a1, a2⟩ := a
      by_cases hp : p a1 = true
      · simp only [List.filter_cons, hp, if_true, lookup_cons_eq, ih]
        by_cases hk : k = a1
        · subst hk; simp [hp]
        · simp [hk]
      · have hp' : p a1 = false := by simpa using hp
        simp only [List.filter_cons, hp', Bool.false_eq_true, if_false, ih, lookup_cons_eq]
        by_cases hk : k = a1
        · subst hk; simp [hp']
        · simp [hk]

theorem lookup_filter_nodup (m : List (String × String)) (p : String × String → Bool) (k : String)
    (hnd : (m.map Prod.fst).Nodup) :
    (m.filter p).lookup k = (m.lookup k).filter (fun v => p (k, v)) := by
  induction m with
  | nil => simp
  | cons a t ih =>
      obtain ⟨a1, a2⟩ := a
      simp only [List.map_cons, List.nodup_cons] at hnd
      have hsub : ∀ x, x ∉ t.map Prod.fst → x ∉ (t.filter p).map Prod.fst := by
        intro x hx hmem
        apply hx
        obtain ⟨q, hq, hqx⟩ := List.mem_map.1 hmem
        exact List.mem_map.2 ⟨q, (List.mem_filter.1 hq).1, hqx⟩
      by_cases hp : p (a1, a2) = true
      · simp only [List.filter_cons, hp, if_true, lookup_cons_eq, ih hnd.2]
        by_cases hk : k = a1
        · subst hk; simp [Option.filter, hp]
        · simp [hk]
      · have hp' : p (a1, a2) = false := by simpa using hp
        simp only [List.filter_cons, hp', Bool.false_eq_true, if_false, lookup_cons_eq]
        by_cases hk : k = a1
        · subst hk
          rw [lookup_none_of_not_mem k _ (hsub k hnd.1)]
          simp [Option.filter, hp']
        · simp [hk, ih hnd.2]

theorem filter_keys_nodup (m : List (String × String)) (p : String × String → Bool)
    (hnd : (m.map Prod.fst).Nodup) : ((m.filter p).map Prod.fst).Nodup :=
  List.Nodup.sublist (List.Sublist.map _ (List.filter_sublist _)) hnd

theorem contains_deleteTags (oldTags newTags : List (String × String)) (k : String) :
    (diffTags oldTags newTags).2.contains k
      = (decide (k ∈ oldTags.map Prod.fst) && (newTags.lookup k).isNone) := by
  unfold diffTags
  simp only
  by_cases hn : (newTags.lookup k).isNone = true
  · by_cases ho : k ∈ oldTags.map Prod.fst
    · simp only [hn, ho, decide_True, Bool.and_self]
      apply List.elem_iff.2
      obtain ⟨q, hq, hqk⟩ := List.mem_map.1 ho
      refine List.mem_map.2 ⟨q, List.mem_filter.2 ⟨hq, ?_⟩, hqk⟩
      rw [hqk]; exact hn
    · simp only [hn, ho, decide_False, Bool.false_and]
      apply Bool.eq_false_iff.2
      intro hc
      obtain ⟨q, hq, hqk⟩ := List.mem_map.1 (List.elem_iff.1 hc)
      exact ho (List.mem_map.2 ⟨q, (List.mem_filter.1 hq).1, hqk⟩)
  · have hn' : (newTags.lookup k).isNone = false := by simpa using hn
    simp only [hn', Bool.and_false]
    apply Bool.eq_false_iff.2
    intro hc
    obtain ⟨q, hq, hqk⟩ := List.mem_map.1 (List.elem_iff.1 hc)
    have := (List.mem_filter.1 hq).2
    rw [hqk] at this
    rw [this] at hn'
    exact Bool.noConfusion hn'

theorem lookup_of_mem_nodup (m : List (String × String)) (hnd : (m.map Prod.fst).Nodup)
    (kv : String × String) (h : kv ∈ m) : m.lookup kv.1 = some kv.2 := by
  induction m with
  | nil => simp at h
  | cons a t ih =>
      obtain ⟨a1, a2⟩ := a
      simp only [List.map_cons, List.nodup_cons] at hnd
      rw [lookup_cons_eq]
      rcases List.mem_cons.1 h with he | ht
      · subst he; simp
      · have hne : kv.1 ≠ a1 := by
          intro e
          exact hnd.1 (List.mem_map.2 ⟨kv, ht, e⟩)
        rw [if_neg hne]
        exact ih hnd.2 ht

/-- Claim C13 (with `diffTags` modelled from the specification, tag maps as
association lists with lookup, and the desired map holding every key once): the
pair `(replaceTags, deleteTags)` that `diffTags old new` gives, applied to `old`
(every key of `replaceTags` set to its value, every key of `deleteTags`
removed), gives a map that agrees with `new` at every key; `diffTags new new`
is the empty pair; and with this `diffTags` the tags block of Update passes
exactly that pair of the stored and the configured tags to `ModifyTags`. -/
theorem diffTags_applied_gives_new (oldTags newTags : List (String × String))
    (hnew : (newTags.map Prod.fst).Nodup) :
    (∀ k, (applyTags oldTags (diffTags oldTags newTags).1 (diffTags oldTags newTags).2).lookup k
        = newTags.lookup k) ∧
    diffTags newTags newTags = ([], []) ∧
    (∀ (env : Env) (r : Remote) (region instanceId : String) (d : ResourceData)
        (tr : List Event), env.diffTags = diffTags → d.HasChange "tags" = true →
        (d.GetChange "tags").1.asMap = oldTags → (d.GetChange "tags").2.asMap = newTags →
        ∃ ok, (mongodbStandbyInstanceUpdateTags env r region instanceId d tr).trace
          = tr ++ [⟨.ModifyTags (env.BuildTagResourceName "mongodb" "instance" region instanceId)
              (diffTags oldTags newTags).1 (diffTags oldTags newTags).2, ok⟩]) := by
  refine ⟨?_, ?_, ?_⟩
  · intro k
    have hR : (((diffTags oldTags newTags).1).map Prod.fst).Nodup := filter_keys_nodup _ _ hnew
    unfold applyTags
    rw [lookup_filter_key _ (fun x => !(diffTags oldTags newTags).2.contains x),
      lookup_foldl_mapAssign _ _ _ hR, contains_deleteTags]
    have hRk : (diffTags oldTags newTags).1.lookup k
        = (newTags.lookup k).filter (fun v => oldTags.lookup k != some v) := by
      unfold diffTags
      exact lookup_filter_nodup newTags _ k hnew
    rw [hRk]
    cases hn : newTags.lookup k with
    | none =>
        by_cases ho : k ∈ oldTags.map Prod.fst
        · simp [ho]
        · simp [ho, Option.filter, Option.orElse, lookup_none_of_not_mem k oldTags ho]
    | some v =>
        by_cases hv : oldTags.lookup k = some v
        · simp [Option.filter, Option.orElse, hv]
        · simp [Option.filter, Option.orElse, hv]
  · unfold diffTags
    have h1 : newTags.filter (fun kv => newTags.lookup kv.1 != some kv.2) = [] := by
      rw [List.filter_eq_nil_iff]
      intro kv hkv
      simp [lookup_of_mem_nodup newTags hnew kv hkv]
    have h2 : newTags.filter (fun kv => (newTags.lookup kv.1).isNone) = [] := by
      rw [List.filter_eq_nil_iff]
      intro kv hkv
      obtain ⟨v, hv⟩ := lookup_isSome_of_mem kv.1 newTags (List.mem_map.2 ⟨kv, hkv, rfl⟩)
      simp [hv]
    rw [h1, h2]; rfl
  · intro env r region instanceId d tr henv hch ho hn
    simp only [mongodbStandbyInstanceUpdateTags, hch, if_true, henv, ho, hn, callErr, record]
    cases r.ModifyTags tr (env.BuildTagResourceName "mongodb" "instance" region instanceId)
        (diffTags oldTags newTags).1 (diffTags oldTags newTags).2 with
    | some e => exact ⟨false, rfl⟩
    | none => exact ⟨true, rfl⟩

/-- Witness of C13: the stored tags `a = 1, c = 3` and the desired tags
`a = 1, b = 2`; the key `b` is added and the key `c` is removed. -/
theorem diffTags_applied_gives_new_witness :
    ([("a", "1"), ("b", "2")].map Prod.fst).Nodup ∧
    diffTags [("a", "1"), ("c", "3")] [("a", "1"), ("b", "2")] = ([("b", "2")], ["c"]) ∧
    (applyTags [("a", "1"), ("c", "3")]
        (diffTags [("a", "1"), ("c", "3")] [("a", "1"), ("b", "2")]).1
        (diffTags [("a", "1"), ("c", "3")] [("a", "1"), ("b", "2")]).2).lookup "c"
      = ([("a", "1"), ("b", "2")] : List (String × String)).lookup "c" :=
  ⟨by decide, by decide,
    (diffTags_applied_gives_new [("a", "1"), ("c", "3")] [("a", "1"), ("b", "2")]
      (by decide)).1 "c"⟩

/-! ### The documented example and import id of `tencentcloud_tsf_api_rate_limit_rule` -/

/-- Claim C14, refuted: the `usable_status` value of the documented example,
`"enable"`, is not among the values `enabled` and `disabled` that the schema
hands to its allowed-values validator, so the example fails validation, while
both listed values pass. -/
theorem tsf_example_usable_status_rejected :
    (tsfApiRateLimitRuleExample.lookup "usable_status").map Value.asString = some "enable" ∧
    validateAllowedStringValue tsfApiRateLimitRuleUsableStatusValues "enable" = false ∧
    "enable" ∉ tsfApiRateLimitRuleUsableStatusValues ∧
    validateAllowedStringValue tsfApiRateLimitRuleUsableStatusValues "enabled" = true ∧
    validateAllowedStringValue tsfApiRateLimitRuleUsableStatusValues "disabled" = true := by
  decide

/-- Claim C15, refuted: with the documented import id, a rule id alone, as the
resource id, Read splits the id into one part, returns the error
`id is broken,api_rate_limit_rule_id` and issues no call, whatever the remote
side holds; the state is left as it was. -/
theorem tsf_read_rejects_documented_import_id (r : Remote) (d : ResourceData)
    (tr : List Event) :
    Contains tsfApiRateLimitRuleImportId FILED_SP = false ∧
    resourceTencentCloudTsfApiRateLimitRuleRead r (d.SetId tsfApiRateLimitRuleImportId) tr
      = ⟨d.SetId tsfApiRateLimitRuleImportId, tr,
          .err (.Errorf "id is broken,api_rate_limit_rule_id")⟩ := by
  have hlen : (Split tsfApiRateLimitRuleImportId FILED_SP).length = 1 := by decide
  refine ⟨by decide, ?_⟩
  simp only [resourceTencentCloudTsfApiRateLimitRuleRead, ResourceData.SetId, hlen]
  rfl

/-! ### The VPN client cert Update -/

theorem Retry_retryCallVal_events {α : Type} (env : Env) (c : Call)
    (answer : List Event → Except RemoteError α) :
    ∀ (n : Nat) (tr : List Event), ∃ (new : List Event) (res : Res GoError α),
      Retry (retryCallVal env c answer) n tr = (tr ++ new, res) ∧
      (∃ b, (⟨c, b⟩ : Event) ∈ new) ∧ (∀ ev ∈ new, ev.call = c) ∧ res ≠ .panic := by
  intro n
  induction n with
  | zero =>
      intro tr
      cases h : answer tr with
      | ok a =>
          exact ⟨[⟨c, true⟩], .ok a, by simp [Retry, retryCallVal, callVal, record, h],
            ⟨true, by simp⟩, by simp, by simp⟩
      | error e =>
          exact ⟨[⟨c, false⟩], .err (.Remote e),
            by simp [Retry, retryCallVal, callVal, record, h, retryError],
            ⟨false, by simp⟩, by simp, by simp⟩
  | succ n ih =>
      intro tr
      cases h : answer tr with
      | ok a =>
          exact ⟨[⟨c, true⟩], .ok a, by simp [Retry, retryCallVal, callVal, record, h],
            ⟨true, by simp⟩, by simp, by simp⟩
      | error e =>
          by_cases hr : env.retryable e = true
          · obtain ⟨new, res, hnew, _, hall, hp⟩ := ih (tr ++ [⟨c, false⟩])
            refine ⟨⟨c, false⟩ :: new, res, ?_, ⟨false, by simp⟩, ?_, hp⟩
            · have hstep : Retry (retryCallVal env c answer) (n + 1) tr
                  = Retry (retryCallVal env c answer) n (tr ++ [⟨c, false⟩]) := by
                simp [Retry, retryCallVal, callVal, record, h, retryError, hr]
              rw [hstep, hnew]
              simp
            · intro ev hev
              rcases List.mem_cons.1 hev with he | he
              · subst he; rfl
              · exact hall ev he
          · exact ⟨[⟨c, false⟩], .err (.Remote e),
              by simp [Retry, retryCallVal, callVal, record, h, retryError, hr],
              ⟨false, by simp⟩, by simp, by simp⟩

theorem vpnRead_trace (r : Remote) (d : ResourceData) (tr : List Event) :
    ∃ b, (resourceTencentCloudVpnGatewaySslClientCertRead r d tr).trace
      = tr ++ [⟨.DescribeVpnSslClientById d.id, b⟩] := by
  simp only [resourceTencentCloudVpnGatewaySslClientCertRead, callVal, record]
  cases r.DescribeVpnSslClientById tr d.id with
  | error e => exact ⟨_, rfl⟩
  | ok a => cases a <;> exact ⟨_, rfl⟩

theorem vpnUpdateTask_trace (r : Remote) (d : ResourceData) (tr : List Event)
    (taskId : Option Nat) :
    ∃ rest, (vpnGatewaySslClientCertUpdateTask r d tr taskId).trace = tr ++ rest ∧
      ∀ ev ∈ rest, (∃ t, ev.call = .DescribeVpcTaskResult t) ∨
        ev.call = .DescribeVpnSslClientById d.id := by
  unfold vpnGatewaySslClientCertUpdateTask
  cases taskId with
  | none => exact ⟨[], by simp, by simp⟩
  | some task =>
      simp only [callErr, record]
      cases r.DescribeVpcTaskResult tr (toString task) with
      | some e => exact ⟨[_], rfl, by simp⟩
      | none =>
          obtain ⟨b, hb⟩ := vpnRead_trace r d (tr ++ [⟨.DescribeVpcTaskResult (toString task), true⟩])
          refine ⟨[⟨.DescribeVpcTaskResult (toString task), true⟩,
            ⟨.DescribeVpnSslClientById d.id, b⟩], ?_, by simp⟩
          simp only [Option.isNone_none]
          rw [hb]
          simp

/-- Claim C18: Update of the VPN client cert issues the Enable call for the
stored resource id when `switch` is `on` (at least once; a retryable failure
is tried again) and then no Disable call at all, and the Disable call for the
stored resource id when `switch` is anything else (`off` in particular) and
then no Enable call at all; every Enable or Disable call it issues is for the
stored resource id. -/
theorem vpn_update_switch_selects_call (env : Env) (r : Remote) (d : ResourceData)
    (tr : List Event) :
    ((d.Get "switch").asString = "on" →
      ∃ new, (resourceTencentCloudVpnGatewaySslClientCertUpdate env r d tr).trace = tr ++ new ∧
        (∃ b, (⟨.EnableVpnGatewaySslClientCert d.id, b⟩ : Event) ∈ new) ∧
        (∀ ev ∈ new, ∀ id, ev.call = .EnableVpnGatewaySslClientCert id → id = d.id) ∧
        ∀ ev ∈ new, ∀ id, ev.call ≠ .DisableVpnGatewaySslClientCert id) ∧
    ((d.Get "switch").asString ≠ "on" →
      ∃ new, (resourceTencentCloudVpnGatewaySslClientCertUpdate env r d tr).trace = tr ++ new ∧
        (∃ b, (⟨.DisableVpnGatewaySslClientCert d.id, b⟩ : Event) ∈ new) ∧
        (∀ ev ∈ new, ∀ id, ev.call = .DisableVpnGatewaySslClientCert id → id = d.id) ∧
        ∀ ev ∈ new, ∀ id, ev.call ≠ .EnableVpnGatewaySslClientCert id) := by
  constructor
  · intro hon
    simp only [resourceTencentCloudVpnGatewaySslClientCertUpdate, hon, if_true]
    obtain ⟨new, res, hnew, hex, hall, hp⟩ := Retry_retryCallVal_events env
      (.EnableVpnGatewaySslClientCert d.id) (fun t => r.EnableVpnGatewaySslClientCert t d.id)
      env.writeRetryTimeout tr
    simp only [hnew]
    cases res with
    | panic => exact absurd rfl hp
    | err e =>
        refine ⟨new, rfl, hex, ?_, ?_⟩
        · intro ev hev id hid
          rw [hall ev hev] at hid
          injection hid with hid
          exact hid.symm
        · intro ev hev id hid
          rw [hall ev hev] at hid
          exact Call.noConfusion hid
    | ok taskId =>
        obtain ⟨rest, hrest, hrall⟩ := vpnUpdateTask_trace r d (tr ++ new) taskId
        refine ⟨new ++ rest, by simp only [hrest, List.append_assoc], ?_, ?_, ?_⟩
        · obtain ⟨b, hb⟩ := hex
          exact ⟨b, List.mem_append_left _ hb⟩
        · intro ev hev id hid
          rcases List.mem_append.1 hev with h | h
          · rw [hall ev h] at hid
            injection hid with hid
            exact hid.symm
          · rcases hrall ev h with ⟨t, ht⟩ | ht <;> rw [ht] at hid <;> exact Call.noConfusion hid
        · intro ev hev id hid
          rcases List.mem_append.1 hev with h | h
          · rw [hall ev h] at hid
            exact Call.noConfusion hid
          · rcases hrall ev h with ⟨t, ht⟩ | ht <;> rw [ht] at hid <;> exact Call.noConfusion hid
  · intro hoff
    simp only [resourceTencentCloudVpnGatewaySslClientCertUpdate, hoff, if_false]
    obtain ⟨new, res, hnew, hex, hall, hp⟩ := Retry_retryCallVal_events env
      (.DisableVpnGatewaySslClientCert d.id) (fun t => r.DisableVpnGatewaySslClientCert t d.id)
      env.writeRetryTimeout tr
    simp only [hnew]
    cases res with
    | panic => exact absurd rfl hp
    | err e =>
        refine ⟨new, rfl, hex, ?_, ?_⟩
        · intro ev hev id hid
          rw [hall ev hev] at hid
          injection hid with hid
          exact hid.symm
        · intro ev hev id hid
          rw [hall ev hev] at hid
          exact Call.noConfusion hid
    | ok taskId =>
        obtain ⟨rest, hrest, hrall⟩ := vpnUpdateTask_trace r d (tr ++ new) taskId
        refine ⟨new ++ rest, by simp only [hrest, List.append_assoc], ?_, ?_, ?_⟩
        · obtain ⟨b, hb⟩ := hex
          exact ⟨b, List.mem_append_left _ hb⟩
        · intro ev hev id hid
          rcases List.mem_append.1 hev with h | h
          · rw [hall ev h] at hid
            injection hid with hid
            exact hid.symm
          · rcases hrall ev h with ⟨t, ht⟩ | ht <;> rw [ht] at hid <;> exact Call.noConfusion hid
        · intro ev hev id hid
          rcases List.mem_append.1 hev with h | h
          · rw [hall ev h] at hid
            exact Call.noConfusion hid
          · rcases hrall ev h with ⟨t, ht⟩ | ht <;> rw [ht] at hid <;> exact Call.noConfusion hid

/-- Witness of C18: the two values of `switch` on the sample client cert. -/
theorem vpn_update_switch_selects_call_witness :
    ((sampleVpnData "on").Get "switch").asString = "on" ∧
    ((sampleVpnData "off").Get "switch").asString ≠ "on" ∧
    (∃ new, (resourceTencentCloudVpnGatewaySslClientCertUpdate sampleEnv remoteAbsent
        (sampleVpnData "on") []).trace = [] ++ new ∧
      (∃ b, (⟨.EnableVpnGatewaySslClientCert (sampleVpnData "on").id, b⟩ : Event) ∈ new) ∧
      (∀ ev ∈ new, ∀ id, ev.call = .EnableVpnGatewaySslClientCert id →
        id = (sampleVpnData "on").id) ∧
      ∀ ev ∈ new, ∀ id, ev.call ≠ .DisableVpnGatewaySslClientCert id) ∧
    (∃ new, (resourceTencentCloudVpnGatewaySslClientCertUpdate sampleEnv remoteAbsent
        (sampleVpnData "off") []).trace = [] ++ new ∧
      (∃ b, (⟨.DisableVpnGatewaySslClientCert (sampleVpnData "off").id, b⟩ : Event) ∈ new) ∧
      (∀ ev ∈ new, ∀ id, ev.call = .DisableVpnGatewaySslClientCert id →
        id = (sampleVpnData "off").id) ∧
      ∀ ev ∈ new, ∀ id, ev.call ≠ .EnableVpnGatewaySslClientCert id) :=
  ⟨by decide, by decide,
    (vpn_update_switch_selects_call sampleEnv remoteAbsent (sampleVpnData "on") []).1 (by decide),
    (vpn_update_switch_selects_call sampleEnv remoteAbsent (sampleVpnData "off") []).2
      (by decide)⟩

/-! ### The poll of `InitDcdbDbInstance` -/

theorem Retry_retryCallVal_full {α : Type} (env : Env) (c : Call)
    (answer : List Event → Except RemoteError α) :
    ∀ (n : Nat) (tr : List Event), ∃ pre : List Event, (∀ ev ∈ pre, ev = ⟨c, false⟩) ∧
      ((∃ a, answer (tr ++ pre) = .ok a ∧
          Retry (retryCallVal env c answer) n tr = (tr ++ pre ++ [⟨c, true⟩], .ok a)) ∨
        ∃ e, answer (tr ++ pre) = .error e ∧
          Retry (retryCallVal env c answer) n tr
            = (tr ++ pre ++ [⟨c, false⟩], .err (.Remote e))) := by
  intro n
  induction n with
  | zero =>
      intro tr
      refine ⟨[], by simp, ?_⟩
      cases h : answer tr with
      | ok a => left; exact ⟨a, by simpa using h, by simp [Retry, retryCallVal, callVal, record, h]⟩
      | error e =>
          right
          exact ⟨e, by simpa using h,
            by simp [Retry, retryCallVal, callVal, record, h, retryError]⟩
  | succ n ih =>
      intro tr
      cases h : answer tr with
      | ok a =>
          exact ⟨[], by simp, Or.inl ⟨a, by simpa using h,
            by simp [Retry, retryCallVal, callVal, record, h]⟩⟩
      | error e =>
          by_cases hr : env.retryable e = true
          · obtain ⟨pre, hall, hpre⟩ := ih (tr ++ [⟨c, false⟩])
            have hstep : Retry (retryCallVal env c answer) (n + 1) tr
                = Retry (retryCallVal env c answer) n (tr ++ [⟨c, false⟩]) := by
              simp [Retry, retryCallVal, callVal, record, h, retryError, hr]
            refine ⟨⟨c, false⟩ :: pre, ?_, ?_⟩
            · intro ev hev
              rcases List.mem_cons.1 hev with he | he
              · exact he
              · exact hall ev he
            · rw [hstep]
              simpa using hpre
          · exact ⟨[], by simp, Or.inr ⟨e, by simpa using h,
              by simp [Retry, retryCallVal, callVal, record, h, retryError, hr]⟩⟩


theorem byUse_shape (env : Env) (r : Remote) (a : TencentCloudClient) (d : ResourceData)
    (tr : List Event) (m : List (String × String)) :
    ∃ new, (mongodbCreateStandbyInstanceByUse env r a d tr m).trace = tr ++ new ∧
      (∀ ev ∈ new, ev.call = .CreateDBInstanceHour a
        (mongodbAllStandbyInstanceReqSet env .CreateDBInstanceHourRequest newCreateDBInstanceRequest d m).1) ∧
      ((mongodbAllStandbyInstanceReqSet env .CreateDBInstanceHourRequest newCreateDBInstanceRequest d m).2 ≠ none →
        new = []) ∧
      (((mongodbCreateStandbyInstanceByUse env r a d tr m).out ≠ .ok () ∧ (mongodbCreateStandbyInstanceByUse env r a d tr m).d = d) ∨
        ((mongodbCreateStandbyInstanceByUse env r a d tr m).out = .ok () ∧
          ∃ pre id rest, new = pre ++ [⟨.CreateDBInstanceHour a
              (mongodbAllStandbyInstanceReqSet env .CreateDBInstanceHourRequest newCreateDBInstanceRequest d m).1, true⟩] ∧
            r.CreateDBInstanceHour (tr ++ pre) a
              (mongodbAllStandbyInstanceReqSet env .CreateDBInstanceHourRequest newCreateDBInstanceRequest d m).1
                = .ok (some id :: rest) ∧
            (mongodbCreateStandbyInstanceByUse env r a d tr m).d = d.SetId id)) := by
  unfold mongodbCreateStandbyInstanceByUse
  rcases hq : mongodbAllStandbyInstanceReqSet env .CreateDBInstanceHourRequest newCreateDBInstanceRequest d m
    with ⟨req, oe⟩
  cases oe with
  | some e => exact ⟨[], by simp, by simp, by simp, Or.inl ⟨by simp, rfl⟩⟩
  | none =>
      simp only
      obtain ⟨pre, hall, hpre⟩ := Retry_retryCallVal_full env (.CreateDBInstanceHour a req)
        (fun t => r.CreateDBInstanceHour t a req) env.writeRetryTimeout tr
      have hmem : ∀ (b : Bool), ∀ ev ∈ pre ++ [(⟨.CreateDBInstanceHour a req, b⟩ : Event)],
          ev.call = .CreateDBInstanceHour a req := by
        intro b ev hev
        rcases List.mem_append.1 hev with h | h
        · rw [hall ev h]
        · simp only [List.mem_singleton] at h
          rw [h]
      rcases hpre with ⟨ids, hans, hR⟩ | ⟨e, hans, hR⟩
      · simp only [hR]
        cases ids with
        | nil =>
            exact ⟨pre ++ [⟨.CreateDBInstanceHour a req, true⟩],
              by simp [mongodbStandbyInstanceStoreId, List.append_assoc], hmem true, by simp,
              Or.inl ⟨by simp [mongodbStandbyInstanceStoreId], rfl⟩⟩
        | cons i rest =>
            cases i with
            | none =>
                exact ⟨pre ++ [⟨.CreateDBInstanceHour a req, true⟩],
                  by simp [mongodbStandbyInstanceStoreId, List.append_assoc], hmem true, by simp,
                  Or.inl ⟨by simp [mongodbStandbyInstanceStoreId], rfl⟩⟩
            | some id =>
                exact ⟨pre ++ [⟨.CreateDBInstanceHour a req, true⟩],
                  by simp [mongodbStandbyInstanceStoreId, List.append_assoc], hmem true, by simp,
                  Or.inr ⟨rfl, pre, id, rest, rfl, hans, rfl⟩⟩
      · simp only [hR]
        exact ⟨pre ++ [⟨.CreateDBInstanceHour a req, false⟩], by simp [List.append_assoc],
          hmem false, by simp, Or.inl ⟨by simp, trivial⟩⟩

theorem byMonth_shape (env : Env) (r : Remote) (a : TencentCloudClient) (d : ResourceData)
    (tr : List Event) (m : List (String × String)) :
    ∃ new, (mongodbCreateStandbyInstanceByMonth env r a d tr m).trace = tr ++ new ∧
      (∀ ev ∈ new, ev.call = .CreateDBInstance a
        (mongodbAllStandbyInstanceReqSet env .CreateDBInstanceRequest newCreateDBInstanceRequest d m).1) ∧
      ((mongodbAllStandbyInstanceReqSet env .CreateDBInstanceRequest newCreateDBInstanceRequest d m).2 ≠ none →
        new = []) ∧
      (((mongodbCreateStandbyInstanceByMonth env r a d tr m).out ≠ .ok () ∧ (mongodbCreateStandbyInstanceByMonth env r a d tr m).d = d) ∨
        ((mongodbCreateStandbyInstanceByMonth env r a d tr m).out = .ok () ∧
          ∃ pre id rest, new = pre ++ [⟨.CreateDBInstance a
              (mongodbAllStandbyInstanceReqSet env .CreateDBInstanceRequest newCreateDBInstanceRequest d m).1, true⟩] ∧
            r.CreateDBInstance (tr ++ pre) a
              (mongodbAllStandbyInstanceReqSet env .CreateDBInstanceRequest newCreateDBInstanceRequest d m).1
                = .ok (some id :: rest) ∧
            (mongodbCreateStandbyInstanceByMonth env r a d tr m).d = d.SetId id)) := by
  unfold mongodbCreateStandbyInstanceByMonth
  rcases hq : mongodbAllStandbyInstanceReqSet env .CreateDBInstanceRequest newCreateDBInstanceRequest d m
    with ⟨req, oe⟩
  cases oe with
  | some e => exact ⟨[], by simp, by simp, by simp, Or.inl ⟨by simp, rfl⟩⟩
  | none =>
      simp only
      obtain ⟨pre, hall, hpre⟩ := Retry_retryCallVal_full env (.CreateDBInstance a req)
        (fun t => r.CreateDBInstance t a req) env.writeRetryTimeout tr
      have hmem : ∀ (b : Bool), ∀ ev ∈ pre ++ [(⟨.CreateDBInstance a req, b⟩ : Event)],
          ev.call = .CreateDBInstance a req := by
        intro b ev hev
        rcases List.mem_append.1 hev with h | h
        · rw [hall ev h]
        · simp only [List.mem_singleton] at h
          rw [h]
      rcases hpre with ⟨ids, hans, hR⟩ | ⟨e, hans, hR⟩
      · simp only [hR]
        cases ids with
        | nil =>
            exact ⟨pre ++ [⟨.CreateDBInstance a req, true⟩],
              by simp [mongodbStandbyInstanceStoreId, List.append_assoc], hmem true, by simp,
              Or.inl ⟨by simp [mongodbStandbyInstanceStoreId], rfl⟩⟩
        | cons i rest =>
            cases i with
            | none =>
                exact ⟨pre ++ [⟨.CreateDBInstance a req, true⟩],
                  by simp [mongodbStandbyInstanceStoreId, List.append_assoc], hmem true, by simp,
                  Or.inl ⟨by simp [mongodbStandbyInstanceStoreId], rfl⟩⟩
            | some id =>
                exact ⟨pre ++ [⟨.CreateDBInstance a req, true⟩],
                  by simp [mongodbStandbyInstanceStoreId, List.append_assoc], hmem true, by simp,
                  Or.inr ⟨rfl, pre, id, rest, rfl, hans, rfl⟩⟩
      · simp only [hR]
        exact ⟨pre ++ [⟨.CreateDBInstance a req, false⟩], by simp [List.append_assoc],
          hmem false, by simp, Or.inl ⟨by simp, trivial⟩⟩


theorem reqSet_fields (env : Env) (getType : CreateRequestType)
    (request : CreateDBInstanceRequest) (d : ResourceData) (masterInfo : List (String × String)) :
    (mongodbAllStandbyInstanceReqSet env getType request d masterInfo).1.MongoVersion
      = some (mapGet masterInfo "engine_version") ∧
    (mongodbAllStandbyInstanceReqSet env getType request d masterInfo).1.MachineCode
      = some (mapGet masterInfo "machine_type") ∧
    (mongodbAllStandbyInstanceReqSet env getType request d masterInfo).1.Father
      = some (mapGet masterInfo "father_instance_id") ∧
    (mongodbAllStandbyInstanceReqSet env getType request d masterInfo).1.Clone
      = some env.MONGO_INSTANCE_TYPE_STANDBY := by
  unfold mongodbAllStandbyInstanceReqSet
  simp only
  split_ifs <;> exact ⟨rfl, rfl, rfl, rfl⟩

theorem reqSet_month_period (env : Env) (request : CreateDBInstanceRequest) (d : ResourceData)
    (masterInfo : List (String × String)) (h : (d.GetOk "prepaid_period").2 = false) :
    (mongodbAllStandbyInstanceReqSet env .CreateDBInstanceRequest request d masterInfo).2
      ≠ none := by
  have hc : Contains CreateRequestType.CreateDBInstanceRequest.String "CreateDBInstanceRequest"
      = true := by decide
  unfold mongodbAllStandbyInstanceReqSet
  simp only [hc, h]
  split_ifs <;> first | contradiction | simp

/-- What the part of Create from the read of `charge_type` to the creation call
does. -/
theorem createInstance_shape (env : Env) (r : Remote) (a : TencentCloudClient)
    (m : List (String × String)) (d : ResourceData) (tr : List Event) :
    ∃ new, (mongodbStandbyInstanceCreateInstance env r a m d tr).trace = tr ++ new ∧
      (∀ ev ∈ new, ∃ q, ev.call.createRequest = some (a, q) ∧ ev.call.client = some a ∧
        ∃ getType, q = (mongodbAllStandbyInstanceReqSet env getType
          newCreateDBInstanceRequest d m).1) ∧
      (((mongodbStandbyInstanceCreateInstance env r a m d tr).out ≠ .ok () ∧
          (mongodbStandbyInstanceCreateInstance env r a m d tr).d = d) ∨
        ((mongodbStandbyInstanceCreateInstance env r a m d tr).out = .ok () ∧
          ∃ pre c id, new = pre ++ [⟨c, true⟩] ∧ createdInstanceId r (tr ++ pre) c = some id ∧
            (mongodbStandbyInstanceCreateInstance env r a m d tr).d = d.SetId id)) := by
  unfold mongodbStandbyInstanceCreateInstance
  simp only
  split_ifs with h1 h2
  · exact ⟨[], by simp, by simp, Or.inl ⟨by simp, rfl⟩⟩
  · obtain ⟨new, ht, hall, _, hout⟩ := byUse_shape env r a d tr m
    refine ⟨new, ht, ?_, ?_⟩
    · intro ev hev
      exact ⟨_, by rw [hall ev hev]; rfl, by rw [hall ev hev]; rfl, _, rfl⟩
    · rcases hout with h | ⟨ho, pre, id, rest, hn, hans, hd⟩
      · exact Or.inl h
      · exact Or.inr ⟨ho, pre, _, id, hn, by simp [createdInstanceId, hans], hd⟩
  · obtain ⟨new, ht, hall, _, hout⟩ := byMonth_shape env r a d tr m
    refine ⟨new, ht, ?_, ?_⟩
    · intro ev hev
      exact ⟨_, by rw [hall ev hev]; rfl, by rw [hall ev hev]; rfl, _, rfl⟩
    · rcases hout with h | ⟨ho, pre, id, rest, hn, hans, hd⟩
      · exact Or.inl h
      · exact Or.inr ⟨ho, pre, _, id, hn, by simp [createdInstanceId, hans], hd⟩


theorem creation_clients (env : Env) (r : Remote) (a : TencentCloudClient)
    (d : ResourceData) (tr : List Event) :
    (mongodbStandbyInstanceCreateCreation env r ⟨a, a⟩ ⟨.client1⟩ d tr).clients.apiV3Conn = a := by
  unfold mongodbStandbyInstanceCreateCreation
  simp only [callVal, record]
  split_ifs
  · rfl
  · rfl
  · split <;> first | rfl | (split <;> first | rfl | (split <;> first | rfl | (split <;>
      first | rfl | (split_ifs <;> rfl))))


theorem mapGet_mapAssign (m : List (String × String)) (k v k' : String) :
    mapGet (mapAssign m k v) k' = if k' = k then v else mapGet m k' := by
  unfold mapGet
  rw [lookup_mapAssign]
  split_ifs <;> rfl

theorem masterInfoMap_fields (fid mt mv : String) :
    mapGet (mapAssign (mapAssign (mapAssign [] "father_instance_id" fid) "machine_type" mt)
      "engine_version" mv) "engine_version" = mv ∧
    mapGet (mapAssign (mapAssign (mapAssign [] "father_instance_id" fid) "machine_type" mt)
      "engine_version" mv) "machine_type" = mt ∧
    mapGet (mapAssign (mapAssign (mapAssign [] "father_instance_id" fid) "machine_type" mt)
      "engine_version" mv) "father_instance_id" = fid := by
  refine ⟨?_, ?_, ?_⟩ <;> simp [mapGet_mapAssign]

/-- What the part of Create up to the creation call does, started with the
shared client `a` and its copy. -/
theorem creation_shape (env : Env) (r : Remote) (a : TencentCloudClient)
    (d : ResourceData) (tr : List Event) :
    ∃ new, (mongodbStandbyInstanceCreateCreation env r ⟨a, a⟩ ⟨.client1⟩ d tr).run.trace
        = tr ++ new ∧
      (new = [] ∨ ∃ b rest, new = ⟨.DescribeInstanceByIdOn
          ⟨(d.Get "father_instance_region").asString⟩ (d.Get "father_instance_id").asString, b⟩
            :: rest ∧
        ∀ ev ∈ rest, ∃ q masterInfo mt mv,
          r.DescribeInstanceByIdOn tr ⟨(d.Get "father_instance_region").asString⟩
            (d.Get "father_instance_id").asString = .ok (some masterInfo) ∧
          masterInfo.MachineType = some mt ∧ masterInfo.MongoVersion = some mv ∧
          ev.call.createRequest = some (a, q) ∧ ev.call.client = some a ∧
          q.MongoVersion = some mv ∧ q.MachineCode = some mt ∧
          q.Father = some (d.Get "father_instance_id").asString ∧
          q.Clone = some env.MONGO_INSTANCE_TYPE_STANDBY) ∧
      (((mongodbStandbyInstanceCreateCreation env r ⟨a, a⟩ ⟨.client1⟩ d tr).run.out ≠ .ok () ∧
          (mongodbStandbyInstanceCreateCreation env r ⟨a, a⟩ ⟨.client1⟩ d tr).run.d = d) ∨
        ((mongodbStandbyInstanceCreateCreation env r ⟨a, a⟩ ⟨.client1⟩ d tr).run.out = .ok () ∧
          ∃ pre c id, new = pre ++ [⟨c, true⟩] ∧
            createdInstanceId r (tr ++ pre) c = some id ∧
            (mongodbStandbyInstanceCreateCreation env r ⟨a, a⟩ ⟨.client1⟩ d tr).run.d
              = d.SetId id)) := by
  have hfid : mapGet (mapAssign [] "father_instance_id" (d.Get "father_instance_id").asString)
      "father_instance_id" = (d.Get "father_instance_id").asString := by
    rw [mapGet_mapAssign, if_pos rfl]
  unfold mongodbStandbyInstanceCreateCreation
  simp only [callVal, record, ClientStore.setRegion, ClientStore.deref, hfid]
  split_ifs with h1 h2
  · exact ⟨[], by simp, Or.inl rfl, Or.inl ⟨by simp, rfl⟩⟩
  · exact ⟨[], by simp, Or.inl rfl, Or.inl ⟨by simp, rfl⟩⟩
  · cases hd : r.DescribeInstanceByIdOn tr ⟨(d.Get "father_instance_region").asString⟩
        (d.Get "father_instance_id").asString with
    | error e =>
        exact ⟨[_], rfl, Or.inr ⟨_, [], rfl, by simp⟩, Or.inl ⟨by simp, rfl⟩⟩
    | ok o =>
        cases o with
        | none => exact ⟨[_], rfl, Or.inr ⟨_, [], rfl, by simp⟩, Or.inl ⟨by simp, rfl⟩⟩
        | some masterInfo =>
            simp only
            cases hmt : masterInfo.MachineType with
            | none => exact ⟨[_], rfl, Or.inr ⟨_, [], rfl, by simp⟩, Or.inl ⟨by simp, rfl⟩⟩
            | some mt =>
                cases hmv : masterInfo.MongoVersion with
                | none =>
                    exact ⟨[_], rfl, Or.inr ⟨_, [], rfl, by simp⟩, Or.inl ⟨by simp, rfl⟩⟩
                | some mv =>
                    cases hz : masterInfo.Zone with
                    | none =>
                        exact ⟨[_], rfl, Or.inr ⟨_, [], rfl, by simp⟩, Or.inl ⟨by simp, rfl⟩⟩
                    | some zone =>
                        simp only
                        split_ifs with h3 h4
                        · exact ⟨[_], rfl, Or.inr ⟨_, [], rfl, by simp⟩, Or.inl ⟨by simp, rfl⟩⟩
                        · exact ⟨[_], rfl, Or.inr ⟨_, [], rfl, by simp⟩, Or.inl ⟨by simp, rfl⟩⟩
                        · obtain ⟨new, ht, hall, hout⟩ := createInstance_shape env r a
                            (mapAssign (mapAssign (mapAssign [] "father_instance_id"
                              (d.Get "father_instance_id").asString) "machine_type" mt)
                              "engine_version" mv) d
                            (tr ++ [⟨.DescribeInstanceByIdOn
                              ⟨(d.Get "father_instance_region").asString⟩
                              (d.Get "father_instance_id").asString, true⟩])
                          obtain ⟨f1, f2, f3⟩ := masterInfoMap_fields
                            (d.Get "father_instance_id").asString mt mv
                          refine ⟨(⟨.DescribeInstanceByIdOn
                              ⟨(d.Get "father_instance_region").asString⟩
                              (d.Get "father_instance_id").asString, true⟩ : Event) :: new,
                            by rw [ht]; simp, Or.inr ⟨true, new, rfl, ?_⟩, ?_⟩
                          · intro ev hev
                            obtain ⟨q, hq, hcl, getType, hqe⟩ := hall ev hev
                            obtain ⟨g1, g2, g3, g4⟩ := reqSet_fields env getType
                              newCreateDBInstanceRequest d
                              (mapAssign (mapAssign (mapAssign [] "father_instance_id"
                                (d.Get "father_instance_id").asString) "machine_type" mt)
                                "engine_version" mv)
                            rw [f1] at g1
                            rw [f2] at g2
                            rw [f3] at g3
                            rw [← hqe] at g1 g2 g3 g4
                            exact ⟨q, masterInfo, mt, mv, rfl, hmt, hmv, hq, hcl, g1, g2, g3, g4⟩
                          · rcases hout with h | ⟨ho, pre, c, id, hn, hid, hdd⟩
                            · exact Or.inl h
                            · refine Or.inr ⟨ho, (⟨.DescribeInstanceByIdOn
                                ⟨(d.Get "father_instance_region").asString⟩
                                (d.Get "father_instance_id").asString, true⟩ : Event) :: pre,
                                c, id, ?_, ?_, hdd⟩
                              · rw [hn]; rfl
                              · rw [← hid]
                                simp


theorem body_run (env : Env) (r : Remote) (a : TencentCloudClient) (d : ResourceData)
    (tr : List Event) :
    (mongodbStandbyInstanceCreateBody env r a d tr).run
      = (mongodbStandbyInstanceCreateCreation env r ⟨a, a⟩ ⟨.client1⟩ d tr).run.andThen
          (mongodbStandbyInstanceCreateSteps env r ⟨a, a⟩ ⟨.apiV3Conn⟩ ⟨.apiV3Conn⟩ a.Region) := by
  have h := creation_clients env r a d tr
  unfold mongodbStandbyInstanceCreateBody
  simp only [ClientStore.deref]
  congr 1
  funext x t
  simp only [mongodbStandbyInstanceCreateSteps, ClientStore.deref, h]

/-- What the steps of Create after the creation do, on the shared client `a`. -/
theorem steps_shape (env : Env) (r : Remote) (a c1 : TencentCloudClient) (region : String)
    (d : ResourceData) (tr : List Event) :
    (mongodbStandbyInstanceCreateSteps env r ⟨a, c1⟩ ⟨.apiV3Conn⟩ ⟨.apiV3Conn⟩ region d tr).d = d ∧
    ∃ new, (mongodbStandbyInstanceCreateSteps env r ⟨a, c1⟩ ⟨.apiV3Conn⟩ ⟨.apiV3Conn⟩ region d
        tr).trace = tr ++ new ∧
      ∀ ev ∈ new, ev.call = .DescribeInstanceByIdOn a d.id ∨
        ev.call = .ModifyInstanceNameOn a d.id (d.Get "instance_name").asString ∨
        ev.call = .ModifyTagsOn a (env.BuildTagResourceName "mongodb" "instance" region d.id)
          (d.Get "tags").asMap [] := by
  unfold mongodbStandbyInstanceCreateSteps
  simp only [callVal, callErr, record, ClientStore.deref]
  cases r.DescribeInstanceByIdOn tr a d.id with
  | error e => exact ⟨rfl, [_], rfl, by simp⟩
  | ok o =>
    cases o with
    | none => exact ⟨rfl, [_], rfl, by simp⟩
    | some i =>
      simp only
      cases r.ModifyInstanceNameOn (tr ++ [⟨.DescribeInstanceByIdOn a d.id, true⟩]) a d.id
          (d.Get "instance_name").asString with
      | some e => exact ⟨rfl, _, by simp only [List.append_assoc]; rfl, by simp⟩
      | none =>
        simp only [Option.isNone_none]
        cases r.DescribeInstanceByIdOn (tr ++ [⟨.DescribeInstanceByIdOn a d.id, true⟩] ++
            [⟨.ModifyInstanceNameOn a d.id (d.Get "instance_name").asString, true⟩]) a d.id with
        | error e => exact ⟨rfl, _, by simp only [List.append_assoc]; rfl, by simp⟩
        | ok o2 =>
          cases o2 with
          | none => exact ⟨rfl, _, by simp only [List.append_assoc]; rfl, by simp⟩
          | some j =>
            simp only
            split_ifs with ht
            · cases r.ModifyTagsOn (tr ++ [⟨.DescribeInstanceByIdOn a d.id, true⟩] ++
                [⟨.ModifyInstanceNameOn a d.id (d.Get "instance_name").asString, true⟩] ++
                [⟨.DescribeInstanceByIdOn a d.id, true⟩]) a
                (env.BuildTagResourceName "mongodb" "instance" region d.id)
                (d.Get "tags").asMap [] with
              | some e => exact ⟨rfl, _, by simp only [List.append_assoc]; rfl, by simp⟩
              | none => exact ⟨rfl, _, by simp only [List.append_assoc]; rfl, by simp⟩
            · exact ⟨rfl, _, by simp only [List.append_assoc]; rfl, by simp⟩

theorem create_of_creation_fails (env : Env) (r : Remote)
    (read : ResourceData → List Event → Run) (a : TencentCloudClient) (d : ResourceData)
    (tr : List Event) (x : Run) (e : GoError)
    (hx : (mongodbStandbyInstanceCreateCreation env r ⟨a, a⟩ ⟨.client1⟩ d tr).run = x)
    (ho : x.out = .err e) :
    (resourceTencentCloudMongodbStandbyInstanceCreate env r read a d tr).run
      = ⟨x.d, x.trace, .err e⟩ := by
  unfold resourceTencentCloudMongodbStandbyInstanceCreate
  simp only [body_run, hx, Run.andThen, ho]

/-- Claim C17: whatever the configuration and the map of master information
hold, the request that `mongodbAllStandbyInstanceReqSet` fills has `MongoVersion`
equal to the `engine_version` entry of the map, `MachineCode` equal to its
`machine_type` entry, `Father` equal to its `father_instance_id` entry and
`Clone` equal to the standby instance type, also when the function returns an
error; and every creation call that Create issues carries a request whose
`MongoVersion` and `MachineCode` are the `MongoVersion` and the `MachineType` of
the father instance that the lookup returned, whose `Father` is the configured
`father_instance_id` and whose `Clone` is the standby instance type. -/
theorem standby_request_inherits_from_father (env : Env) (d : ResourceData) :
    (∀ (getType : CreateRequestType) (request : CreateDBInstanceRequest)
        (masterInfo : List (String × String)),
      (mongodbAllStandbyInstanceReqSet env getType request d masterInfo).1.MongoVersion
        = some (mapGet masterInfo "engine_version") ∧
      (mongodbAllStandbyInstanceReqSet env getType request d masterInfo).1.MachineCode
        = some (mapGet masterInfo "machine_type") ∧
      (mongodbAllStandbyInstanceReqSet env getType request d masterInfo).1.Father
        = some (mapGet masterInfo "father_instance_id") ∧
      (mongodbAllStandbyInstanceReqSet env getType request d masterInfo).1.Clone
        = some env.MONGO_INSTANCE_TYPE_STANDBY) ∧
    (∀ (r : Remote) (a : TencentCloudClient) (tr : List Event),
      ∃ new, (mongodbStandbyInstanceCreateBody env r a d tr).run.trace = tr ++ new ∧
        ∀ ev ∈ new, ∀ c q, ev.call.createRequest = some (c, q) →
          ∃ masterInfo mt mv,
            r.DescribeInstanceByIdOn tr ⟨(d.Get "father_instance_region").asString⟩
              (d.Get "father_instance_id").asString = .ok (some masterInfo) ∧
            masterInfo.MachineType = some mt ∧ masterInfo.MongoVersion = some mv ∧
            q.MongoVersion = some mv ∧ q.MachineCode = some mt ∧
            q.Father = some (d.Get "father_instance_id").asString ∧
            q.Clone = some env.MONGO_INSTANCE_TYPE_STANDBY) := by
  refine ⟨fun getType request masterInfo => reqSet_fields env getType request d masterInfo, ?_⟩
  intro r a tr
  obtain ⟨new, ht, hnew, hout⟩ := creation_shape env r a d tr
  have hcre : ∀ ev ∈ new, ∀ c q, ev.call.createRequest = some (c, q) →
      ∃ masterInfo mt mv,
        r.DescribeInstanceByIdOn tr ⟨(d.Get "father_instance_region").asString⟩
          (d.Get "father_instance_id").asString = .ok (some masterInfo) ∧
        masterInfo.MachineType = some mt ∧ masterInfo.MongoVersion = some mv ∧
        q.MongoVersion = some mv ∧ q.MachineCode = some mt ∧
        q.Father = some (d.Get "father_instance_id").asString ∧
        q.Clone = some env.MONGO_INSTANCE_TYPE_STANDBY := by
    intro ev hev c q hq
    rcases hnew with h | ⟨b, rest, hn, hall⟩
    · rw [h] at hev; simp at hev
    · rw [hn] at hev
      rcases List.mem_cons.1 hev with he | he
      · rw [he] at hq
        exact Option.noConfusion hq
      · obtain ⟨q', masterInfo, mt, mv, h1, h2, h3, h4, _, h6, h7, h8, h9⟩ := hall ev he
        rw [h4] at hq
        simp only [Option.some.injEq, Prod.mk.injEq] at hq
        rw [← hq.2]
        exact ⟨masterInfo, mt, mv, h1, h2, h3, h6, h7, h8, h9⟩
  rw [body_run]
  rcases hout with ⟨ho, hd⟩ | ⟨ho, t0, c, id, _, _, hd⟩
  · refine ⟨new, ?_, hcre⟩
    rw [← ht]
    unfold Run.andThen
    cases hx : (mongodbStandbyInstanceCreateCreation env r ⟨a, a⟩ ⟨.client1⟩ d tr).run.out with
    | ok u => exact absurd hx ho
    | err e => rfl
    | panic => rfl
  · obtain ⟨_, snew, hst, hsall⟩ := steps_shape env r a a a.Region
      (mongodbStandbyInstanceCreateCreation env r ⟨a, a⟩ ⟨.client1⟩ d tr).run.d
      (mongodbStandbyInstanceCreateCreation env r ⟨a, a⟩ ⟨.client1⟩ d tr).run.trace
    refine ⟨new ++ snew, ?_, ?_⟩
    · simp only [Run.andThen, ho]
      rw [hst, ht, List.append_assoc]
    · intro ev hev c' q hq
      rcases List.mem_append.1 hev with h | h
      · exact hcre ev h c' q hq
      · rcases hsall ev h with h1 | h1 | h1 <;> rw [h1] at hq <;> exact Option.noConfusion hq

/-- Witness of C17: the request filled from a map of master information. -/
theorem standby_request_inherits_from_father_witness :
    (mongodbAllStandbyInstanceReqSet sampleEnv .CreateDBInstanceHourRequest
      newCreateDBInstanceRequest sampleCreateData
      [("father_instance_id", "cmgo-father"), ("machine_type", "HIO10G"),
        ("engine_version", "MONGO_36_WT")]).1.MongoVersion = some "MONGO_36_WT" ∧
    (mongodbStandbyInstanceCreateBody sampleEnv remoteCreate sampleClient sampleCreateData
      []).run.trace.map (fun ev => ev.call.createRequest.map
        (fun cq => (cq.2.MongoVersion, cq.2.MachineCode, cq.2.Father, cq.2.Clone)))
      = [none, some (some "MONGO_36_WT", some "HIO10G", some "cmgo-father", some 3),
          none, none, none, none] :=
  ⟨((standby_request_inherits_from_father sampleEnv sampleCreateData).1
      .CreateDBInstanceHourRequest newCreateDBInstanceRequest
      [("father_instance_id", "cmgo-father"), ("machine_type", "HIO10G"),
        ("engine_version", "MONGO_36_WT")]).1, by decide⟩

theorem creation_lookup_issued (env : Env) (r : Remote) (a : TencentCloudClient)
    (d : ResourceData) (tr : List Event)
    (h1 : (d.GetOk "father_instance_id").2 = true)
    (h2 : (d.GetOk "father_instance_region").2 = true) :
    tr.length
      < (mongodbStandbyInstanceCreateCreation env r ⟨a, a⟩ ⟨.client1⟩ d tr).run.trace.length := by
  have hfid : mapGet (mapAssign [] "father_instance_id" (d.Get "father_instance_id").asString)
      "father_instance_id" = (d.Get "father_instance_id").asString := by
    rw [mapGet_mapAssign, if_pos rfl]
  unfold mongodbStandbyInstanceCreateCreation
  simp only [callVal, record, ClientStore.setRegion, ClientStore.deref, hfid, h1, h2,
    Bool.not_true, Bool.false_eq_true, if_false]
  cases hd : r.DescribeInstanceByIdOn tr ⟨(d.Get "father_instance_region").asString⟩
      (d.Get "father_instance_id").asString with
  | error e => simp
  | ok o =>
      cases o with
      | none => simp
      | some masterInfo =>
          simp only
          cases hmt : masterInfo.MachineType with
          | none => simp
          | some mt =>
              cases hmv : masterInfo.MongoVersion with
              | none => simp
              | some mv =>
                  cases hz : masterInfo.Zone with
                  | none => simp
                  | some zone =>
                      simp only
                      split_ifs with h3 h4
                      · simp
                      · simp
                      · obtain ⟨new, ht, _⟩ := createInstance_shape env r a
                          (mapAssign (mapAssign (mapAssign [] "father_instance_id"
                            (d.Get "father_instance_id").asString) "machine_type" mt)
                            "engine_version" mv) d
                          (tr ++ [⟨.DescribeInstanceByIdOn
                            ⟨(d.Get "father_instance_region").asString⟩
                            (d.Get "father_instance_id").asString, true⟩])
                        rw [ht]
                        simp only [List.length_append, List.length_singleton]
                        omega

/-- Claim C12: for every outcome of Create the shared provider client is what
it was on entry, its `Region` included.  The first call of Create, when it
issues one, describes the father instance through a client whose `Region` is
`father_instance_region`, and Create does issue it when `father_instance_id`
and `father_instance_region` are set; every later call up to the final Read
(the creation call, the existence checks, the rename, the tag call) goes
through the shared client as it was on entry, and the resource name of the tag
call is built from the `Region` of that client. -/
theorem create_keeps_shared_client (env : Env) (r : Remote)
    (resourceTencentCloudMongodbInstanceRead : ResourceData → List Event → Run)
    (a : TencentCloudClient) (d : ResourceData) (tr : List Event) :
    (resourceTencentCloudMongodbStandbyInstanceCreate env r
      resourceTencentCloudMongodbInstanceRead a d tr).clients.apiV3Conn = a ∧
    ∃ new, (mongodbStandbyInstanceCreateBody env r a d tr).run.trace = tr ++ new ∧
      (new = [] ∨ ∃ b rest fatherClient,
        new = ⟨.DescribeInstanceByIdOn fatherClient (d.Get "father_instance_id").asString, b⟩
          :: rest ∧
        fatherClient.Region = (d.Get "father_instance_region").asString ∧
        ∀ ev ∈ rest, ev.call.client = some a ∧
          ∀ c resourceName replaceTags deleteTags,
            ev.call = .ModifyTagsOn c resourceName replaceTags deleteTags →
            resourceName = env.BuildTagResourceName "mongodb" "instance" a.Region
              (mongodbStandbyInstanceCreateBody env r a d tr).run.d.id) ∧
      ((d.GetOk "father_instance_id").2 = true → (d.GetOk "father_instance_region").2 = true →
        new ≠ []) := by
  constructor
  · exact creation_clients env r a d tr
  · obtain ⟨new, ht, hnew, hout⟩ := creation_shape env r a d tr
    have hrest : ∀ rest : List Event,
        (∀ ev ∈ rest, ∃ q masterInfo mt mv,
          r.DescribeInstanceByIdOn tr ⟨(d.Get "father_instance_region").asString⟩
            (d.Get "father_instance_id").asString = .ok (some masterInfo) ∧
          masterInfo.MachineType = some mt ∧ masterInfo.MongoVersion = some mv ∧
          ev.call.createRequest = some (a, q) ∧ ev.call.client = some a ∧
          q.MongoVersion = some mv ∧ q.MachineCode = some mt ∧
          q.Father = some (d.Get "father_instance_id").asString ∧
          q.Clone = some env.MONGO_INSTANCE_TYPE_STANDBY) →
        ∀ ev ∈ rest, ∀ id, ev.call.client = some a ∧
          ∀ c resourceName replaceTags deleteTags,
            ev.call = .ModifyTagsOn c resourceName replaceTags deleteTags →
            resourceName = env.BuildTagResourceName "mongodb" "instance" a.Region id := by
      intro rest hall ev hev id
      obtain ⟨q, _, _, _, _, _, _, h4, h5, _⟩ := hall ev hev
      refine ⟨h5, ?_⟩
      intro c resourceName replaceTags deleteTags he
      rw [he] at h4
      exact Option.noConfusion h4
    rw [body_run]
    rcases hout with ⟨ho, hd⟩ | ⟨ho, pre, c, id, hne, _, hd⟩
    · have hrun : ((mongodbStandbyInstanceCreateCreation env r ⟨a, a⟩ ⟨.client1⟩ d tr).run.andThen
          (mongodbStandbyInstanceCreateSteps env r ⟨a, a⟩ ⟨.apiV3Conn⟩ ⟨.apiV3Conn⟩ a.Region)).trace
          = (mongodbStandbyInstanceCreateCreation env r ⟨a, a⟩ ⟨.client1⟩ d tr).run.trace := by
        unfold Run.andThen
        cases hx : (mongodbStandbyInstanceCreateCreation env r ⟨a, a⟩ ⟨.client1⟩ d tr).run.out with
        | ok u => exact absurd hx ho
        | err e => rfl
        | panic => rfl
      refine ⟨new, by rw [hrun, ht], ?_, ?_⟩
      · rcases hnew with h | ⟨b, rest, hn, hall⟩
        · exact Or.inl h
        · exact Or.inr ⟨b, rest, _, hn, rfl, fun ev hev => hrest rest hall ev hev _⟩
      · intro h1 h2 hnil
        have hlt := creation_lookup_issued env r a d tr h1 h2
        rw [ht, hnil] at hlt
        simp at hlt
    · obtain ⟨hsd, snew, hst, hsall⟩ := steps_shape env r a a a.Region
        (mongodbStandbyInstanceCreateCreation env r ⟨a, a⟩ ⟨.client1⟩ d tr).run.d
        (mongodbStandbyInstanceCreateCreation env r ⟨a, a⟩ ⟨.client1⟩ d tr).run.trace
      simp only [Run.andThen, ho]
      refine ⟨new ++ snew, by rw [hst, ht, List.append_assoc], ?_,
        fun _ _ hnil => by rw [hne] at hnil; simp at hnil⟩
      rcases hnew with h | ⟨b, rest, hn, hall⟩
      · exfalso
        rw [h] at hne
        exact absurd hne (by simp)
      · refine Or.inr ⟨b, rest ++ snew, _, by rw [hn]; rfl, rfl, ?_⟩
        intro ev hev
        rcases List.mem_append.1 hev with h | h
        · exact hrest rest hall ev h _
        · rw [hsd]
          rcases hsall ev h with h1 | h1 | h1
          · exact ⟨by rw [h1]; rfl, fun c rn rt dt he => by rw [h1] at he; exact Call.noConfusion he⟩
          · exact ⟨by rw [h1]; rfl, fun c rn rt dt he => by rw [h1] at he; exact Call.noConfusion he⟩
          · refine ⟨by rw [h1]; rfl, fun c rn rt dt he => ?_⟩
            rw [h1] at he
            injection he with _ h2
            exact h2.symm

/-- Witness of C12: the documented example, whose father instance lives in
`ap-guangzhou` while the provider client is set to `ap-shanghai`. -/
theorem create_keeps_shared_client_witness :
    (resourceTencentCloudMongodbStandbyInstanceCreate sampleEnv remoteCreate sampleInstanceRead
      sampleClient sampleCreateData []).clients.apiV3Conn = sampleClient ∧
    (mongodbStandbyInstanceCreateBody sampleEnv remoteCreate sampleClient sampleCreateData
      []).run.trace.map (fun ev => ev.call.client.map (fun c => c.Region))
      = [some "ap-guangzhou", some "ap-shanghai", some "ap-shanghai", some "ap-shanghai",
          some "ap-shanghai", some "ap-shanghai"] :=
  ⟨(create_keeps_shared_client sampleEnv remoteCreate sampleInstanceRead sampleClient
      sampleCreateData []).1, by decide⟩

/-- Claim C16: when the lookup of the father instance returns an instance
(with machine type and version, which Create dereferences first) whose zone
equals the configured `available_zone`, Create returns the error
`standBy instance zoneId must not same with father instance's`, the only call
it has issued is that lookup, hence no creation call, and the resource data,
the id included, is what it was on entry. -/
theorem create_same_zone_rejected (env : Env) (r : Remote)
    (resourceTencentCloudMongodbInstanceRead : ResourceData → List Event → Run)
    (a : TencentCloudClient) (d : ResourceData) (tr : List Event)
    (masterInfo : InstanceDetail) (machineType mongoVersion : String)
    (hid : (d.GetOk "father_instance_id").2 = true)
    (hregion : (d.GetOk "father_instance_region").2 = true)
    (hfather : r.DescribeInstanceByIdOn tr ⟨(d.Get "father_instance_region").asString⟩
      (d.Get "father_instance_id").asString = .ok (some masterInfo))
    (hmt : masterInfo.MachineType = some machineType)
    (hmv : masterInfo.MongoVersion = some mongoVersion)
    (hzone : masterInfo.Zone = some (d.Get "available_zone").asString) :
    (resourceTencentCloudMongodbStandbyInstanceCreate env r
      resourceTencentCloudMongodbInstanceRead a d tr).run
      = ⟨d, tr ++ [⟨.DescribeInstanceByIdOn ⟨(d.Get "father_instance_region").asString⟩
            (d.Get "father_instance_id").asString, true⟩],
          .err (.Errorf
            "[CRITAL] standBy instance zoneId must not same with father instance's")⟩ := by
  have hfid : mapGet (mapAssign [] "father_instance_id" (d.Get "father_instance_id").asString)
      "father_instance_id" = (d.Get "father_instance_id").asString := by
    rw [mapGet_mapAssign, if_pos rfl]
  have hx : (mongodbStandbyInstanceCreateCreation env r ⟨a, a⟩ ⟨.client1⟩ d tr).run
      = ⟨d, tr ++ [⟨.DescribeInstanceByIdOn ⟨(d.Get "father_instance_region").asString⟩
            (d.Get "father_instance_id").asString, true⟩],
          .err (.Errorf
            "[CRITAL] standBy instance zoneId must not same with father instance's")⟩ := by
    unfold mongodbStandbyInstanceCreateCreation
    simp only [callVal, record, ClientStore.setRegion, ClientStore.deref, hfid, hid, hregion,
      hfather, hmt, hmv, hzone]
    simp
  exact create_of_creation_fails env r _ a d tr _ _ hx rfl

/-- Witness of C16: the documented example with the zone of its father. -/
theorem create_same_zone_rejected_witness :
    sampleFather.Zone = some (sampleCreateSameZone.Get "available_zone").asString ∧
    (resourceTencentCloudMongodbStandbyInstanceCreate sampleEnv remoteCreate sampleInstanceRead
      sampleClient sampleCreateSameZone []).run
      = ⟨sampleCreateSameZone,
          [] ++ [⟨.DescribeInstanceByIdOn
            ⟨(sampleCreateSameZone.Get "father_instance_region").asString⟩
            (sampleCreateSameZone.Get "father_instance_id").asString, true⟩],
          .err (.Errorf
            "[CRITAL] standBy instance zoneId must not same with father instance's")⟩ :=
  ⟨by decide,
    create_same_zone_rejected sampleEnv remoteCreate sampleInstanceRead sampleClient
      sampleCreateSameZone [] sampleFather "HIO10G" "MONGO_36_WT" (by decide) (by decide) rfl
      (by decide) (by decide) (by decide)⟩

theorem createInstance_billing (env : Env) (r : Remote) (a : TencentCloudClient)
    (m : List (String × String)) (d : ResourceData) (tr : List Event)
    (hbill : ((d.Get "charge_type").asString = env.MONGODB_CHARGE_TYPE_POSTPAID ∧
        ((d.GetOk "prepaid_period").2 = true ∨ (d.GetOk "auto_renew_flag").2 = true)) ∨
      ((d.Get "charge_type").asString ≠ env.MONGODB_CHARGE_TYPE_POSTPAID ∧
        (d.GetOk "prepaid_period").2 = false)) :
    ∃ e, mongodbStandbyInstanceCreateInstance env r a m d tr = ⟨d, tr, .err e⟩ := by
  unfold mongodbStandbyInstanceCreateInstance
  rcases hbill with ⟨h1, h2⟩ | ⟨h1, h2⟩
  · have h3 : ((d.GetOk "prepaid_period").2 || (d.GetOk "auto_renew_flag").2) = true := by
      rcases h2 with h | h <;> simp [h]
    simp only [h1, h3, if_true]
    exact ⟨_, rfl⟩
  · simp only [h1, if_false]
    have hne := reqSet_month_period env newCreateDBInstanceRequest d m h2
    unfold mongodbCreateStandbyInstanceByMonth
    rcases hq : mongodbAllStandbyInstanceReqSet env .CreateDBInstanceRequest
      newCreateDBInstanceRequest d m with ⟨req, oe⟩
    rw [hq] at hne
    cases oe with
    | none => exact absurd rfl hne
    | some e => exact ⟨e, rfl⟩

/-- Claim C20: when `charge_type` is the postpaid charge type and
`prepaid_period` or `auto_renew_flag` is set, and when `charge_type` is any
other charge type and `prepaid_period` is not set, Create returns an error, has
issued no creation call (its only call, if any, is the lookup of the father
instance), and leaves the resource data, the id included, as it was on entry.
The lookup is taken to return, when it returns an instance, one with machine
type, version and zone. -/
theorem create_billing_checked (env : Env) (r : Remote)
    (resourceTencentCloudMongodbInstanceRead : ResourceData → List Event → Run)
    (a : TencentCloudClient) (d : ResourceData) (tr : List Event)
    (hfather : ∀ masterInfo,
      r.DescribeInstanceByIdOn tr ⟨(d.Get "father_instance_region").asString⟩
        (d.Get "father_instance_id").asString = .ok (some masterInfo) →
      masterInfo.MachineType ≠ none ∧ masterInfo.MongoVersion ≠ none ∧ masterInfo.Zone ≠ none)
    (hbill : ((d.Get "charge_type").asString = env.MONGODB_CHARGE_TYPE_POSTPAID ∧
        ((d.GetOk "prepaid_period").2 = true ∨ (d.GetOk "auto_renew_flag").2 = true)) ∨
      ((d.Get "charge_type").asString ≠ env.MONGODB_CHARGE_TYPE_POSTPAID ∧
        (d.GetOk "prepaid_period").2 = false)) :
    ∃ e new, (resourceTencentCloudMongodbStandbyInstanceCreate env r
        resourceTencentCloudMongodbInstanceRead a d tr).run = ⟨d, tr ++ new, .err e⟩ ∧
      (new = [] ∨ ∃ b, new = [⟨.DescribeInstanceByIdOn
        ⟨(d.Get "father_instance_region").asString⟩ (d.Get "father_instance_id").asString, b⟩]) ∧
      ∀ ev ∈ new, ev.call.createRequest = none := by
  have hfid : mapGet (mapAssign [] "father_instance_id" (d.Get "father_instance_id").asString)
      "father_instance_id" = (d.Get "father_instance_id").asString := by
    rw [mapGet_mapAssign, if_pos rfl]
  have key : ∃ e new, (mongodbStandbyInstanceCreateCreation env r ⟨a, a⟩ ⟨.client1⟩ d tr).run
        = ⟨d, tr ++ new, .err e⟩ ∧
      (new = [] ∨ ∃ b, new = [⟨.DescribeInstanceByIdOn
        ⟨(d.Get "father_instance_region").asString⟩
        (d.Get "father_instance_id").asString, b⟩]) := by
    unfold mongodbStandbyInstanceCreateCreation
    simp only [callVal, record, ClientStore.setRegion, ClientStore.deref, hfid]
    split_ifs with h1 h2
    · exact ⟨_, [], by rw [List.append_nil], Or.inl rfl⟩
    · exact ⟨_, [], by rw [List.append_nil], Or.inl rfl⟩
    · cases hd : r.DescribeInstanceByIdOn tr ⟨(d.Get "father_instance_region").asString⟩
          (d.Get "father_instance_id").asString with
      | error e => exact ⟨_, [_], rfl, Or.inr ⟨_, rfl⟩⟩
      | ok o =>
          cases o with
          | none => exact ⟨_, [_], rfl, Or.inr ⟨_, rfl⟩⟩
          | some masterInfo =>
              obtain ⟨n1, n2, n3⟩ := hfather masterInfo hd
              simp only
              cases hmt : masterInfo.MachineType with
              | none => exact absurd hmt n1
              | some mt =>
                  cases hmv : masterInfo.MongoVersion with
                  | none => exact absurd hmv n2
                  | some mv =>
                      cases hz : masterInfo.Zone with
                      | none => exact absurd hz n3
                      | some zone =>
                          simp only
                          split_ifs with h3 h4
                          · exact ⟨_, [_], rfl, Or.inr ⟨_, rfl⟩⟩
                          · exact ⟨_, [_], rfl, Or.inr ⟨_, rfl⟩⟩
                          · obtain ⟨e, he⟩ := createInstance_billing env r a
                              (mapAssign (mapAssign (mapAssign [] "father_instance_id"
                                (d.Get "father_instance_id").asString) "machine_type" mt)
                                "engine_version" mv) d
                              (tr ++ [⟨.DescribeInstanceByIdOn
                                ⟨(d.Get "father_instance_region").asString⟩
                                (d.Get "father_instance_id").asString, true⟩]) hbill
                            rw [he]
                            exact ⟨e, [_], rfl, Or.inr ⟨_, rfl⟩⟩
  obtain ⟨e, new, hx, hnew⟩ := key
  refine ⟨e, new, create_of_creation_fails env r _ a d tr _ e hx rfl, hnew, ?_⟩
  intro ev hev
  rcases hnew with h | ⟨b, h⟩
  · rw [h] at hev; simp at hev
  · rw [h] at hev
    simp only [List.mem_singleton] at hev
    rw [hev]
    rfl

/-- The father instance of the sample remote is complete. -/
theorem remoteCreate_father_complete (d : ResourceData) (masterInfo : InstanceDetail)
    (hr : (d.Get "father_instance_region").asString = "ap-guangzhou")
    (h : remoteCreate.DescribeInstanceByIdOn [] ⟨(d.Get "father_instance_region").asString⟩
      (d.Get "father_instance_id").asString = .ok (some masterInfo)) :
    masterInfo.MachineType ≠ none ∧ masterInfo.MongoVersion ≠ none ∧ masterInfo.Zone ≠ none := by
  have h2 : remoteCreate.DescribeInstanceByIdOn [] ⟨(d.Get "father_instance_region").asString⟩
      (d.Get "father_instance_id").asString = .ok (some sampleFather) := by
    rw [hr]; rfl
  rw [h2] at h
  injection h with h
  injection h with h
  subst h
  decide

/-- Witness of C20: the documented example charged by the hour with
`prepaid_period` set, and the documented example prepaid without
`prepaid_period`. -/
theorem create_billing_checked_witness :
    ((sampleCreatePostpaidPeriod.Get "charge_type").asString
        = sampleEnv.MONGODB_CHARGE_TYPE_POSTPAID ∧
      (sampleCreatePostpaidPeriod.GetOk "prepaid_period").2 = true) ∧
    ((sampleCreatePrepaidNoPeriod.Get "charge_type").asString
        ≠ sampleEnv.MONGODB_CHARGE_TYPE_POSTPAID ∧
      (sampleCreatePrepaidNoPeriod.GetOk "prepaid_period").2 = false) ∧
    (∃ e new, (resourceTencentCloudMongodbStandbyInstanceCreate sampleEnv remoteCreate
        sampleInstanceRead sampleClient sampleCreatePostpaidPeriod []).run
          = ⟨sampleCreatePostpaidPeriod, [] ++ new, .err e⟩ ∧
        ∀ ev ∈ new, ev.call.createRequest = none) ∧
    (∃ e new, (resourceTencentCloudMongodbStandbyInstanceCreate sampleEnv remoteCreate
        sampleInstanceRead sampleClient sampleCreatePrepaidNoPeriod []).run
          = ⟨sampleCreatePrepaidNoPeriod, [] ++ new, .err e⟩ ∧
        ∀ ev ∈ new, ev.call.createRequest = none) := by
  refine ⟨by decide, by decide, ?_, ?_⟩
  · obtain ⟨e, new, h1, _, h3⟩ := create_billing_checked sampleEnv remoteCreate
      sampleInstanceRead sampleClient sampleCreatePostpaidPeriod []
      (fun m h => remoteCreate_father_complete sampleCreatePostpaidPeriod m (by decide) h)
      (Or.inl (by decide))
    exact ⟨e, new, h1, h3⟩
  · obtain ⟨e, new, h1, _, h3⟩ := create_billing_checked sampleEnv remoteCreate
      sampleInstanceRead sampleClient sampleCreatePrepaidNoPeriod []
      (fun m h => remoteCreate_father_complete sampleCreatePrepaidNoPeriod m (by decide) h)
      (Or.inr (by decide))
    exact ⟨e, new, h1, h3⟩

/-- Claim C11: once the creation call has succeeded and returned the instance
id `id`, so that Create has stored it, each way in which a later step can fail
(the existence check fails or finds nothing, the rename fails, the second
existence check fails or finds nothing, the tag call fails) makes Create return
the error of that step, with the stored id still `id`, and with a call history
that ends with the failed call: the calls after the creation are existence
checks, the rename and the tag call only, no isolate, offline or delete call. -/
theorem create_no_rollback (env : Env) (r : Remote)
    (resourceTencentCloudMongodbInstanceRead : ResourceData → List Event → Run)
    (a : TencentCloudClient) (d : ResourceData) (tr : List Event)
    (hcreated : (mongodbStandbyInstanceCreateCreation env r ⟨a, a⟩ ⟨.client1⟩ d tr).run.out
      = .ok ()) :
    ∃ id t1,
      (∃ pre c, t1 = tr ++ pre ++ [⟨c, true⟩] ∧ createdInstanceId r (tr ++ pre) c = some id) ∧
      (mongodbStandbyInstanceCreateCreation env r ⟨a, a⟩ ⟨.client1⟩ d tr).run
        = ⟨d.SetId id, t1, .ok ()⟩ ∧
      (∀ e, r.DescribeInstanceByIdOn t1 a id = .error e →
        (resourceTencentCloudMongodbStandbyInstanceCreate env r
          resourceTencentCloudMongodbInstanceRead a d tr).run
          = ⟨d.SetId id, t1 ++ [⟨.DescribeInstanceByIdOn a id, false⟩], .err (.Remote e)⟩) ∧
      (r.DescribeInstanceByIdOn t1 a id = .ok none →
        (resourceTencentCloudMongodbStandbyInstanceCreate env r
          resourceTencentCloudMongodbInstanceRead a d tr).run
          = ⟨d.SetId id, t1 ++ [⟨.DescribeInstanceByIdOn a id, true⟩],
              .err (.Errorf ("[CRITAL]" ++ env.logId ++
                " creating mongodb standby instance failed, instance doesn't exist"))⟩) ∧
      (∀ i e, r.DescribeInstanceByIdOn t1 a id = .ok (some i) →
        r.ModifyInstanceNameOn (t1 ++ [⟨.DescribeInstanceByIdOn a id, true⟩]) a id
          (d.Get "instance_name").asString = some e →
        (resourceTencentCloudMongodbStandbyInstanceCreate env r
          resourceTencentCloudMongodbInstanceRead a d tr).run
          = ⟨d.SetId id, t1 ++ [⟨.DescribeInstanceByIdOn a id, true⟩,
              ⟨.ModifyInstanceNameOn a id (d.Get "instance_name").asString, false⟩],
              .err (.Remote e)⟩) ∧
      (∀ i e, r.DescribeInstanceByIdOn t1 a id = .ok (some i) →
        r.ModifyInstanceNameOn (t1 ++ [⟨.DescribeInstanceByIdOn a id, true⟩]) a id
          (d.Get "instance_name").asString = none →
        r.DescribeInstanceByIdOn (t1 ++ [⟨.DescribeInstanceByIdOn a id, true⟩,
          ⟨.ModifyInstanceNameOn a id (d.Get "instance_name").asString, true⟩]) a id
          = .error e →
        (resourceTencentCloudMongodbStandbyInstanceCreate env r
          resourceTencentCloudMongodbInstanceRead a d tr).run
          = ⟨d.SetId id, t1 ++ [⟨.DescribeInstanceByIdOn a id, true⟩,
              ⟨.ModifyInstanceNameOn a id (d.Get "instance_name").asString, true⟩,
              ⟨.DescribeInstanceByIdOn a id, false⟩], .err (.Remote e)⟩) ∧
      (∀ i, r.DescribeInstanceByIdOn t1 a id = .ok (some i) →
        r.ModifyInstanceNameOn (t1 ++ [⟨.DescribeInstanceByIdOn a id, true⟩]) a id
          (d.Get "instance_name").asString = none →
        r.DescribeInstanceByIdOn (t1 ++ [⟨.DescribeInstanceByIdOn a id, true⟩,
          ⟨.ModifyInstanceNameOn a id (d.Get "instance_name").asString, true⟩]) a id
          = .ok none →
        (resourceTencentCloudMongodbStandbyInstanceCreate env r
          resourceTencentCloudMongodbInstanceRead a d tr).run
          = ⟨d.SetId id, t1 ++ [⟨.DescribeInstanceByIdOn a id, true⟩,
              ⟨.ModifyInstanceNameOn a id (d.Get "instance_name").asString, true⟩,
              ⟨.DescribeInstanceByIdOn a id, true⟩],
              .err (.Errorf ("[CRITAL]" ++ env.logId ++
                " creating mongodb instance failed, instance doesn't exist"))⟩) ∧
      (∀ i j e, r.DescribeInstanceByIdOn t1 a id = .ok (some i) →
        r.ModifyInstanceNameOn (t1 ++ [⟨.DescribeInstanceByIdOn a id, true⟩]) a id
          (d.Get "instance_name").asString = none →
        r.DescribeInstanceByIdOn (t1 ++ [⟨.DescribeInstanceByIdOn a id, true⟩,
          ⟨.ModifyInstanceNameOn a id (d.Get "instance_name").asString, true⟩]) a id
          = .ok (some j) →
        (d.Get "tags").asMap.length > 0 →
        r.ModifyTagsOn (t1 ++ [⟨.DescribeInstanceByIdOn a id, true⟩,
          ⟨.ModifyInstanceNameOn a id (d.Get "instance_name").asString, true⟩,
          ⟨.DescribeInstanceByIdOn a id, true⟩]) a
          (env.BuildTagResourceName "mongodb" "instance" a.Region id)
          (d.Get "tags").asMap [] = some e →
        (resourceTencentCloudMongodbStandbyInstanceCreate env r
          resourceTencentCloudMongodbInstanceRead a d tr).run
          = ⟨d.SetId id, t1 ++ [⟨.DescribeInstanceByIdOn a id, true⟩,
              ⟨.ModifyInstanceNameOn a id (d.Get "instance_name").asString, true⟩,
              ⟨.DescribeInstanceByIdOn a id, true⟩,
              ⟨.ModifyTagsOn a (env.BuildTagResourceName "mongodb" "instance" a.Region id)
                (d.Get "tags").asMap [], false⟩], .err (.Remote e)⟩) := by
  obtain ⟨new, ht, _, hout⟩ := creation_shape env r a d tr
  rcases hout with ⟨ho, _⟩ | ⟨_, pre, c, id, hne, hid, hd⟩
  · exact absurd hcreated ho
  have hx : (mongodbStandbyInstanceCreateCreation env r ⟨a, a⟩ ⟨.client1⟩ d tr).run
      = ⟨d.SetId id, tr ++ pre ++ [⟨c, true⟩], .ok ()⟩ := by
    rcases hrun : (mongodbStandbyInstanceCreateCreation env r ⟨a, a⟩ ⟨.client1⟩ d tr).run
      with ⟨xd, xt, xo⟩
    rw [hrun] at ht hd hcreated
    simp only at ht hd hcreated
    rw [ht, hd, hcreated, hne, List.append_assoc]
  have hget : ∀ k, (d.SetId id).Get k = d.Get k := fun _ => rfl
  have hidd : (d.SetId id).id = id := rfl
  have hcre : (resourceTencentCloudMongodbStandbyInstanceCreate env r
      resourceTencentCloudMongodbInstanceRead a d tr).run
      = ((mongodbStandbyInstanceCreateSteps env r ⟨a, a⟩ ⟨.apiV3Conn⟩ ⟨.apiV3Conn⟩ a.Region
          (d.SetId id) (tr ++ pre ++ [⟨c, true⟩])).andThen
          resourceTencentCloudMongodbInstanceRead) := by
    unfold resourceTencentCloudMongodbStandbyInstanceCreate
    simp only [body_run, hx, Run.andThen]
  refine ⟨id, tr ++ pre ++ [⟨c, true⟩], ⟨pre, c, rfl, hid⟩, hx, ?_⟩
  generalize tr ++ pre ++ [(⟨c, true⟩ : Event)] = t1 at hcre
  refine ⟨?_, ?_, ?_, ?_, ?_, ?_⟩
  · intro e h1
    rw [hcre]
    simp [mongodbStandbyInstanceCreateSteps, callVal, callErr, record, ClientStore.deref, hget,
      hidd, h1, Run.andThen]
  · intro h1
    rw [hcre]
    simp [mongodbStandbyInstanceCreateSteps, callVal, callErr, record, ClientStore.deref, hget,
      hidd, h1, Run.andThen]
  · intro i e h1 h2
    rw [hcre]
    simp [mongodbStandbyInstanceCreateSteps, callVal, callErr, record, ClientStore.deref, hget,
      hidd, h1, h2, Run.andThen]
  · intro i e h1 h2 h3
    rw [hcre]
    simp [mongodbStandbyInstanceCreateSteps, callVal, callErr, record, ClientStore.deref, hget,
      hidd, h1, h2, h3, Run.andThen]
  · intro i h1 h2 h3
    rw [hcre]
    simp [mongodbStandbyInstanceCreateSteps, callVal, callErr, record, ClientStore.deref, hget,
      hidd, h1, h2, h3, Run.andThen]
  · intro i j e h1 h2 h3 h4 h5
    rw [hcre]
    simp [mongodbStandbyInstanceCreateSteps, callVal, callErr, record, ClientStore.deref, hget,
      hidd, h1, h2, h3, h4, h5, Run.andThen]

/-- Witness of C11: the documented example on a remote whose rename fails. -/
theorem create_no_rollback_witness :
    (mongodbStandbyInstanceCreateCreation sampleEnv remoteCreateRenameFails
      ⟨sampleClient, sampleClient⟩ ⟨.client1⟩ sampleCreateData []).run.out = .ok () ∧
    (resourceTencentCloudMongodbStandbyInstanceCreate sampleEnv remoteCreateRenameFails
      sampleInstanceRead sampleClient sampleCreateData []).run.d.id = "cmgo-41s6jwy4" ∧
    (resourceTencentCloudMongodbStandbyInstanceCreate sampleEnv remoteCreateRenameFails
      sampleInstanceRead sampleClient sampleCreateData []).run.out
        = .err (.Remote ⟨"InternalError"⟩) ∧
    ∃ id t1, (mongodbStandbyInstanceCreateCreation sampleEnv remoteCreateRenameFails
      ⟨sampleClient, sampleClient⟩ ⟨.client1⟩ sampleCreateData []).run
        = ⟨sampleCreateData.SetId id, t1, .ok ()⟩ := by
  refine ⟨by decide, by decide, by decide, ?_⟩
  obtain ⟨id, t1, _, h, _⟩ := create_no_rollback sampleEnv remoteCreateRenameFails
    sampleInstanceRead sampleClient sampleCreateData [] (by decide)
  exact ⟨id, t1, h⟩

/-! ### The VPN client cert Read and the immutable `api_id` -/

/-- Claim C21: when the SSL client is found, Read returns nil after the one
describe call and, besides the write of `ssl_vpn_client_id` (made when that
field is not nil), it writes `switch = "on"` when `CertStatus` is 1, writes
`switch = "off"` when `CertStatus` is 2, and writes nothing else, `switch` in
particular, when `CertStatus` is nil or holds any other value. -/
theorem vpn_read_maps_cert_status (r : Remote) (d : ResourceData) (tr : List Event)
    (cert : SslVpnClient) (hfound : r.DescribeVpnSslClientById tr d.id = .ok (some cert)) :
    (cert.CertStatus = some 1 →
      resourceTencentCloudVpnGatewaySslClientCertRead r d tr
        = ⟨(d.SetNonNil "ssl_vpn_client_id" (cert.SslVpnClientId.map .str)).Set "switch"
            (.str "on"), tr ++ [⟨.DescribeVpnSslClientById d.id, true⟩], .ok ()⟩) ∧
    (cert.CertStatus = some 2 →
      resourceTencentCloudVpnGatewaySslClientCertRead r d tr
        = ⟨(d.SetNonNil "ssl_vpn_client_id" (cert.SslVpnClientId.map .str)).Set "switch"
            (.str "off"), tr ++ [⟨.DescribeVpnSslClientById d.id, true⟩], .ok ()⟩) ∧
    ((cert.CertStatus = none ∨ ∃ n, cert.CertStatus = some n ∧ n ≠ 1 ∧ n ≠ 2) →
      resourceTencentCloudVpnGatewaySslClientCertRead r d tr
        = ⟨d.SetNonNil "ssl_vpn_client_id" (cert.SslVpnClientId.map .str),
            tr ++ [⟨.DescribeVpnSslClientById d.id, true⟩], .ok ()⟩) ∧
    ((d.SetNonNil "ssl_vpn_client_id" (cert.SslVpnClientId.map .str)).sets = d.sets ∨
      ∃ v, (d.SetNonNil "ssl_vpn_client_id" (cert.SslVpnClientId.map .str)).sets
        = d.sets ++ [("ssl_vpn_client_id", v)]) := by
  refine ⟨?_, ?_, ?_, ?_⟩
  · intro h
    simp [resourceTencentCloudVpnGatewaySslClientCertRead, callVal, record, hfound, h]
  · intro h
    simp [resourceTencentCloudVpnGatewaySslClientCertRead, callVal, record, hfound, h]
  · intro h
    rcases h with h | ⟨n, h, h1, h2⟩
    · simp [resourceTencentCloudVpnGatewaySslClientCertRead, callVal, record, hfound, h]
    · simp [resourceTencentCloudVpnGatewaySslClientCertRead, callVal, record, hfound, h, h1, h2]
  · cases cert.SslVpnClientId with
    | none => exact Or.inl rfl
    | some s => exact Or.inr ⟨_, rfl⟩

/-- Witness of C21: a client whose certificate is disabled. -/
theorem vpn_read_maps_cert_status_witness :
    (remoteVpnClient (some 2)).DescribeVpnSslClientById [] (sampleVpnData "on").id
      = .ok (some ⟨some "vpnc-5n4mbhwt", some 2⟩) ∧
    (resourceTencentCloudVpnGatewaySslClientCertRead (remoteVpnClient (some 2))
      (sampleVpnData "on") []).d.sets
      = [("ssl_vpn_client_id", .str "vpnc-5n4mbhwt"), ("switch", .str "off")] :=
  ⟨rfl, by
    rw [(vpn_read_maps_cert_status (remoteVpnClient (some 2)) (sampleVpnData "on") []
      ⟨some "vpnc-5n4mbhwt", some 2⟩ rfl).2.1 rfl]
    decide⟩

/-- Claim C23: for an id that splits into two parts, when `api_id` has
changed, Update returns the error "argument `api_id` cannot be changed",
issues no call and writes nothing. -/
theorem tsf_update_api_id_immutable (env : Env) (r : Remote) (d : ResourceData)
    (tr : List Event) (hid : (Split d.id FILED_SP).length = 2)
    (hchange : d.HasChange "api_id" = true) :
    resourceTencentCloudTsfApiRateLimitRuleUpdate env r d tr
      = ⟨d, tr, .err (.Errorf "argument `api_id` cannot be changed")⟩ := by
  simp only [resourceTencentCloudTsfApiRateLimitRuleUpdate, hid, hchange]
  rfl

/-- Witness of C23: a stored rule whose `api_id` is to change. -/
theorem tsf_update_api_id_immutable_witness :
    (Split sampleRuleApiChange.id FILED_SP).length = 2 ∧
    sampleRuleApiChange.HasChange "api_id" = true ∧
    resourceTencentCloudTsfApiRateLimitRuleUpdate sampleEnv remoteAbsent sampleRuleApiChange []
      = ⟨sampleRuleApiChange, [], .err (.Errorf "argument `api_id` cannot be changed")⟩ :=
  ⟨by decide, by decide,
    tsf_update_api_id_immutable sampleEnv remoteAbsent sampleRuleApiChange [] (by decide)
      (by decide)⟩

/-! ### The tags that the standby-instance Read stores -/

theorem mapAssign_keys_nodup (m : List (String × String)) (k v : String)
    (h : (m.map Prod.fst).Nodup) : ((mapAssign m k v).map Prod.fst).Nodup := by
  unfold mapAssign
  by_cases hex : (m.any fun p => p.1 == k) = true
  · rw [if_pos hex]
    have : (m.map (fun p => if p.1 == k then (k, v) else p)).map Prod.fst = m.map Prod.fst := by
      rw [List.map_map]
      apply List.map_congr_left
      intro p _
      by_cases hp : p.1 = k
      · simp [hp]
      · simp [hp]
    rw [this]; exact h
  · rw [if_neg hex]
    rw [List.map_append, List.nodup_append]
    refine ⟨h, by simp, ?_⟩
    intro a ha hb
    simp only [List.map_cons, List.map_nil, List.mem_singleton] at hb
    subst hb
    apply hex
    obtain ⟨p, hp, hpk⟩ := List.mem_map.1 ha
    simp only [List.any_eq_true, beq_iff_eq]
    exact ⟨p, hp, hpk⟩

theorem lookup_append (l1 l2 : List (String × String)) (k : String) :
    (l1 ++ l2).lookup k = (l1.lookup k).orElse (fun _ => l2.lookup k) := by
  induction l1 with
  | nil => rfl
  | cons a t ih =>
      obtain ⟨a1, a2⟩ := a
      simp only [List.cons_append, lookup_cons_eq, ih]
      by_cases hk : k = a1
      · simp [hk, Option.orElse]
      · simp [hk]

/-- The tag loop on tags that all have key and value. -/
theorem readTags_complete (tags : List (Option TagInfo))
    (hall : ∀ t ∈ tags, ∃ k v, t = some ⟨some k, some v⟩) :
    ∀ acc : List (String × String), ∃ m, readTags tags acc = .ok m ∧
      ((acc.map Prod.fst).Nodup → (m.map Prod.fst).Nodup) ∧
      m.lookup "project" = acc.lookup "project" ∧
      ∀ k, k ≠ "project" →
        m.lookup k = ((remoteTagPairs tags).reverse.lookup k).orElse (fun _ => acc.lookup k) := by
  induction tags with
  | nil =>
      intro acc
      exact ⟨acc, rfl, id, rfl, fun k _ => by simp [remoteTagPairs, Option.orElse]⟩
  | cons t rest ih =>
      intro acc
      obtain ⟨k0, v0, ht⟩ := hall t (List.mem_cons_self _ _)
      subst ht
      have hrest : ∀ t ∈ rest, ∃ k v, t = some ⟨some k, some v⟩ :=
        fun t h => hall t (List.mem_cons_of_mem _ h)
      have hpairs : remoteTagPairs (some ⟨some k0, some v0⟩ :: rest)
          = (k0, v0) :: remoteTagPairs rest := by
        simp [remoteTagPairs]
      by_cases hp : k0 = "project"
      · obtain ⟨m, hm, hnd, hproj, hlk⟩ := ih hrest acc
        refine ⟨m, by simp [readTags, hp, hm], hnd, hproj, ?_⟩
        intro k hk
        rw [hlk k hk, hpairs, List.reverse_cons, lookup_append]
        have hne : ¬ k = k0 := by rw [hp]; exact hk
        cases (remoteTagPairs rest).reverse.lookup k with
        | some x => rfl
        | none => simp [Option.orElse, lookup_cons_eq, hne]
      · obtain ⟨m, hm, hnd, hproj, hlk⟩ := ih hrest (mapAssign acc k0 v0)
        refine ⟨m, by simp [readTags, hp, hm],
          fun h => hnd (mapAssign_keys_nodup acc k0 v0 h), ?_, ?_⟩
        · rw [hproj, lookup_mapAssign, if_neg (fun e => hp e.symm)]
        · intro k hk
          rw [hlk k hk, hpairs, List.reverse_cons, lookup_append, lookup_mapAssign]
          cases (remoteTagPairs rest).reverse.lookup k with
          | some x => rfl
          | none =>
              by_cases hkk : k = k0
              · simp [Option.orElse, lookup_cons_eq, hkk]
              · simp [Option.orElse, lookup_cons_eq, hkk]

/-- The tag loop on tags one of which lacks its key or its value. -/
theorem readTags_nil_field (tags : List (Option TagInfo)) (hptr : ∀ t ∈ tags, t ≠ none)
    (hnil : ∃ t ∈ tags, ∃ tag, t = some tag ∧ (tag.TagKey = none ∨ tag.TagValue = none)) :
    ∀ acc : List (String × String),
      readTags tags acc = .err (.Errorf "mongodb tag key is nil") ∨
      readTags tags acc = .err (.Errorf "mongodb tag value is nil") := by
  induction tags with
  | nil =>
      obtain ⟨t, ht, _⟩ := hnil
      simp at ht
  | cons t rest ih =>
      intro acc
      cases t with
      | none => exact absurd rfl (hptr none (List.mem_cons_self _ _))
      | some tag =>
          obtain ⟨tk, tv⟩ := tag
          cases tk with
          | none => exact Or.inl (by simp [readTags])
          | some k0 =>
              cases tv with
              | none => exact Or.inr (by simp [readTags])
              | some v0 =>
                  have hrest : ∃ t ∈ rest, ∃ tag, t = some tag ∧
                      (tag.TagKey = none ∨ tag.TagValue = none) := by
                    obtain ⟨t, ht, tag, he, hor⟩ := hnil
                    rcases List.mem_cons.1 ht with h | h
                    · subst h
                      simp only [Option.some.injEq] at he
                      subst he
                      rcases hor with h | h <;> exact Option.noConfusion h
                    · exact ⟨t, h, tag, he, hor⟩
                  have ih2 := ih (fun t h => hptr t (List.mem_cons_of_mem _ h)) hrest
                  by_cases hp : k0 = "project"
                  · simpa [readTags, hp] using ih2 acc
                  · simpa [readTags, hp] using ih2 (mapAssign acc k0 v0)

theorem CheckNil_nil (inst : InstanceDetail) (h : CheckNil inst = []) :
    inst.Memory ≠ none ∧ inst.Volume ≠ none ∧ inst.MachineType ≠ none := by
  unfold CheckNil at h
  simp only [List.append_eq_nil] at h
  obtain ⟨⟨⟨_, hm⟩, hv⟩, hmt⟩ := h
  refine ⟨?_, ?_, ?_⟩
  · intro e; rw [e] at hm; simp at hm
  · intro e; rw [e] at hv; simp at hv
  · intro e; rw [e] at hmt; simp at hmt

theorem readRest_tags (inst : InstanceDetail) (d : ResourceData) (tr : List Event)
    (hmt : inst.MachineType ≠ none) :
    (∀ e, readTags inst.Tags [] = .err e →
      (mongodbStandbyInstanceReadRest inst d tr).out = .err e) ∧
    (∀ m, readTags inst.Tags [] = .ok m →
      (mongodbStandbyInstanceReadRest inst d tr).out = .ok () ∧
      (mongodbStandbyInstanceReadRest inst d tr).d.sets.getLast? = some ("tags", .map m)) := by
  cases h : inst.MachineType with
  | none => exact absurd h hmt
  | some mt =>
      constructor
      · intro e he
        simp only [mongodbStandbyInstanceReadRest, h, he]
      · intro m hm
        simp only [mongodbStandbyInstanceReadRest, h, hm]
        exact ⟨trivial, by simp [ResourceData.Set]⟩

theorem standbyRead_reaches_rest (env : Env) (r : Remote) (d : ResourceData) (tr : List Event)
    (inst : InstanceDetail) (payMode : Nat)
    (hfound : r.DescribeInstanceById tr d.id = .ok (some inst))
    (hnil : CheckNil inst = []) (hpay : inst.PayMode = some payMode)
    (hrenew : env.MONGODB_CHARGE_TYPE payMode = env.MONGODB_CHARGE_TYPE_PREPAID →
      inst.AutoRenewFlag ≠ none) :
    ∃ d1, resourceTencentCloudMongodbStandbyInstanceRead env r d tr
      = mongodbStandbyInstanceReadRest inst d1 (tr ++ [⟨.DescribeInstanceById d.id, true⟩]) := by
  obtain ⟨h1, h2, _⟩ := CheckNil_nil inst hnil
  cases hm : inst.Memory with
  | none => exact absurd hm h1
  | some mem =>
  cases hv : inst.Volume with
  | none => exact absurd hv h2
  | some vol =>
  simp only [resourceTencentCloudMongodbStandbyInstanceRead, callVal, record, hfound, hnil, hm,
    hv, hpay]
  by_cases hp : env.MONGODB_CHARGE_TYPE payMode = env.MONGODB_CHARGE_TYPE_PREPAID
  · cases ha : inst.AutoRenewFlag with
    | none => exact absurd ha (hrenew hp)
    | some flag =>
        simp only [hp, if_true]
        exact ⟨_, rfl⟩
  · simp only [hp, if_false]
    exact ⟨_, rfl⟩

/-- Claim C22, for a Read that reaches the tag loop (the instance is found, no
checked field is nil, the pay mode is there, and so is the renew flag of a
prepaid instance) and a list of tags without nil pointer.  When every tag has
key and value, Read returns nil and the last write is that of `tags`, a map
that has no key `project` and maps every other key to the value of the last
remote tag with that key (and no key twice).  When a tag lacks its key or its
value, Read returns the error `mongodb tag key is nil` or
`mongodb tag value is nil`. -/
theorem standby_read_tags (env : Env) (r : Remote) (d : ResourceData) (tr : List Event)
    (inst : InstanceDetail) (payMode : Nat)
    (hfound : r.DescribeInstanceById tr d.id = .ok (some inst))
    (hnil : CheckNil inst = []) (hpay : inst.PayMode = some payMode)
    (hrenew : env.MONGODB_CHARGE_TYPE payMode = env.MONGODB_CHARGE_TYPE_PREPAID →
      inst.AutoRenewFlag ≠ none)
    (hptr : ∀ t ∈ inst.Tags, t ≠ none) :
    ((∀ t ∈ inst.Tags, ∀ tag, t = some tag → tag.TagKey ≠ none ∧ tag.TagValue ≠ none) →
      ∃ m, (resourceTencentCloudMongodbStandbyInstanceRead env r d tr).out = .ok () ∧
        (resourceTencentCloudMongodbStandbyInstanceRead env r d tr).d.sets.getLast?
          = some ("tags", .map m) ∧
        "project" ∉ m.map Prod.fst ∧ (m.map Prod.fst).Nodup ∧
        ∀ k, k ≠ "project" → m.lookup k = lastRemoteTag inst.Tags k) ∧
    ((∃ t ∈ inst.Tags, ∃ tag, t = some tag ∧ (tag.TagKey = none ∨ tag.TagValue = none)) →
      (resourceTencentCloudMongodbStandbyInstanceRead env r d tr).out
        = .err (.Errorf "mongodb tag key is nil") ∨
      (resourceTencentCloudMongodbStandbyInstanceRead env r d tr).out
        = .err (.Errorf "mongodb tag value is nil")) := by
  obtain ⟨d1, hread⟩ := standbyRead_reaches_rest env r d tr inst payMode hfound hnil hpay hrenew
  obtain ⟨herr, hok⟩ := readRest_tags inst d1 (tr ++ [⟨.DescribeInstanceById d.id, true⟩])
    (CheckNil_nil inst hnil).2.2
  rw [hread]
  constructor
  · intro hkv
    have hall : ∀ t ∈ inst.Tags, ∃ k v, t = some ⟨some k, some v⟩ := by
      intro t ht
      cases t with
      | none => exact absurd rfl (hptr none ht)
      | some tag =>
          obtain ⟨h1, h2⟩ := hkv _ ht tag rfl
          obtain ⟨tk, tv⟩ := tag
          cases tk with
          | none => exact absurd rfl h1
          | some k =>
              cases tv with
              | none => exact absurd rfl h2
              | some v => exact ⟨k, v, rfl⟩
    obtain ⟨m, hm, hnd, hproj, hlk⟩ := readTags_complete inst.Tags hall []
    obtain ⟨ho, hs⟩ := hok m hm
    refine ⟨m, ho, hs, ?_, hnd (by simp), ?_⟩
    · intro hmem
      obtain ⟨v, hv⟩ := lookup_isSome_of_mem "project" m hmem
      rw [hproj] at hv
      exact Option.noConfusion hv
    · intro k hk
      rw [hlk k hk]
      unfold lastRemoteTag
      cases (remoteTagPairs inst.Tags).reverse.lookup k <;> rfl
  · intro hbad
    rcases readTags_nil_field inst.Tags hptr hbad [] with h | h
    · exact Or.inl (herr _ h)
    · exact Or.inr (herr _ h)

/-- Witness of C22: the tags `project = default`, `team = a`, `team = b`. -/
theorem standby_read_tags_witness :
    (∀ t ∈ sampleTaggedInstance.Tags, ∀ tag, t = some tag →
      tag.TagKey ≠ none ∧ tag.TagValue ≠ none) ∧
    (resourceTencentCloudMongodbStandbyInstanceRead sampleEnv remoteTagged sampleStandbyData
      []).d.sets.getLast? = some ("tags", .map [("team", "b")]) ∧
    ∃ m, (resourceTencentCloudMongodbStandbyInstanceRead sampleEnv remoteTagged sampleStandbyData
        []).out = .ok () ∧
      (resourceTencentCloudMongodbStandbyInstanceRead sampleEnv remoteTagged sampleStandbyData
        []).d.sets.getLast? = some ("tags", .map m) ∧
      "project" ∉ m.map Prod.fst ∧ (m.map Prod.fst).Nodup ∧
      ∀ k, k ≠ "project" → m.lookup k = lastRemoteTag sampleTaggedInstance.Tags k :=
  ⟨by decide, by decide,
    (standby_read_tags sampleEnv remoteTagged sampleStandbyData [] sampleTaggedInstance 0 rfl
      (by decide) rfl (fun _ => by decide) (by decide)).1 (by decide)⟩

/-! ### The paged query of DCDB instances -/

theorem addInt64_small (x y : Int) (h0 : 0 ≤ x + y) (h1 : x + y < 2 ^ 63) :
    addInt64 x y = x + y := by
  unfold addInt64
  have e63 : (2 : Int) ^ 63 = 9223372036854775808 := by norm_num
  have e64 : (2 : Int) ^ 64 = 18446744073709551616 := by norm_num
  rw [e63] at h1 ⊢
  rw [e64]
  omega

theorem take_add_drop_take {α : Type} (L : List α) (a b : Nat) :
    L.take a ++ (L.drop a).take b = L.take (a + b) := by
  rw [List.take_add]

/-- The pages of a remote that answers offset `o` and limit 20 with the slice
of `L` from `o`, started at a page boundary. -/
theorem pages_slices (r : Remote) (L : List (Option DCDBInstanceInfo))
    (hremote : ∀ (t : List Event) (o : Nat) (req : DescribeDCDBInstancesRequest),
      req.Offset = some (o : Int) → req.Limit = some 20 →
      r.DescribeDCDBInstances t req = .ok (some ⟨some ⟨(L.drop o).take 20⟩⟩))
    (hlen : (L.length : Int) + 20 < 2 ^ 63) :
    ∀ (j i : Nat) (request : DescribeDCDBInstancesRequest) (tr : List Event),
      20 * i ≤ L.length → L.length / 20 - i = j →
      ∀ fuel, j + 1 ≤ fuel →
        describeDcdbInstancesPages r request fuel tr ((20 * i : Nat) : Int) (L.take (20 * i))
          = (tr ++ (List.range' i (j + 1)).map (fun n =>
                (⟨.DescribeDCDBInstances
                  { request with Offset := some ((20 * n : Nat) : Int), Limit := some 20 },
                  true⟩ : Event)),
              .returned L none) := by
  intro j
  induction j with
  | zero =>
      intro i request tr hi hj fuel hfuel
      obtain ⟨fuel, rfl⟩ : ∃ f, fuel = f + 1 := ⟨fuel - 1, by omega⟩
      have hrem : L.length - 20 * i < 20 := by
        have := Nat.div_add_mod L.length 20
        have := Nat.mod_lt L.length (show 20 > 0 by omega)
        have : L.length / 20 ≤ i := by omega
        omega
      have hans := hremote tr (20 * i)
        { request with Offset := some ((20 * i : Nat) : Int), Limit := some 20 } rfl rfl
      have hl : ((L.drop (20 * i)).take 20).length = L.length - 20 * i := by
        rw [List.length_take, List.length_drop]; omega
      have htr : tr ++ (List.range' i (0 + 1)).map (fun n =>
            (⟨.DescribeDCDBInstances
              { request with Offset := some ((20 * n : Nat) : Int), Limit := some 20 },
              true⟩ : Event))
          = tr ++ [⟨.DescribeDCDBInstances
              { request with Offset := some ((20 * i : Nat) : Int), Limit := some 20 },
              true⟩] := by
        simp [List.range']
      rw [htr]
      simp only [describeDcdbInstancesPages, callVal, record, hans, hl]
      by_cases h0 : L.length - 20 * i < 1
      · have hL : L.take (20 * i) = L := List.take_of_length_le (by omega)
        rw [if_pos h0, hL]
      · have h1 : ((L.length - 20 * i : Nat) : Int) < 20 := by omega
        have hL : L.take (20 * i + 20) = L := List.take_of_length_le (by omega)
        rw [if_neg h0, if_pos h1, take_add_drop_take, hL]
  | succ j ih =>
      intro i request tr hi hj fuel hfuel
      obtain ⟨fuel, rfl⟩ : ∃ f, fuel = f + 1 := ⟨fuel - 1, by omega⟩
      have hfull : 20 * (i + 1) ≤ L.length := by
        have := Nat.div_add_mod L.length 20
        have : i + 1 ≤ L.length / 20 := by omega
        omega
      have hans := hremote tr (20 * i)
        { request with Offset := some ((20 * i : Nat) : Int), Limit := some 20 } rfl rfl
      have hl : ((L.drop (20 * i)).take 20).length = 20 := by
        rw [List.length_take, List.length_drop]; omega
      have hoff : addInt64 ((20 * i : Nat) : Int) 20 = ((20 * (i + 1) : Nat) : Int) := by
        rw [addInt64_small]
        · push_cast; ring
        · omega
        · have : ((20 * i : Nat) : Int) + 20 ≤ (L.length : Int) + 20 := by omega
          exact lt_of_le_of_lt this hlen
      have hnext := ih (i + 1)
        { request with Offset := some ((20 * i : Nat) : Int), Limit := some 20 }
        (tr ++ [⟨.DescribeDCDBInstances
          { request with Offset := some ((20 * i : Nat) : Int), Limit := some 20 }, true⟩])
        hfull (by omega) fuel (by omega)
      have e : 20 * i + 20 = 20 * (i + 1) := by ring
      have h1 : ¬ (20 < 1) := by omega
      have h2 : ¬ (((20 : Nat) : Int) < 20) := by omega
      simp only [describeDcdbInstancesPages, callVal, record, hans, hl]
      rw [if_neg h1, if_neg h2, hoff, take_add_drop_take, e, hnext, List.range'_succ,
        List.map_cons, List.append_assoc]
      rfl

theorem pages_error (r : Remote) :
    ∀ (fuel : Nat) (request : DescribeDCDBInstancesRequest) (t : List Event) (offset : Int)
      (instances items : List (Option DCDBInstanceInfo)) (e : RemoteError),
      (describeDcdbInstancesPages r request fuel t offset instances).2
        = .returned items (some e) →
      ∃ t1 req,
        (describeDcdbInstancesPages r request fuel t offset instances).1
          = t1 ++ [⟨.DescribeDCDBInstances req, false⟩] ∧
        r.DescribeDCDBInstances t1 req = .error e := by
  intro fuel
  induction fuel with
  | zero =>
      intro request t offset instances items e h
      simp [describeDcdbInstancesPages] at h
  | succ fuel ih =>
      intro request t offset instances items e h
      simp only [describeDcdbInstancesPages, callVal, record] at h ⊢
      cases hans : r.DescribeDCDBInstances t
          { request with Offset := some offset, Limit := some 20 } with
      | error err =>
          rw [hans] at h
          simp only [Paged.returned.injEq, Option.some.injEq] at h
          rw [← h.2]
          exact ⟨t, _, rfl, hans⟩
      | ok resp =>
          rw [hans] at h
          cases resp with
          | none => simp at h
          | some resp =>
              obtain ⟨body⟩ := resp
              cases body with
              | none => simp at h
              | some response =>
                  simp only at h ⊢
                  split_ifs at h ⊢ with h1 h2
                  · simp at h
                  · simp at h
                  · exact ih _ _ _ _ items e h

/-- Claim C24.  With `fuel` rounds at hand for the loop and a request built
from well-typed parameters: (1) on a remote that answers offset `o` and limit
20 with the slice of `L` from `o` of at most 20 instances, `L` being short
enough for the offsets to fit `int64`, every `fuel` of at least
`|L| / 20 + 1` gives the same result: the function returns `L` and no error
after exactly `|L| / 20 + 1` calls, whose offsets are 0, 20, 40, ... and whose
limit is 20; (2) on any remote, a failing call ends the loop with the error of
that call (and the instances gathered before it); (3) on any remote, an error
that the function returns is the error of its last call. -/
theorem dcdb_instances_pagination (r : Remote) (params : List (String × ParamValue))
    (request : DescribeDCDBInstancesRequest) (tr : List Event)
    (hreq : describeDcdbInstancesRequest params = some request) :
    (∀ L : List (Option DCDBInstanceInfo),
      (∀ (t : List Event) (o : Nat) (req : DescribeDCDBInstancesRequest),
        req.Offset = some (o : Int) → req.Limit = some 20 →
        r.DescribeDCDBInstances t req = .ok (some ⟨some ⟨(L.drop o).take 20⟩⟩)) →
      (L.length : Int) + 20 < 2 ^ 63 →
      ∀ fuel, L.length / 20 + 1 ≤ fuel →
        DescribeDcdbInstancesByFilter r params fuel tr
          = (tr ++ (List.range (L.length / 20 + 1)).map (fun n =>
                (⟨.DescribeDCDBInstances
                  { request with Offset := some ((20 * n : Nat) : Int), Limit := some 20 },
                  true⟩ : Event)),
              .returned L none)) ∧
    (∀ (fuel : Nat) (t : List Event) (offset : Int) (instances : List (Option DCDBInstanceInfo))
        (e : RemoteError),
      r.DescribeDCDBInstances t { request with Offset := some offset, Limit := some 20 }
        = .error e →
      describeDcdbInstancesPages r request (fuel + 1) t offset instances
        = (t ++ [⟨.DescribeDCDBInstances
              { request with Offset := some offset, Limit := some 20 }, false⟩],
            .returned instances (some e))) ∧
    (∀ (fuel : Nat) (items : List (Option DCDBInstanceInfo)) (e : RemoteError),
      (DescribeDcdbInstancesByFilter r params fuel tr).2 = .returned items (some e) →
      ∃ t req,
        (DescribeDcdbInstancesByFilter r params fuel tr).1
          = t ++ [⟨.DescribeDCDBInstances req, false⟩] ∧
        r.DescribeDCDBInstances t req = .error e) := by
  refine ⟨?_, ?_, ?_⟩
  · intro L hremote hlen fuel hfuel
    have h := pages_slices r L hremote hlen (L.length / 20) 0 request tr (by omega) (by omega)
      fuel hfuel
    simp only [Nat.mul_zero, List.take_zero, Nat.cast_zero] at h
    unfold DescribeDcdbInstancesByFilter
    rw [hreq]
    simp only
    rw [h, List.range_eq_range']
  · intro fuel t offset instances e hans
    simp only [describeDcdbInstancesPages, callVal, record, hans]
  · intro fuel items e h
    unfold DescribeDcdbInstancesByFilter at h ⊢
    rw [hreq] at h ⊢
    exact pages_error r fuel request tr 0 [] items e h

/-- Witness of C24: a remote that holds twenty-one instances; the query makes
two calls, at the offsets 0 and 20. -/
theorem dcdb_instances_pagination_witness :
    describeDcdbInstancesRequest [("instance_ids", .strPtrs [some "tdsqlshard-p9y1vyrk"])]
      = some { newDescribeDCDBInstancesRequest with
          InstanceIds := [some "tdsqlshard-p9y1vyrk"] } ∧
    sampleDcdbInstances.length / 20 + 1 = 2 ∧
    DescribeDcdbInstancesByFilter (remotePaged sampleDcdbInstances)
        [("instance_ids", .strPtrs [some "tdsqlshard-p9y1vyrk"])] 2 []
      = ([] ++ (List.range (sampleDcdbInstances.length / 20 + 1)).map (fun n =>
            (⟨.DescribeDCDBInstances
              { newDescribeDCDBInstancesRequest with
                InstanceIds := [some "tdsqlshard-p9y1vyrk"]
                Offset := some ((20 * n : Nat) : Int), Limit := some 20 }, true⟩ : Event)),
          .returned sampleDcdbInstances none) :=
  ⟨by decide, by decide,
    (dcdb_instances_pagination (remotePaged sampleDcdbInstances)
      [("instance_ids", .strPtrs [some "tdsqlshard-p9y1vyrk"])]
      { newDescribeDCDBInstancesRequest with InstanceIds := [some "tdsqlshard-p9y1vyrk"] } []
      (by decide)).1 sampleDcdbInstances
      (fun t o req h1 h2 => by simp [remotePaged, h1, h2])
      (by decide) 2 (by decide)⟩

/-! ### The paged query of DCDB accounts -/

theorem accounts_repeat (r : Remote) (request : DescribeAccountsRequest)
    (users : List (Option DBAccount))
    (hsame : ∀ t, r.DescribeAccounts t request = .ok (some ⟨some ⟨users⟩⟩))
    (hfull : 20 ≤ users.length) :
    ∀ (fuel : Nat) (tr : List Event) (offset : Int) (accounts : List (Option DBAccount)),
      describeDcdbAccountsPages r request fuel tr offset accounts
        = (tr ++ List.replicate fuel ⟨.DescribeAccounts request, true⟩,
            .running (accounts ++ (List.replicate fuel users).flatten)) := by
  intro fuel
  induction fuel with
  | zero =>
      intro tr offset accounts
      simp [describeDcdbAccountsPages]
  | succ fuel ih =>
      intro tr offset accounts
      have h1 : ¬ users.length < 1 := by omega
      have h2 : ¬ ((users.length : Int) < 20) := by omega
      simp only [describeDcdbAccountsPages, callVal, record, hsame]
      rw [if_neg h1, if_neg h2, ih]
      simp [List.replicate_succ]

/-- Claim C25, refuted.  `DescribeDcdbAccountsByFilter` writes neither offset
nor limit into its request, so every round sends the same request.  On a
remote that answers this request with the same successful response every
time: when the response holds 20 users or more, the loop is still running
after every number of rounds, each round having issued the same call and
appended the same users once more, so the function does not return and the
gathered list holds every user as many times as rounds were run; when the
response holds fewer than 20 users, the function returns them after one
call. -/
theorem dcdb_accounts_pagination_repeats (r : Remote) (param : List (String × ParamValue))
    (request : DescribeAccountsRequest) (users : List (Option DBAccount)) (tr : List Event)
    (hreq : describeDcdbAccountsRequest param = some request)
    (hsame : ∀ t, r.DescribeAccounts t request = .ok (some ⟨some ⟨users⟩⟩)) :
    (20 ≤ users.length → ∀ fuel,
      DescribeDcdbAccountsByFilter r param fuel tr
        = (tr ++ List.replicate fuel ⟨.DescribeAccounts request, true⟩,
            .running (List.replicate fuel users).flatten)) ∧
    (users.length < 20 → ∀ fuel,
      DescribeDcdbAccountsByFilter r param (fuel + 1) tr
        = (tr ++ [⟨.DescribeAccounts request, true⟩], .returned users none)) := by
  constructor
  · intro hfull fuel
    unfold DescribeDcdbAccountsByFilter
    rw [hreq]
    simp only
    rw [accounts_repeat r request users hsame hfull fuel tr 0 []]
    simp
  · intro hless fuel
    unfold DescribeDcdbAccountsByFilter
    rw [hreq]
    simp only [describeDcdbAccountsPages, callVal, record, hsame]
    by_cases h0 : users.length < 1
    · have : users = [] := List.length_eq_zero.1 (by omega)
      rw [if_pos h0, this]
    · have h1 : (users.length : Int) < 20 := by omega
      rw [if_neg h0, if_pos h1]
      simp

/-- Witness of C25, refuted: a remote that holds twenty accounts; after three
rounds the loop is still running and holds sixty accounts. -/
theorem dcdb_accounts_pagination_repeats_witness :
    describeDcdbAccountsRequest [("instance_id", .strPtr (some "tdsqlshard-p9y1vyrk"))]
      = some ⟨some "tdsqlshard-p9y1vyrk"⟩ ∧
    20 ≤ sampleDcdbAccounts.length ∧
    DescribeDcdbAccountsByFilter remoteTwentyAccounts
        [("instance_id", .strPtr (some "tdsqlshard-p9y1vyrk"))] 3 []
      = ([] ++ List.replicate 3 ⟨.DescribeAccounts ⟨some "tdsqlshard-p9y1vyrk"⟩, true⟩,
          .running (List.replicate 3 sampleDcdbAccounts).flatten) :=
  ⟨by decide, by decide,
    (dcdb_accounts_pagination_repeats remoteTwentyAccounts
      [("instance_id", .strPtr (some "tdsqlshard-p9y1vyrk"))] ⟨some "tdsqlshard-p9y1vyrk"⟩
      sampleDcdbAccounts [] (by decide) (fun _ => rfl)).1 (by decide) 3⟩

/-! ### The round trip of the plugin-attachment identity -/

theorem Split_join4_of_Contains (pluginId serviceId environmentName apiId : String)
    (h1 : Contains pluginId FILED_SP = false) (h2 : Contains serviceId FILED_SP = false)
    (h3 : Contains environmentName FILED_SP = false) (h4 : Contains apiId FILED_SP = false) :
    Split (pluginId ++ FILED_SP ++ serviceId ++ FILED_SP ++ environmentName ++ FILED_SP ++ apiId)
        FILED_SP = [pluginId, serviceId, environmentName, apiId] := by
  have f : ∀ s : String, Contains s FILED_SP = false → '#' ∉ s.data := by
    intro s hs hm
    rw [(Contains_sep s).2 hm] at hs
    exact Bool.noConfusion hs
  exact Split_join4 pluginId serviceId environmentName apiId (f _ h1) (f _ h2) (f _ h3) (f _ h4)

/-- Claim C1 (round trip of the plugin-attachment identity).  Let none of
pluginId, serviceId, environmentName and apiId contain the separator `FILED_SP`.
(1) Splitting `pluginId + SEP + serviceId + SEP + environmentName + SEP + apiId`
on the separator yields exactly four parts, the four components in that order.
(2) Create, on a configuration with these four components, either fails in the
attach call and leaves the data as it was, or stores exactly that joined id and
hands it to Read, whose describe call then carries the four components.
(3) On every resource data whose id is that joined id, Read issues the describe
call with the four components and nothing else, and writes the decoded
pluginId as `plugin_id` when the attachment is found; Delete issues the delete
call with the four components and nothing else. -/
theorem plugin_attachment_id_round_trip (env : Env) (r : Remote)
    (pluginId serviceId environmentName apiId : String)
    (h1 : Contains pluginId FILED_SP = false) (h2 : Contains serviceId FILED_SP = false)
    (h3 : Contains environmentName FILED_SP = false) (h4 : Contains apiId FILED_SP = false) :
    (Split (pluginId ++ FILED_SP ++ serviceId ++ FILED_SP ++ environmentName ++ FILED_SP ++ apiId)
        FILED_SP = [pluginId, serviceId, environmentName, apiId] ∧
      (Split (pluginId ++ FILED_SP ++ serviceId ++ FILED_SP ++ environmentName ++ FILED_SP
        ++ apiId) FILED_SP).length = 4) ∧
    (∀ (d : ResourceData) (tr : List Event),
      (d.Get "plugin_id").asString = pluginId → (d.Get "service_id").asString = serviceId →
      (d.Get "environment_name").asString = environmentName →
      (d.Get "api_id").asString = apiId →
      ∃ (pre : List Event) (request : AttachPluginRequest),
        (resourceTencentCloudApiGatewayPluginAttachmentCreate env r d tr
            = ⟨d, tr ++ pre ++ [⟨.AttachPlugin request, false⟩],
                (resourceTencentCloudApiGatewayPluginAttachmentCreate env r d tr).out⟩ ∧
          ∃ e, (resourceTencentCloudApiGatewayPluginAttachmentCreate env r d tr).out
            = .err (.Remote e)) ∨
        (resourceTencentCloudApiGatewayPluginAttachmentCreate env r d tr
            = resourceTencentCloudApiGatewayPluginAttachmentRead r
                (d.SetId (pluginId ++ FILED_SP ++ serviceId ++ FILED_SP ++ environmentName
                  ++ FILED_SP ++ apiId))
                (tr ++ pre ++ [⟨.AttachPlugin request, true⟩]) ∧
          ∃ ok, (resourceTencentCloudApiGatewayPluginAttachmentCreate env r d tr).trace
            = tr ++ pre ++ [⟨.AttachPlugin request, true⟩,
                ⟨.DescribeApiGatewayPluginAttachmentById pluginId serviceId environmentName apiId,
                  ok⟩])) ∧
    (∀ (d : ResourceData) (tr : List Event),
      d.id = pluginId ++ FILED_SP ++ serviceId ++ FILED_SP ++ environmentName ++ FILED_SP ++ apiId →
      (∃ ok, (resourceTencentCloudApiGatewayPluginAttachmentRead r d tr).trace
          = tr ++ [⟨.DescribeApiGatewayPluginAttachmentById pluginId serviceId environmentName
              apiId, ok⟩]) ∧
      (∀ pluginAttachment,
        r.DescribeApiGatewayPluginAttachmentById tr pluginId serviceId environmentName apiId
          = .ok (some pluginAttachment) →
        resourceTencentCloudApiGatewayPluginAttachmentRead r d tr
          = ⟨(((d.Set "plugin_id" (.str pluginId)).SetNonNil "service_id"
                (pluginAttachment.ServiceId.map .str)).SetNonNil "environment_name"
                (pluginAttachment.Environment.map .str)).SetNonNil "api_id"
                (pluginAttachment.ApiId.map .str),
              tr ++ [⟨.DescribeApiGatewayPluginAttachmentById pluginId serviceId environmentName
                apiId, true⟩], .ok ()⟩) ∧
      ∃ ok, (resourceTencentCloudApiGatewayPluginAttachmentDelete r d tr).trace
          = tr ++ [⟨.DeleteApiGatewayPluginAttachmentById pluginId serviceId environmentName
              apiId, ok⟩]) := by
  have hsplit := Split_join4_of_Contains pluginId serviceId environmentName apiId h1 h2 h3 h4
  have hread : ∀ (d : ResourceData) (tr : List Event),
      d.id = pluginId ++ FILED_SP ++ serviceId ++ FILED_SP ++ environmentName ++ FILED_SP
        ++ apiId →
      ∃ ok, (resourceTencentCloudApiGatewayPluginAttachmentRead r d tr).trace
          = tr ++ [⟨.DescribeApiGatewayPluginAttachmentById pluginId serviceId environmentName
              apiId, ok⟩] := by
    intro d tr hid
    simp only [resourceTencentCloudApiGatewayPluginAttachmentRead, hid, hsplit, callVal, record]
    cases hq : r.DescribeApiGatewayPluginAttachmentById tr pluginId serviceId environmentName
        apiId with
    | error e => exact ⟨false, by simp [hq]⟩
    | ok o =>
        cases o with
        | none => exact ⟨true, by simp [hq]⟩
        | some att => exact ⟨true, by simp [hq]⟩
  refine ⟨⟨hsplit, by rw [hsplit]; rfl⟩, ?_, ?_⟩
  · intro d tr hp hs he ha
    simp only [resourceTencentCloudApiGatewayPluginAttachmentCreate, GetOk_asString, hp, hs, he,
      ha]
    generalize hreq : ({ PluginId := _, ServiceId := _, EnvironmentName := _, ApiIds := _ }
      : AttachPluginRequest) = request
    obtain ⟨pre, hpre⟩ := Retry_retryCall env (.AttachPlugin request)
      (fun t => r.AttachPlugin t request) env.writeRetryTimeout tr
    refine ⟨pre, request, ?_⟩
    rcases hpre with h | ⟨e, h⟩
    · right
      rw [h]
      refine ⟨rfl, ?_⟩
      obtain ⟨ok, hok⟩ := hread (d.SetId (pluginId ++ FILED_SP ++ serviceId ++ FILED_SP
        ++ environmentName ++ FILED_SP ++ apiId)) (tr ++ pre ++ [⟨.AttachPlugin request, true⟩])
        rfl
      exact ⟨ok, by simp only [hok]; simp⟩
    · left
      rw [h]
      exact ⟨rfl, e, rfl⟩
  · intro d tr hid
    refine ⟨hread d tr hid, ?_, ?_⟩
    · intro att hatt
      simp [resourceTencentCloudApiGatewayPluginAttachmentRead, hid, hsplit, callVal, record,
        hatt]
    · simp only [resourceTencentCloudApiGatewayPluginAttachmentDelete, hid, hsplit, callErr,
        record]
      cases hq : r.DeleteApiGatewayPluginAttachmentById tr pluginId serviceId environmentName
          apiId with
      | some e => exact ⟨false, by simp [hq]⟩
      | none => exact ⟨true, by simp [hq]⟩


/-- Witness of C1: the identity of the documented example. -/
theorem plugin_attachment_id_round_trip_witness :
    Contains "plugin-ny74siyz" FILED_SP = false ∧
    (samplePluginExample.Get "plugin_id").asString = "plugin-ny74siyz" ∧
    (resourceTencentCloudApiGatewayPluginAttachmentCreate sampleEnv remotePluginAttached
      samplePluginExample []).trace
      = [⟨.AttachPlugin ⟨some "plugin-ny74siyz", some "service-n1mgl0sq", some "test",
            ["api-6tfrdysk"]⟩, true⟩,
          ⟨.DescribeApiGatewayPluginAttachmentById "plugin-ny74siyz" "service-n1mgl0sq" "test"
            "api-6tfrdysk", true⟩] ∧
    (resourceTencentCloudApiGatewayPluginAttachmentCreate sampleEnv remotePluginAttached
      samplePluginExample []).d.id = "plugin-ny74siyz#service-n1mgl0sq#test#api-6tfrdysk" ∧
    Split ("plugin-ny74siyz" ++ FILED_SP ++ "service-n1mgl0sq" ++ FILED_SP ++ "test" ++ FILED_SP
        ++ "api-6tfrdysk") FILED_SP
      = ["plugin-ny74siyz", "service-n1mgl0sq", "test", "api-6tfrdysk"] ∧
    ∃ ok, (resourceTencentCloudApiGatewayPluginAttachmentDelete remotePluginAttached
        (samplePluginExample.SetId ("plugin-ny74siyz" ++ FILED_SP ++ "service-n1mgl0sq"
          ++ FILED_SP ++ "test" ++ FILED_SP ++ "api-6tfrdysk")) []).trace
      = [] ++ [⟨.DeleteApiGatewayPluginAttachmentById "plugin-ny74siyz" "service-n1mgl0sq" "test"
          "api-6tfrdysk", ok⟩] :=
  ⟨by decide, by decide, by decide, by decide,
    (plugin_attachment_id_round_trip sampleEnv remotePluginAttached "plugin-ny74siyz"
      "service-n1mgl0sq" "test" "api-6tfrdysk" (by decide) (by decide) (by decide)
      (by decide)).1.1,
    ((plugin_attachment_id_round_trip sampleEnv remotePluginAttached "plugin-ny74siyz"
      "service-n1mgl0sq" "test" "api-6tfrdysk" (by decide) (by decide) (by decide)
      (by decide)).2.2
      (samplePluginExample.SetId ("plugin-ny74siyz" ++ FILED_SP ++ "service-n1mgl0sq"
        ++ FILED_SP ++ "test" ++ FILED_SP ++ "api-6tfrdysk")) [] rfl).2.2⟩

end TencentCloud
